import Mathlib

/-!
Verification development for the `libmaccas` API client
(`src/api.rs`, `src/lib.rs`, `src/error.rs`, `src/types/response.rs`).

The client is a typed HTTP binding: each endpoint method builds a request
(headers, query, optional JSON body), sends it through a shared transport,
and maps the raw response into a typed envelope or an error.  We embed the
request-construction and response-mapping logic shallowly:

* JSON values are modelled by an inductive `Json`; numbers carry
  serde_json's internal tag: integer-tagged (`num`, the `PosInt`/`NegInt`
  variants of `serde_json::Number`, as an `Int`) or float-tagged (`fnum`,
  the `Float` variant, an `f64` carried opaquely by its IEEE-754 bit
  pattern).
* A response body on the wire is modelled by `Body`: either well-formed
  JSON or malformed bytes (abstracting the byte-level body by the outcome
  of serde_json's text-level parse, which belongs to the external library).
* The dynamic type of the boxed error (`Box<dyn Error + Send + Sync>` in
  `lib.rs`; equivalently the variants of `ClientError` in `error.rs`) is
  modelled by the inductive `BoxedError`: send failures box a
  `reqwest_middleware::Error` (`reqwestMiddleware`, `ClientError::
  RequestOrMiddlewareError`), body-decode failures box a `reqwest::Error`
  (`reqwestDecode`, `ClientError::RequestError`), token-precondition
  failures box an `anyhow::Error` from `.context(..)` (`anyhowContext`),
  and integer-coercion failures box a `std::num::ParseIntError`
  (`parseIntError`); the latter two are `ClientError::Other`.
* Randomness (`Uuid::new_v4`, `StdRng::from_entropy`) is modelled by
  explicit entropy streams `Nat → Nat` passed to each call.
* Each endpoint returns an `Outcome`: the `Result` value together with the
  list of requests handed to the transport, so that "no request is sent"
  is directly observable (the mock-transport call-count view).
-/

/-- An `f64` value carried opaquely by its IEEE-754 bit pattern (the
client never computes with floats; they only pass through
serialization, which preserves the bits of a finite value). -/
structure F64 where
  bits : Nat
deriving DecidableEq

/-- Finiteness of an `f64`: the exponent bits are not all ones. -/
def F64.isFinite (x : F64) : Bool :=
  decide ((x.bits / 2 ^ 52) % 2 ^ 11 ≠ 2047)

/-- JSON values (`serde_json::Value`); a number is integer-tagged
(`num`: the `PosInt`/`NegInt` variants of `serde_json::Number`) or
float-tagged (`fnum`: the `Float` variant — the two tags do not compare
equal in serde_json, and `Number::from_f64` never produces a non-finite
`Float`). -/
inductive Json where
  | null : Json
  | bool (b : Bool) : Json
  | num (n : Int) : Json
  | fnum (x : F64) : Json
  | str (s : String) : Json
  | arr (elems : List Json) : Json
  | obj (fields : List (String × Json)) : Json

/-- A response body on the wire: well-formed JSON, or bytes that fail
serde_json's text-level parse. -/
inductive Body where
  | wellFormed (j : Json) : Body
  | malformed (raw : String) : Body

/-- The raw HTTP response handed back by the transport
(`reqwest::Response`): status code, header multi-map, body bytes. -/
structure HttpResponse where
  status : Nat
  headers : List (String × String)
  body : Body

/-- `reqwest_middleware::Error`: either a middleware failure or an
underlying `reqwest` transport failure (connection, timeout, TLS). -/
inductive TransportError where
  | middleware (msg : String) : TransportError
  | reqwest (msg : String) : TransportError
deriving DecidableEq

/-- The dynamic type of the error boxed into
`Box<dyn std::error::Error + Send + Sync>` (`lib.rs`), equivalently the
variant of `ClientError` (`error.rs`) it converts into. -/
inductive BoxedError where
  /-- `reqwest_middleware::Error` from `request.send().await?`
  (`ClientError::RequestOrMiddlewareError`). -/
  | reqwestMiddleware (e : TransportError) : BoxedError
  /-- `reqwest::Error` (decode) from `resp.json::<T>().await?`
  (`ClientError::RequestError`). -/
  | reqwestDecode (msg : String) : BoxedError
  /-- `anyhow::Error` from `.context("no ... token set")?`
  (`ClientError::Other`). -/
  | anyhowContext (msg : String) : BoxedError
  /-- `std::num::ParseIntError` from `.parse::<i64>()?`
  (`ClientError::Other`); carries the offending input string. -/
  | parseIntError (input : String) : BoxedError
deriving DecidableEq

/-- HTTP method (`reqwest::Method`), restricted to those used. -/
inductive Method where
  | GET : Method
  | POST : Method
  | DELETE : Method
deriving DecidableEq

/-- The request under construction (`reqwest_middleware::RequestBuilder`)
as used by this client: headers are kept in call order; `basic_auth` and
`bearer_auth` (which set the `authorization` header) are kept structured. -/
structure RequestBuilder where
  method : Method
  url : String
  headers : List (String × String)
  queryParams : List (String × String)
  basicAuth : Option (String × Option String)
  bearerToken : Option String
  jsonBody : Option Json

/-- `RequestBuilder::header`: record the header-set call (in call order;
for a repeated name the later call is the effective value). -/
def RequestBuilder.header (r : RequestBuilder) (k v : String) : RequestBuilder :=
  { r with headers := r.headers ++ [(k, v)] }

/-- `RequestBuilder::query`: append query parameters. -/
def RequestBuilder.query (r : RequestBuilder) (ps : List (String × String)) : RequestBuilder :=
  { r with queryParams := r.queryParams ++ ps }

/-- `RequestBuilder::basic_auth`: set HTTP basic authentication
(username, optional password). -/
def RequestBuilder.basic_auth (r : RequestBuilder) (u : String) (p : Option String) :
    RequestBuilder :=
  { r with basicAuth := some (u, p) }

/-- `RequestBuilder::bearer_auth`: set the bearer token. -/
def RequestBuilder.bearer_auth (r : RequestBuilder) (t : String) : RequestBuilder :=
  { r with bearerToken := some t }

/-- `RequestBuilder::json`: set the JSON body. -/
def RequestBuilder.json (r : RequestBuilder) (b : Json) : RequestBuilder :=
  { r with jsonBody := some b }

/-- The effective value of header `k`: the value of the last `.header`
call for that name. -/
def RequestBuilder.lastHeader? (r : RequestBuilder) (k : String) : Option String :=
  ((r.headers.filter (fun p => p.1 = k)).getLast?).map (fun p => p.2)

/-- The transport capability (`&ClientWithMiddleware`): maps a fully built
request to a transport error or a raw response. -/
def Transport : Type := RequestBuilder → Except TransportError HttpResponse

/-- `ApiClient` (`src/api.rs`): base URL, shared transport, the two token
slots, and the client id. -/
structure ApiClient where
  base_url : String
  client : Transport
  auth_token : Option String
  login_token : Option String
  client_id : String

/-- `ApiClient::new`: both token slots start empty. -/
def ApiClient.new (base_url : String) (client : Transport) (client_id : String) : ApiClient :=
  { base_url := base_url, client := client, login_token := none, auth_token := none,
    client_id := client_id }

/-- `ApiClient::set_login_token` (inputs are stringified at the boundary). -/
def ApiClient.set_login_token (c : ApiClient) (login_token : String) : ApiClient :=
  { c with login_token := some login_token }

/-- `ApiClient::set_auth_token`. -/
def ApiClient.set_auth_token (c : ApiClient) (auth_token : String) : ApiClient :=
  { c with auth_token := some auth_token }

/-- Hex digits used to print UUID bytes. -/
def hexChars : List Char :=
  "0123456789abcdef".data

/-- Two lowercase hex digits of a byte. -/
def byteHex (n : Nat) : List Char :=
  [hexChars.getD (n / 16 % 16) '0', hexChars.getD (n % 16) '0']

/-- `ApiClient::get_uuid` = `Uuid::new_v4().as_hyphenated().to_string()`:
16 random bytes (drawn from the supplied entropy stream) with the version
nibble forced to 4 and the variant bits to 10, printed as hyphenated hex
(8-4-4-4-12). -/
def ApiClient.get_uuid (entropy : Nat → Nat) : String :=
  let b : Nat → Nat := fun i =>
    let r := entropy i % 256
    if i = 6 then 64 + r % 16 else if i = 8 then 128 + r % 64 else r
  let seg : Nat → Nat → List Char := fun lo hi =>
    ((List.range (hi - lo)).map (fun k => byteHex (b (lo + k)))).flatten
  String.mk (seg 0 4 ++ ['-'] ++ seg 4 6 ++ ['-'] ++ seg 6 8 ++ ['-'] ++
    seg 8 10 ++ ['-'] ++ seg 10 16)

/-- `ApiClient::get_default_request`: the fixed header fingerprint carried
by every outbound request, with a fresh UUID drawn from this request's
entropy. -/
def ApiClient.get_default_request (c : ApiClient) (entropy : Nat → Nat) (resource : String)
    (method : Method) : RequestBuilder :=
  ({ method := method
     url := c.base_url ++ "/" ++ resource
     headers := []
     queryParams := []
     basicAuth := none
     bearerToken := none
     jsonBody := none : RequestBuilder }
    |>.header "accept-encoding" "gzip"
    |>.header "accept-charset" "UTF-8"
    |>.header "accept-language" "en-AU"
    |>.header "content-type" "application/json; charset=UTF-8"
    |>.header "mcd-clientid" c.client_id
    |>.header "mcd-uuid" (ApiClient.get_uuid entropy)
    |>.header "user-agent" "MCDSDK/20.0.14 (Android; 31; en-AU) GMA/6.2"
    |>.header "mcd-sourceapp" "GMA"
    |>.header "mcd-marketid" "AU")

/-- The typed success envelope `ClientResponse<T>`
(`src/types/response.rs`): status code, headers, deserialized body. -/
structure ClientResponse (T : Type) where
  status : Nat
  headers : List (String × String)
  body : T
deriving DecidableEq

/-- `resp.json::<T>()`: serde_json's text-level parse followed by the
type's shape-level deserializer (the `Deserialize` instance, passed here
explicitly as `parse`). -/
def Body.decode {T : Type} (parse : Json → Except String T) : Body → Except String T
  | Body.wellFormed j => parse j
  | Body.malformed raw => Except.error ("error decoding response body: " ++ raw)

/-- `ClientResponse::from_response`: keep the status code and headers
unconditionally (no non-2xx check anywhere) and deserialize the body; a
body-decode failure is the boxed `reqwest::Error`. -/
def ClientResponse.from_response {T : Type} (parse : Json → Except String T)
    (resp : HttpResponse) : Except BoxedError (ClientResponse T) :=
  match Body.decode parse resp.body with
  | Except.error msg => Except.error (BoxedError.reqwestDecode msg)
  | Except.ok body => Except.ok { status := resp.status, headers := resp.headers, body := body }

/-- The observable outcome of one endpoint call: the returned
`ClientResult` value, together with the requests handed to the transport
(so a mock transport's call count is `sent.length`). -/
structure Outcome (T : Type) where
  result : Except BoxedError (ClientResponse T)
  sent : List RequestBuilder

/-- An endpoint failing before any I/O: error returned, nothing sent. -/
def failBefore {T : Type} (e : BoxedError) : Outcome T :=
  { result := Except.error e, sent := [] }

/-- `request.send().await?` followed by `ClientResponse::from_response`:
the request is handed to the transport; a send failure is the boxed
`reqwest_middleware::Error`. -/
def sendRequest {T : Type} (c : ApiClient) (parse : Json → Except String T)
    (req : RequestBuilder) : Outcome T :=
  { sent := [req]
    result :=
      match c.client req with
      | Except.error e => Except.error (BoxedError.reqwestMiddleware e)
      | Except.ok resp => ClientResponse.from_response parse resp }

/-- The 62-character alphabet of rand's `Alphanumeric` distribution. -/
def GEN_ASCII_STR_CHARSET : List Char :=
  "ABCDEFGHIJKLMNOPQRSTUVWXYZabcdefghijklmnopqrstuvwxyz0123456789".data

/-- `Alphanumeric.sample_string(&mut rng, len)`: `len` characters drawn
uniformly from the 62-character alphabet, the per-character draws taken
from the supplied entropy stream. -/
def Alphanumeric.sample_string (entropy : Nat → Nat) (len : Nat) : String :=
  String.mk (List.ofFn (fun i : Fin len => GEN_ASCII_STR_CHARSET.getD (entropy i % 62) 'A'))

/-- Rust's `str::parse::<i64>()`: optional single sign, one or more ASCII
digits, value within the `i64` range; anything else is a `ParseIntError`. -/
def parseI64? (s : String) : Option Int :=
  let withSign : Int × List Char :=
    match s.data with
    | '+' :: rest => (1, rest)
    | '-' :: rest => (-1, rest)
    | cs => (1, cs)
  match withSign with
  | (sign, digits) =>
    if digits = [] then none
    else if digits.all Char.isDigit then
      let n : Int := sign * (digits.foldl (fun acc c => acc * 10 + (c.toNat - 48)) 0 : Nat)
      if -(2 ^ 63) ≤ n ∧ n ≤ 2 ^ 63 - 1 then some n else none
    else none

/-- `ApiClient::security_auth_token` (POST `v1/security/auth/token`):
basic auth with client id and secret, the secret duplicated in the
`mcd-clientsecret` header, content-type re-set to form-urlencoded, fixed
`grantType` query parameter.  `parse` is the `Deserialize` instance of
the endpoint's response type (`TokenResponse`). -/
def ApiClient.security_auth_token {T : Type} (c : ApiClient)
    (parse : Json → Except String T) (entropy : Nat → Nat)
    (client_secret : String) : Outcome T :=
  let default_params := [("grantType", "client_credentials")]
  let request :=
    ((((c.get_default_request entropy "v1/security/auth/token" Method.POST).query
        default_params).basic_auth c.client_id (some client_secret)).header
      "mcd-clientsecret" client_secret).header
      "content-type" "application/x-www-form-urlencoded; charset=UTF-8"
  sendRequest c parse request

/-- `ApiClient::customer_login` (POST `exp/v1/customer/login`): requires
the login token; generates a fresh 16-character alphanumeric device id
from this call's rng; nested credentials body; sensor data as an opaque
header. -/
def ApiClient.customer_login {T : Type} (c : ApiClient)
    (parse : Json → Except String T) (entropy rngEntropy : Nat → Nat)
    (login_username login_password sensor_data : String) : Outcome T :=
  match c.login_token with
  | none => failBefore (BoxedError.anyhowContext "no login token set")
  | some token =>
    let device_id := Alphanumeric.sample_string rngEntropy 16
    let credentials := Json.obj
      [("credentials", Json.obj
          [("loginUsername", Json.str login_username),
           ("password", Json.str login_password),
           ("type", Json.str "email")]),
       ("deviceId", Json.str device_id)]
    let request :=
      (((c.get_default_request entropy "exp/v1/customer/login" Method.POST).bearer_auth
          token).header "x-acf-sensor-data" sensor_data).json credentials
    sendRequest c parse request

/-- `ApiClient::get_offers` (GET `exp/v1/offers`): requires the auth
token; all inputs passed as query parameters. -/
def ApiClient.get_offers {T : Type} (c : ApiClient)
    (parse : Json → Except String T) (entropy : Nat → Nat)
    (distance latitude longitude opt_outs timezone_offset_in_minutes : String) : Outcome T :=
  let params :=
    [("distance", distance), ("latitude", latitude), ("longitude", longitude),
     ("optOuts", opt_outs), ("timezoneOffsetInMinutes", timezone_offset_in_minutes)]
  match c.auth_token with
  | none => failBefore (BoxedError.anyhowContext "no auth token set")
  | some token =>
    let request :=
      ((c.get_default_request entropy "exp/v1/offers" Method.GET).query params).bearer_auth token
    sendRequest c parse request

/-- `ApiClient::restaurant_location` (GET `exp/v1/restaurant/location`):
requires the auth token; query string only. -/
def ApiClient.restaurant_location {T : Type} (c : ApiClient)
    (parse : Json → Except String T) (entropy : Nat → Nat)
    (distance latitude longitude filter : String) : Outcome T :=
  let params :=
    [("distance", distance), ("latitude", latitude), ("longitude", longitude),
     ("filter", filter)]
  match c.auth_token with
  | none => failBefore (BoxedError.anyhowContext "no auth token set")
  | some token =>
    let request :=
      ((c.get_default_request entropy "exp/v1/restaurant/location" Method.GET).query
        params).bearer_auth token
    sendRequest c parse request

/-- `ApiClient::offer_details` (GET `exp/v1/offers/details/{offer_id}`):
requires the auth token; the offer id is interpolated into the path. -/
def ApiClient.offer_details {T : Type} (c : ApiClient)
    (parse : Json → Except String T) (entropy : Nat → Nat)
    (offer_id : String) : Outcome T :=
  match c.auth_token with
  | none => failBefore (BoxedError.anyhowContext "no auth token set")
  | some token =>
    let request :=
      (c.get_default_request entropy ("exp/v1/offers/details/" ++ offer_id)
        Method.GET).bearer_auth token
    sendRequest c parse request

/-- `ApiClient::get_offers_dealstack` (GET `exp/v1/offers/dealstack`):
requires the auth token; offset and store id as query parameters. -/
def ApiClient.get_offers_dealstack {T : Type} (c : ApiClient)
    (parse : Json → Except String T) (entropy : Nat → Nat)
    (offset store_id : String) : Outcome T :=
  match c.auth_token with
  | none => failBefore (BoxedError.anyhowContext "no auth token set")
  | some token =>
    let params := [("offset", offset), ("storeId", store_id)]
    let request :=
      ((c.get_default_request entropy "exp/v1/offers/dealstack" Method.GET).query
        params).bearer_auth token
    sendRequest c parse request

/-- `ApiClient::add_to_offers_dealstack` (POST
`exp/v1/offers/dealstack/{offer_id}`): requires the auth token; offer id
in the path, offset and store id as query parameters, no body. -/
def ApiClient.add_to_offers_dealstack {T : Type} (c : ApiClient)
    (parse : Json → Except String T) (entropy : Nat → Nat)
    (offer_id offset store_id : String) : Outcome T :=
  match c.auth_token with
  | none => failBefore (BoxedError.anyhowContext "no auth token set")
  | some token =>
    let params := [("offset", offset), ("storeId", store_id)]
    let request :=
      ((c.get_default_request entropy ("exp/v1/offers/dealstack/" ++ offer_id)
          Method.POST).query params).bearer_auth token
    sendRequest c parse request

/-- `ApiClient::remove_from_offers_dealstack` (DELETE
`exp/v1/offers/dealstack/offer/{offer_proposition_id}`): the JSON body is
built first — store id kept as a string, offer id and offset parsed to
`i64` with `?` (so a failed parse returns before the token check and
before any I/O) — then the auth token is required, and both the query
string and the body are sent. -/
def ApiClient.remove_from_offers_dealstack {T : Type} (c : ApiClient)
    (parse : Json → Except String T) (entropy : Nat → Nat)
    (offer_id offer_proposition_id offset store_id : String) : Outcome T :=
  match parseI64? offer_id with
  | none => failBefore (BoxedError.parseIntError offer_id)
  | some offerIdNum =>
    match parseI64? offset with
    | none => failBefore (BoxedError.parseIntError offset)
    | some offsetNum =>
      let body := Json.obj
        [("storeId", Json.str store_id), ("offerId", Json.num offerIdNum),
         ("offset", Json.num offsetNum)]
      match c.auth_token with
      | none => failBefore (BoxedError.anyhowContext "no auth token set")
      | some token =>
        let params := [("offerId", offer_id), ("offset", offset), ("storeId", store_id)]
        let request :=
          (((c.get_default_request entropy
              ("exp/v1/offers/dealstack/offer/" ++ offer_proposition_id)
              Method.DELETE).json body).query params).bearer_auth token
        sendRequest c parse request

/-- `ApiClient::customer_login_refresh` (POST
`exp/v1/customer/login/refresh`): requires the auth token; single-field
JSON body. -/
def ApiClient.customer_login_refresh {T : Type} (c : ApiClient)
    (parse : Json → Except String T) (entropy : Nat → Nat)
    (refresh_token : String) : Outcome T :=
  match c.auth_token with
  | none => failBefore (BoxedError.anyhowContext "no auth token set")
  | some token =>
    let body := Json.obj [("refreshToken", Json.str refresh_token)]
    let request :=
      ((c.get_default_request entropy "exp/v1/customer/login/refresh"
          Method.POST).bearer_auth token).json body
    sendRequest c parse request

/-- `ApiClient::get_customer_points` (GET
`exp/v1/loyalty/customer/points`): requires the auth token; no
parameters. -/
def ApiClient.get_customer_points {T : Type} (c : ApiClient)
    (parse : Json → Except String T) (entropy : Nat → Nat) : Outcome T :=
  match c.auth_token with
  | none => failBefore (BoxedError.anyhowContext "no auth token set")
  | some token =>
    let request :=
      (c.get_default_request entropy "exp/v1/loyalty/customer/points"
        Method.GET).bearer_auth token
    sendRequest c parse request

/-! ## Vendor response types (`src/types/response.rs`)

Each `#[derive(Deserialize)]` struct gets a `fromJson` following serde's
semantics: the input must be a JSON object, required fields must be
present, `Option` fields default to `none` when missing and accept
`null`, unknown keys are ignored, `i64`/`u32` numbers must be in range.
Each `#[derive(Serialize)]` struct additionally gets a `toJson`
(field names in camelCase per `serde(rename_all)`, `None` serialized as
`null`); structs deriving only `Deserialize` (`Token`, `TokenResponse`,
`LoginResponse`, `RegistrationResponse`, `ActivationResponse`) get no
serializer, as in the source. -/

/-- First binding of a key in a JSON object's field list. -/
def Json.lookupField : List (String × Json) → String → Option Json
  | [], _ => none
  | (k, v) :: fs, key => if k = key then some v else Json.lookupField fs key

/-- serde: a required struct field — the input must be an object and the
key must be present. -/
def reqField {α : Type} (j : Json) (key : String) (p : Json → Except String α) :
    Except String α :=
  match j with
  | Json.obj fs =>
    match Json.lookupField fs key with
    | some v => p v
    | none => Except.error ("missing field " ++ key)
  | _ => Except.error "invalid type: expected a struct"

/-- serde: the value of a present `Option` field (`null` is `none`). -/
def parseOptVal {α : Type} (p : Json → Except String α) : Json → Except String (Option α)
  | Json.null => Except.ok none
  | v => (p v).map some

/-- serde: an `Option` struct field — missing key or `null` gives `none`. -/
def optField {α : Type} (j : Json) (key : String) (p : Json → Except String α) :
    Except String (Option α) :=
  match j with
  | Json.obj fs =>
    match Json.lookupField fs key with
    | none => Except.ok none
    | some v => parseOptVal p v
  | _ => Except.error "invalid type: expected a struct"

/-- The `i64` range check serde applies when deserializing an `i64`. -/
def i64Bounded (n : Int) : Bool :=
  decide (-(2 ^ 63) ≤ n ∧ n ≤ 2 ^ 63 - 1)

/-- serde: deserialize a `String`. -/
def Json.asString : Json → Except String String
  | Json.str s => Except.ok s
  | _ => Except.error "invalid type: expected a string"

/-- serde: deserialize a `bool`. -/
def Json.asBool : Json → Except String Bool
  | Json.bool b => Except.ok b
  | _ => Except.error "invalid type: expected a boolean"

/-- serde: deserialize an `i64`. -/
def Json.asI64 : Json → Except String Int
  | Json.num n => if i64Bounded n then Except.ok n else Except.error "i64 out of range"
  | _ => Except.error "invalid type: expected i64"

/-- serde: deserialize a `u32`. -/
def Json.asU32 : Json → Except String Nat
  | Json.num n =>
    if 0 ≤ n ∧ n ≤ 2 ^ 32 - 1 then Except.ok n.toNat
    else Except.error "u32 out of range"
  | _ => Except.error "invalid type: expected u32"

/-- serde: deserialize a `serde_json::Value` (the identity). -/
def Json.asValue : Json → Except String Json :=
  Except.ok

/-- serde: deserialize a `Vec<T>`. -/
def Json.asList {α : Type} (p : Json → Except String α) : Json → Except String (List α)
  | Json.arr xs => xs.mapM p
  | _ => Except.error "invalid type: expected a sequence"

/-- serde: serialize an `Option` field (`None` becomes `null`). -/
def optJson {α : Type} (f : α → Json) : Option α → Json
  | none => Json.null
  | some a => f a

/-- serde: a `#[serde(default)]` struct field — a missing key yields the
type's default value; a present value must parse. -/
def defField {α : Type} (j : Json) (key : String) (p : Json → Except String α)
    (dflt : α) : Except String α :=
  match j with
  | Json.obj fs =>
    match Json.lookupField fs key with
    | none => Except.ok dflt
    | some v => p v
  | _ => Except.error "invalid type: expected a struct"

/-- serde_json's `Value` serialization of an `f64`
(`Number::from_f64(x).map_or(Value::Null, Value::Number)`): a finite
float keeps its bits under the `Float` tag; NaN and the infinities
become `null`. -/
def F64.toJson (x : F64) : Json :=
  if x.isFinite then Json.fnum x else Json.null

/-- serde: deserialize an `f64` from a float-tagged number.  (serde also
converts integer-tagged numbers via `visit_i64`/`visit_u64`; that
int-to-float conversion is not modelled — no claim depends on it, and
the serialized image of an `f64` field is always float-tagged.) -/
def Json.asF64 : Json → Except String F64
  | Json.fnum x => Except.ok x
  | _ => Except.error "invalid type: expected f64"

/-- Representability of an `f64` field value: a 64-bit pattern of a
finite float (the only values whose serialization round-trips — serde
serializes NaN/infinity to `null`, which does not deserialize back). -/
def F64.WF (x : F64) : Prop :=
  x.bits < 2 ^ 64 ∧ x.isFinite = true

theorem asF64_roundtrip (x : F64) (h : x.isFinite = true) :
    Json.asF64 (F64.toJson x) = Except.ok x := by
  simp [F64.toJson, h, Json.asF64]

/-- `Status` — the shared vendor status envelope. -/
structure Status where
  code : Json
  type_field : Option String
  correlation_id : Option String
  message : Option String

/-- `Status: Deserialize`. -/
def Status.fromJson (j : Json) : Except String Status := do
  let code ← reqField j "code" Json.asValue
  let type_field ← optField j "typeField" Json.asString
  let correlation_id ← optField j "correlationID" Json.asString
  let message ← optField j "message" Json.asString
  Except.ok { code := code, type_field := type_field, correlation_id := correlation_id,
              message := message }

/-- `Status: Serialize`. -/
def Status.toJson (v : Status) : Json :=
  Json.obj
    [("code", v.code), ("typeField", optJson Json.str v.type_field),
     ("correlationID", optJson Json.str v.correlation_id),
     ("message", optJson Json.str v.message)]

/-- `AccessTokenResponse`. -/
structure AccessTokenResponse where
  access_token : String
  refresh_token : String
deriving DecidableEq

/-- `AccessTokenResponse: Deserialize`. -/
def AccessTokenResponse.fromJson (j : Json) : Except String AccessTokenResponse := do
  let access_token ← reqField j "accessToken" Json.asString
  let refresh_token ← reqField j "refreshToken" Json.asString
  Except.ok { access_token := access_token, refresh_token := refresh_token }

/-- `AccessTokenResponse: Serialize`. -/
def AccessTokenResponse.toJson (v : AccessTokenResponse) : Json :=
  Json.obj
    [("accessToken", Json.str v.access_token), ("refreshToken", Json.str v.refresh_token)]

theorem roundtrip_AccessTokenResponse (v : AccessTokenResponse) :
    AccessTokenResponse.fromJson (AccessTokenResponse.toJson v) = Except.ok v := rfl

theorem roundtrip_Status (v : Status) :
    Status.fromJson (Status.toJson v) = Except.ok v := by
  cases v with
  | mk code type_field correlation_id message =>
    cases type_field <;> cases correlation_id <;> cases message <;> rfl

/-- An `i64` bound lifted to `Option` fields. -/
def i64OptBounded : Option Int → Bool
  | none => true
  | some n => i64Bounded n

theorem parseOptVal_str (o : Option String) :
    parseOptVal Json.asString (optJson Json.str o) = Except.ok o := by
  cases o <;> rfl

theorem parseOptVal_num (o : Option Int) (h : i64OptBounded o = true) :
    parseOptVal Json.asI64 (optJson Json.num o) = Except.ok o := by
  cases o with
  | none => rfl
  | some n =>
    simp only [i64OptBounded] at h
    simp [parseOptVal, optJson, Json.asI64, h]
    rfl

theorem parseOptVal_comp {α : Type} (p : Json → Except String α) (f : α → Json)
    (o : Option α) (hne : ∀ a, f a ≠ Json.null)
    (hrt : ∀ a ∈ o, p (f a) = Except.ok a) :
    parseOptVal p (optJson f o) = Except.ok o := by
  cases o with
  | none => rfl
  | some a =>
    have h1 := hrt a (by simp)
    simp only [optJson]
    rcases hfa : f a with _ | b | n | x | s | xs | fs
    · exact absurd hfa (hne a)
    all_goals rw [hfa] at h1; simp [parseOptVal, h1, Except.map]

theorem mapM_map_roundtrip {α : Type} (p : Json → Except String α) (f : α → Json)
    (l : List α) (h : ∀ x ∈ l, p (f x) = Except.ok x) :
    (l.map f).mapM p = Except.ok l := by
  induction l with
  | nil => rfl
  | cons x xs ih =>
    rw [List.map_cons, List.mapM_cons, h x (by simp)]
    rw [ih (fun y hy => h y (by simp [hy]))]
    rfl

theorem asList_map_roundtrip {α : Type} (p : Json → Except String α) (f : α → Json)
    (l : List α) (h : ∀ x ∈ l, p (f x) = Except.ok x) :
    Json.asList p (Json.arr (l.map f)) = Except.ok l := by
  simp only [Json.asList]
  exact mapM_map_roundtrip p f l h

theorem asList_values_roundtrip (l : List Json) :
    Json.asList Json.asValue (Json.arr l) = Except.ok l := by
  have := asList_map_roundtrip Json.asValue id l (fun _ _ => rfl)
  simpa using this

theorem asList_str_roundtrip (l : List String) :
    Json.asList Json.asString (Json.arr (l.map Json.str)) = Except.ok l :=
  asList_map_roundtrip Json.asString Json.str l (fun _ _ => rfl)

/-- `RecurringInfo` — all fields optional `i64` quantities. -/
structure RecurringInfo where
  total_redemption_quantity : Option Int
  current_day_redemption_quantity : Option Int
  current_week_redemption_quantity : Option Int
  current_month_redemption_quantity : Option Int
  max_redemption_quantity : Option Int
  max_redemption_quantity_per_day : Option Int
  max_redemption_quantity_per_week : Option Int
  max_redemption_quantity_per_month : Option Int
deriving DecidableEq

/-- `RecurringInfo: Deserialize`. -/
def RecurringInfo.fromJson (j : Json) : Except String RecurringInfo := do
  let f1 ← optField j "totalRedemptionQuantity" Json.asI64
  let f2 ← optField j "currentDayRedemptionQuantity" Json.asI64
  let f3 ← optField j "currentWeekRedemptionQuantity" Json.asI64
  let f4 ← optField j "currentMonthRedemptionQuantity" Json.asI64
  let f5 ← optField j "maxRedemptionQuantity" Json.asI64
  let f6 ← optField j "maxRedemptionQuantityPerDay" Json.asI64
  let f7 ← optField j "maxRedemptionQuantityPerWeek" Json.asI64
  let f8 ← optField j "maxRedemptionQuantityPerMonth" Json.asI64
  Except.ok { total_redemption_quantity := f1, current_day_redemption_quantity := f2,
              current_week_redemption_quantity := f3, current_month_redemption_quantity := f4,
              max_redemption_quantity := f5, max_redemption_quantity_per_day := f6,
              max_redemption_quantity_per_week := f7, max_redemption_quantity_per_month := f8 }

/-- `RecurringInfo: Serialize`. -/
def RecurringInfo.toJson (v : RecurringInfo) : Json :=
  Json.obj
    [("totalRedemptionQuantity", optJson Json.num v.total_redemption_quantity),
     ("currentDayRedemptionQuantity", optJson Json.num v.current_day_redemption_quantity),
     ("currentWeekRedemptionQuantity", optJson Json.num v.current_week_redemption_quantity),
     ("currentMonthRedemptionQuantity", optJson Json.num v.current_month_redemption_quantity),
     ("maxRedemptionQuantity", optJson Json.num v.max_redemption_quantity),
     ("maxRedemptionQuantityPerDay", optJson Json.num v.max_redemption_quantity_per_day),
     ("maxRedemptionQuantityPerWeek", optJson Json.num v.max_redemption_quantity_per_week),
     ("maxRedemptionQuantityPerMonth", optJson Json.num v.max_redemption_quantity_per_month)]

/-- Representability of a `RecurringInfo` value in the Rust field types
(every present quantity fits in an `i64`). -/
def RecurringInfo.WF (v : RecurringInfo) : Prop :=
  i64OptBounded v.total_redemption_quantity = true ∧
  i64OptBounded v.current_day_redemption_quantity = true ∧
  i64OptBounded v.current_week_redemption_quantity = true ∧
  i64OptBounded v.current_month_redemption_quantity = true ∧
  i64OptBounded v.max_redemption_quantity = true ∧
  i64OptBounded v.max_redemption_quantity_per_day = true ∧
  i64OptBounded v.max_redemption_quantity_per_week = true ∧
  i64OptBounded v.max_redemption_quantity_per_month = true

theorem roundtrip_RecurringInfo (v : RecurringInfo) (h : v.WF) :
    RecurringInfo.fromJson (RecurringInfo.toJson v) = Except.ok v := by
  obtain ⟨h1, h2, h3, h4, h5, h6, h7, h8⟩ := h
  cases v with
  | mk f1 f2 f3 f4 f5 f6 f7 f8 =>
    simp only [RecurringInfo.fromJson, RecurringInfo.toJson, optField, Json.lookupField]
    simp [parseOptVal_num _ h1, parseOptVal_num _ h2, parseOptVal_num _ h3,
          parseOptVal_num _ h4, parseOptVal_num _ h5, parseOptVal_num _ h6,
          parseOptVal_num _ h7, parseOptVal_num _ h8]
    rfl

/-- `SaleAmountCondition`. -/
structure SaleAmountCondition where
  include_eligible : Bool
  minimum : Int
  pre_tax_validation : Bool
  include_non_product : Bool
  exclude_codes : Option String
  include_gift_coupons : Bool
deriving DecidableEq

/-- `SaleAmountCondition: Deserialize`. -/
def SaleAmountCondition.fromJson (j : Json) : Except String SaleAmountCondition := do
  let include_eligible ← reqField j "includeEligible" Json.asBool
  let minimum ← reqField j "minimum" Json.asI64
  let pre_tax_validation ← reqField j "preTaxValidation" Json.asBool
  let include_non_product ← reqField j "includeNonProduct" Json.asBool
  let exclude_codes ← optField j "excludeCodes" Json.asString
  let include_gift_coupons ← reqField j "includeGiftCoupons" Json.asBool
  Except.ok { include_eligible := include_eligible, minimum := minimum,
              pre_tax_validation := pre_tax_validation,
              include_non_product := include_non_product, exclude_codes := exclude_codes,
              include_gift_coupons := include_gift_coupons }

/-- `SaleAmountCondition: Serialize`. -/
def SaleAmountCondition.toJson (v : SaleAmountCondition) : Json :=
  Json.obj
    [("includeEligible", Json.bool v.include_eligible), ("minimum", Json.num v.minimum),
     ("preTaxValidation", Json.bool v.pre_tax_validation),
     ("includeNonProduct", Json.bool v.include_non_product),
     ("excludeCodes", optJson Json.str v.exclude_codes),
     ("includeGiftCoupons", Json.bool v.include_gift_coupons)]

/-- Representability in the Rust field types. -/
def SaleAmountCondition.WF (v : SaleAmountCondition) : Prop :=
  i64Bounded v.minimum = true

theorem roundtrip_SaleAmountCondition (v : SaleAmountCondition) (h : v.WF) :
    SaleAmountCondition.fromJson (SaleAmountCondition.toJson v) = Except.ok v := by
  cases v with
  | mk a b c d e f =>
    simp only [SaleAmountCondition.WF] at h
    simp only [SaleAmountCondition.fromJson, SaleAmountCondition.toJson, reqField, optField,
      Json.lookupField]
    simp [Json.asBool, Json.asI64, h, parseOptVal_str]
    rfl

/-- `Conditions`. -/
structure Conditions where
  day_of_week_conditions : List String
  date_conditions : List Json
  sale_amount_conditions : List SaleAmountCondition

/-- `Conditions: Deserialize`. -/
def Conditions.fromJson (j : Json) : Except String Conditions := do
  let day_of_week_conditions ← reqField j "dayOfWeekConditions" (Json.asList Json.asString)
  let date_conditions ← reqField j "dateConditions" (Json.asList Json.asValue)
  let sale_amount_conditions ←
    reqField j "saleAmountConditions" (Json.asList SaleAmountCondition.fromJson)
  Except.ok { day_of_week_conditions := day_of_week_conditions,
              date_conditions := date_conditions,
              sale_amount_conditions := sale_amount_conditions }

/-- `Conditions: Serialize`. -/
def Conditions.toJson (v : Conditions) : Json :=
  Json.obj
    [("dayOfWeekConditions", Json.arr (v.day_of_week_conditions.map Json.str)),
     ("dateConditions", Json.arr v.date_conditions),
     ("saleAmountConditions", Json.arr (v.sale_amount_conditions.map SaleAmountCondition.toJson))]

/-- Representability in the Rust field types. -/
def Conditions.WF (v : Conditions) : Prop :=
  ∀ x ∈ v.sale_amount_conditions, x.WF

theorem roundtrip_Conditions (v : Conditions) (h : v.WF) :
    Conditions.fromJson (Conditions.toJson v) = Except.ok v := by
  cases v with
  | mk a b c =>
    simp only [Conditions.WF] at h
    simp only [Conditions.fromJson, Conditions.toJson, reqField, Json.lookupField]
    simp [asList_str_roundtrip, asList_values_roundtrip,
      asList_map_roundtrip SaleAmountCondition.fromJson SaleAmountCondition.toJson c
        (fun x hx => roundtrip_SaleAmountCondition x (h x hx))]
    rfl

/-- `PunchInfo`. -/
structure PunchInfo where
  total_punch : Int
  current_punch : Int
deriving DecidableEq

/-- `PunchInfo: Deserialize`. -/
def PunchInfo.fromJson (j : Json) : Except String PunchInfo := do
  let total_punch ← reqField j "totalPunch" Json.asI64
  let current_punch ← reqField j "currentPunch" Json.asI64
  Except.ok { total_punch := total_punch, current_punch := current_punch }

/-- `PunchInfo: Serialize`. -/
def PunchInfo.toJson (v : PunchInfo) : Json :=
  Json.obj
    [("totalPunch", Json.num v.total_punch), ("currentPunch", Json.num v.current_punch)]

/-- Representability in the Rust field types. -/
def PunchInfo.WF (v : PunchInfo) : Prop :=
  i64Bounded v.total_punch = true ∧ i64Bounded v.current_punch = true

theorem roundtrip_PunchInfo (v : PunchInfo) (h : v.WF) :
    PunchInfo.fromJson (PunchInfo.toJson v) = Except.ok v := by
  obtain ⟨h1, h2⟩ := h
  cases v with
  | mk a b =>
    simp only [PunchInfo.fromJson, PunchInfo.toJson, reqField, Json.lookupField]
    simp [Json.asI64, h1, h2]
    rfl

/-- `Offer` — one entry of the offers list. -/
structure Offer where
  offer_id : Int
  offer_proposition_id : Int
  offer_type : Int
  local_valid_from : String
  local_valid_to : String
  valid_from_utc : String
  valid_to_utc : String
  name : String
  short_description : String
  long_description : String
  image_base_name : String
  image_base_language : Option String
  redemption_mode : Int
  is_archived : Bool
  is_slpoffer : Bool
  is_locked : Bool
  is_redeemed : Bool
  offer_bucket : String
  punch_info : PunchInfo
  recurring_info : Option RecurringInfo
  conditions : Conditions
  color_coding_info : Int
  isvalid_total_order : Bool
  creation_date_utc : String
  extend_to_eod : Bool
  is_dynamic_expiration : Bool
  daypart_filters : List Json

/-- `Offer: Deserialize`. -/
def Offer.fromJson (j : Json) : Except String Offer := do
  let offer_id ← reqField j "offerId" Json.asI64
  let offer_proposition_id ← reqField j "offerPropositionId" Json.asI64
  let offer_type ← reqField j "offerType" Json.asI64
  let local_valid_from ← reqField j "localValidFrom" Json.asString
  let local_valid_to ← reqField j "localValidTo" Json.asString
  let valid_from_utc ← reqField j "validFromUTC" Json.asString
  let valid_to_utc ← reqField j "validToUTC" Json.asString
  let name ← reqField j "name" Json.asString
  let short_description ← reqField j "shortDescription" Json.asString
  let long_description ← reqField j "longDescription" Json.asString
  let image_base_name ← reqField j "imageBaseName" Json.asString
  let image_base_language ← optField j "imageBaseLanguage" Json.asString
  let redemption_mode ← reqField j "redemptionMode" Json.asI64
  let is_archived ← reqField j "isArchived" Json.asBool
  let is_slpoffer ← reqField j "isSLPOffer" Json.asBool
  let is_locked ← reqField j "isLocked" Json.asBool
  let is_redeemed ← reqField j "isRedeemed" Json.asBool
  let offer_bucket ← reqField j "offerBucket" Json.asString
  let punch_info ← reqField j "punchInfo" PunchInfo.fromJson
  let recurring_info ← optField j "recurringInfo" RecurringInfo.fromJson
  let conditions ← reqField j "conditions" Conditions.fromJson
  let color_coding_info ← reqField j "colorCodingInfo" Json.asI64
  let isvalid_total_order ← reqField j "isvalidTotalOrder" Json.asBool
  let creation_date_utc ← reqField j "CreationDateUtc" Json.asString
  let extend_to_eod ← reqField j "extendToEOD" Json.asBool
  let is_dynamic_expiration ← reqField j "isDynamicExpiration" Json.asBool
  let daypart_filters ← reqField j "daypartFilters" (Json.asList Json.asValue)
  Except.ok { offer_id := offer_id, offer_proposition_id := offer_proposition_id,
              offer_type := offer_type, local_valid_from := local_valid_from,
              local_valid_to := local_valid_to, valid_from_utc := valid_from_utc,
              valid_to_utc := valid_to_utc, name := name,
              short_description := short_description, long_description := long_description,
              image_base_name := image_base_name, image_base_language := image_base_language,
              redemption_mode := redemption_mode, is_archived := is_archived,
              is_slpoffer := is_slpoffer, is_locked := is_locked, is_redeemed := is_redeemed,
              offer_bucket := offer_bucket, punch_info := punch_info,
              recurring_info := recurring_info, conditions := conditions,
              color_coding_info := color_coding_info,
              isvalid_total_order := isvalid_total_order,
              creation_date_utc := creation_date_utc, extend_to_eod := extend_to_eod,
              is_dynamic_expiration := is_dynamic_expiration,
              daypart_filters := daypart_filters }

/-- `Offer: Serialize`. -/
def Offer.toJson (v : Offer) : Json :=
  Json.obj
    [("offerId", Json.num v.offer_id),
     ("offerPropositionId", Json.num v.offer_proposition_id),
     ("offerType", Json.num v.offer_type),
     ("localValidFrom", Json.str v.local_valid_from),
     ("localValidTo", Json.str v.local_valid_to),
     ("validFromUTC", Json.str v.valid_from_utc),
     ("validToUTC", Json.str v.valid_to_utc),
     ("name", Json.str v.name),
     ("shortDescription", Json.str v.short_description),
     ("longDescription", Json.str v.long_description),
     ("imageBaseName", Json.str v.image_base_name),
     ("imageBaseLanguage", optJson Json.str v.image_base_language),
     ("redemptionMode", Json.num v.redemption_mode),
     ("isArchived", Json.bool v.is_archived),
     ("isSLPOffer", Json.bool v.is_slpoffer),
     ("isLocked", Json.bool v.is_locked),
     ("isRedeemed", Json.bool v.is_redeemed),
     ("offerBucket", Json.str v.offer_bucket),
     ("punchInfo", PunchInfo.toJson v.punch_info),
     ("recurringInfo", optJson RecurringInfo.toJson v.recurring_info),
     ("conditions", Conditions.toJson v.conditions),
     ("colorCodingInfo", Json.num v.color_coding_info),
     ("isvalidTotalOrder", Json.bool v.isvalid_total_order),
     ("CreationDateUtc", Json.str v.creation_date_utc),
     ("extendToEOD", Json.bool v.extend_to_eod),
     ("isDynamicExpiration", Json.bool v.is_dynamic_expiration),
     ("daypartFilters", Json.arr v.daypart_filters)]

/-- Representability in the Rust field types. -/
def Offer.WF (v : Offer) : Prop :=
  i64Bounded v.offer_id = true ∧ i64Bounded v.offer_proposition_id = true ∧
  i64Bounded v.offer_type = true ∧ i64Bounded v.redemption_mode = true ∧
  i64Bounded v.color_coding_info = true ∧ v.punch_info.WF ∧
  (∀ r ∈ v.recurring_info, r.WF) ∧ v.conditions.WF

theorem roundtrip_Offer (v : Offer) (h : v.WF) :
    Offer.fromJson (Offer.toJson v) = Except.ok v := by
  obtain ⟨h1, h2, h3, h4, h5, hp, hr, hc⟩ := h
  simp only [Offer.fromJson, Offer.toJson, reqField, optField, Json.lookupField]
  simp [Json.asI64, Json.asString, Json.asBool, h1, h2, h3, h4, h5,
    roundtrip_PunchInfo _ hp, roundtrip_Conditions _ hc, parseOptVal_str,
    asList_values_roundtrip,
    parseOptVal_comp RecurringInfo.fromJson RecurringInfo.toJson v.recurring_info
      (fun a => by simp [RecurringInfo.toJson])
      (fun a ha => roundtrip_RecurringInfo a (hr a ha))]
  rfl

/-- `OfferList`. -/
structure OfferList where
  offers : List Offer

/-- `OfferList: Deserialize`. -/
def OfferList.fromJson (j : Json) : Except String OfferList := do
  let offers ← reqField j "offers" (Json.asList Offer.fromJson)
  Except.ok { offers := offers }

/-- `OfferList: Serialize`. -/
def OfferList.toJson (v : OfferList) : Json :=
  Json.obj [("offers", Json.arr (v.offers.map Offer.toJson))]

/-- Representability in the Rust field types. -/
def OfferList.WF (v : OfferList) : Prop :=
  ∀ x ∈ v.offers, x.WF

theorem roundtrip_OfferList (v : OfferList) (h : v.WF) :
    OfferList.fromJson (OfferList.toJson v) = Except.ok v := by
  cases v with
  | mk offers =>
    simp only [OfferList.WF] at h
    simp only [OfferList.fromJson, OfferList.toJson, reqField, Json.lookupField]
    simp [asList_map_roundtrip Offer.fromJson Offer.toJson offers
      (fun x hx => roundtrip_Offer x (h x hx))]
    rfl

/-- `OfferResponse` — the offers endpoint envelope; `response` is
nullable even on success. -/
structure OfferResponse where
  status : Status
  response : Option OfferList

/-- `OfferResponse: Deserialize`. -/
def OfferResponse.fromJson (j : Json) : Except String OfferResponse := do
  let status ← reqField j "status" Status.fromJson
  let response ← optField j "response" OfferList.fromJson
  Except.ok { status := status, response := response }

/-- `OfferResponse: Serialize`. -/
def OfferResponse.toJson (v : OfferResponse) : Json :=
  Json.obj
    [("status", Status.toJson v.status), ("response", optJson OfferList.toJson v.response)]

/-- Representability in the Rust field types. -/
def OfferResponse.WF (v : OfferResponse) : Prop :=
  ∀ l ∈ v.response, l.WF

theorem roundtrip_OfferResponse (v : OfferResponse) (h : v.WF) :
    OfferResponse.fromJson (OfferResponse.toJson v) = Except.ok v := by
  simp only [OfferResponse.WF] at h
  simp only [OfferResponse.fromJson, OfferResponse.toJson, reqField, optField,
    Json.lookupField]
  simp [roundtrip_Status,
    parseOptVal_comp OfferList.fromJson OfferList.toJson v.response
      (fun a => by simp [OfferList.toJson])
      (fun a ha => roundtrip_OfferList a (h a ha))]
  rfl

/-- `DealStack` — one applied offer in the deal stack. -/
structure DealStack where
  offer_id : Int
  offer_proposition_id : String
  state : Option String
deriving DecidableEq

/-- `DealStack: Deserialize`. -/
def DealStack.fromJson (j : Json) : Except String DealStack := do
  let offer_id ← reqField j "offerId" Json.asI64
  let offer_proposition_id ← reqField j "offerPropositionId" Json.asString
  let state ← optField j "state" Json.asString
  Except.ok { offer_id := offer_id, offer_proposition_id := offer_proposition_id,
              state := state }

/-- `DealStack: Serialize`. -/
def DealStack.toJson (v : DealStack) : Json :=
  Json.obj
    [("offerId", Json.num v.offer_id),
     ("offerPropositionId", Json.str v.offer_proposition_id),
     ("state", optJson Json.str v.state)]

/-- Representability in the Rust field types. -/
def DealStack.WF (v : DealStack) : Prop :=
  i64Bounded v.offer_id = true

theorem roundtrip_DealStack (v : DealStack) (h : v.WF) :
    DealStack.fromJson (DealStack.toJson v) = Except.ok v := by
  simp only [DealStack.WF] at h
  simp only [DealStack.fromJson, DealStack.toJson, reqField, optField, Json.lookupField]
  simp [Json.asI64, Json.asString, h, parseOptVal_str]
  rfl

/-- `OfferDealStack` — the redemption code plus the stacked offers. -/
structure OfferDealStack where
  random_code : String
  bar_code_content : String
  expiration_time : String
  deal_stack : Option (List DealStack)

/-- `OfferDealStack: Deserialize`. -/
def OfferDealStack.fromJson (j : Json) : Except String OfferDealStack := do
  let random_code ← reqField j "randomCode" Json.asString
  let bar_code_content ← reqField j "barCodeContent" Json.asString
  let expiration_time ← reqField j "expirationTime" Json.asString
  let deal_stack ← optField j "dealStack" (Json.asList DealStack.fromJson)
  Except.ok { random_code := random_code, bar_code_content := bar_code_content,
              expiration_time := expiration_time, deal_stack := deal_stack }

/-- `OfferDealStack: Serialize`. -/
def OfferDealStack.toJson (v : OfferDealStack) : Json :=
  Json.obj
    [("randomCode", Json.str v.random_code),
     ("barCodeContent", Json.str v.bar_code_content),
     ("expirationTime", Json.str v.expiration_time),
     ("dealStack", optJson (fun l => Json.arr (l.map DealStack.toJson)) v.deal_stack)]

/-- Representability in the Rust field types. -/
def OfferDealStack.WF (v : OfferDealStack) : Prop :=
  ∀ l ∈ v.deal_stack, ∀ x ∈ l, x.WF

theorem roundtrip_OfferDealStack (v : OfferDealStack) (h : v.WF) :
    OfferDealStack.fromJson (OfferDealStack.toJson v) = Except.ok v := by
  simp only [OfferDealStack.WF] at h
  simp only [OfferDealStack.fromJson, OfferDealStack.toJson, reqField, optField,
    Json.lookupField]
  simp [Json.asString,
    parseOptVal_comp (Json.asList DealStack.fromJson)
      (fun l => Json.arr (l.map DealStack.toJson)) v.deal_stack
      (fun a => by simp)
      (fun a ha => asList_map_roundtrip DealStack.fromJson DealStack.toJson a
        (fun x hx => roundtrip_DealStack x (h a ha x hx)))]
  rfl

/-- `OfferDealStackResponse` — the deal-stack endpoints' envelope. -/
structure OfferDealStackResponse where
  status : Status
  response : Option OfferDealStack

/-- `OfferDealStackResponse: Deserialize`. -/
def OfferDealStackResponse.fromJson (j : Json) : Except String OfferDealStackResponse := do
  let status ← reqField j "status" Status.fromJson
  let response ← optField j "response" OfferDealStack.fromJson
  Except.ok { status := status, response := response }

/-- `OfferDealStackResponse: Serialize`. -/
def OfferDealStackResponse.toJson (v : OfferDealStackResponse) : Json :=
  Json.obj
    [("status", Status.toJson v.status),
     ("response", optJson OfferDealStack.toJson v.response)]

/-- Representability in the Rust field types. -/
def OfferDealStackResponse.WF (v : OfferDealStackResponse) : Prop :=
  ∀ d ∈ v.response, d.WF

theorem roundtrip_OfferDealStackResponse (v : OfferDealStackResponse) (h : v.WF) :
    OfferDealStackResponse.fromJson (OfferDealStackResponse.toJson v) = Except.ok v := by
  simp only [OfferDealStackResponse.WF] at h
  simp only [OfferDealStackResponse.fromJson, OfferDealStackResponse.toJson, reqField,
    optField, Json.lookupField]
  simp [roundtrip_Status,
    parseOptVal_comp OfferDealStack.fromJson OfferDealStack.toJson v.response
      (fun a => by simp [OfferDealStack.toJson])
      (fun a ha => roundtrip_OfferDealStack a (h a ha))]
  rfl

/-- `LoginRefreshResponse` — note the source declares `response` before
`status`. -/
structure LoginRefreshResponse where
  response : Option AccessTokenResponse
  status : Status

/-- `LoginRefreshResponse: Deserialize`. -/
def LoginRefreshResponse.fromJson (j : Json) : Except String LoginRefreshResponse := do
  let response ← optField j "response" AccessTokenResponse.fromJson
  let status ← reqField j "status" Status.fromJson
  Except.ok { response := response, status := status }

/-- `LoginRefreshResponse: Serialize`. -/
def LoginRefreshResponse.toJson (v : LoginRefreshResponse) : Json :=
  Json.obj
    [("response", optJson AccessTokenResponse.toJson v.response),
     ("status", Status.toJson v.status)]

theorem roundtrip_LoginRefreshResponse (v : LoginRefreshResponse) :
    LoginRefreshResponse.fromJson (LoginRefreshResponse.toJson v) = Except.ok v := by
  simp only [LoginRefreshResponse.fromJson, LoginRefreshResponse.toJson, reqField,
    optField, Json.lookupField]
  simp [roundtrip_Status,
    parseOptVal_comp AccessTokenResponse.fromJson AccessTokenResponse.toJson v.response
      (fun a => by simp [AccessTokenResponse.toJson])
      (fun a _ => roundtrip_AccessTokenResponse a)]
  rfl

/-- `PointInformationResponse`. -/
structure PointInformationResponse where
  total_points : Int
  life_time_points : Int
deriving DecidableEq

/-- `PointInformationResponse: Deserialize`. -/
def PointInformationResponse.fromJson (j : Json) : Except String PointInformationResponse := do
  let total_points ← reqField j "totalPoints" Json.asI64
  let life_time_points ← reqField j "lifeTimePoints" Json.asI64
  Except.ok { total_points := total_points, life_time_points := life_time_points }

/-- `PointInformationResponse: Serialize`. -/
def PointInformationResponse.toJson (v : PointInformationResponse) : Json :=
  Json.obj
    [("totalPoints", Json.num v.total_points), ("lifeTimePoints", Json.num v.life_time_points)]

/-- Representability in the Rust field types. -/
def PointInformationResponse.WF (v : PointInformationResponse) : Prop :=
  i64Bounded v.total_points = true ∧ i64Bounded v.life_time_points = true

theorem roundtrip_PointInformationResponse (v : PointInformationResponse) (h : v.WF) :
    PointInformationResponse.fromJson (PointInformationResponse.toJson v) = Except.ok v := by
  obtain ⟨h1, h2⟩ := h
  simp only [PointInformationResponse.fromJson, PointInformationResponse.toJson, reqField,
    Json.lookupField]
  simp [Json.asI64, h1, h2]
  rfl

/-- `CustomerPointResponse` — the loyalty-points envelope; here the
payload is required. -/
structure CustomerPointResponse where
  status : Status
  response : PointInformationResponse

/-- `CustomerPointResponse: Deserialize`. -/
def CustomerPointResponse.fromJson (j : Json) : Except String CustomerPointResponse := do
  let status ← reqField j "status" Status.fromJson
  let response ← reqField j "response" PointInformationResponse.fromJson
  Except.ok { status := status, response := response }

/-- `CustomerPointResponse: Serialize`. -/
def CustomerPointResponse.toJson (v : CustomerPointResponse) : Json :=
  Json.obj
    [("status", Status.toJson v.status),
     ("response", PointInformationResponse.toJson v.response)]

/-- Representability in the Rust field types. -/
def CustomerPointResponse.WF (v : CustomerPointResponse) : Prop :=
  v.response.WF

theorem roundtrip_CustomerPointResponse (v : CustomerPointResponse) (h : v.WF) :
    CustomerPointResponse.fromJson (CustomerPointResponse.toJson v) = Except.ok v := by
  simp only [CustomerPointResponse.fromJson, CustomerPointResponse.toJson, reqField,
    Json.lookupField]
  simp [roundtrip_Status, roundtrip_PointInformationResponse _ h]
  rfl

/-- `Token` — derives only `Deserialize` in the source; no serializer
exists. -/
structure Token where
  token : String
  expires : Nat
deriving DecidableEq

/-- `Token: Deserialize` (plain field names: no `rename_all` on this
struct). -/
def Token.fromJson (j : Json) : Except String Token := do
  let token ← reqField j "token" Json.asString
  let expires ← reqField j "expires" Json.asU32
  Except.ok { token := token, expires := expires }

/-- `TokenResponse` — the token-exchange envelope; derives only
`Deserialize` in the source; no serializer exists. -/
structure TokenResponse where
  status : Status
  response : Token

/-- `TokenResponse: Deserialize` (plain field names: no `rename_all`). -/
def TokenResponse.fromJson (j : Json) : Except String TokenResponse := do
  let status ← reqField j "status" Status.fromJson
  let response ← reqField j "response" Token.fromJson
  Except.ok { status := status, response := response }

/-- `LoginResponse` — derives only `Deserialize`; no serializer exists. -/
structure LoginResponse where
  status : Status
  response : AccessTokenResponse

/-- `LoginResponse: Deserialize` (plain field names: no `rename_all`). -/
def LoginResponse.fromJson (j : Json) : Except String LoginResponse := do
  let status ← reqField j "status" Status.fromJson
  let response ← reqField j "response" AccessTokenResponse.fromJson
  Except.ok { status := status, response := response }

/-- `RegistrationResponse` — derives only `Deserialize`; no serializer
exists. -/
structure RegistrationResponse where
  status : Status
  response : AccessTokenResponse

/-- `RegistrationResponse: Deserialize`. -/
def RegistrationResponse.fromJson (j : Json) : Except String RegistrationResponse := do
  let status ← reqField j "status" Status.fromJson
  let response ← reqField j "response" AccessTokenResponse.fromJson
  Except.ok { status := status, response := response }

/-- `ActivationResponse` — derives only `Deserialize`; no serializer
exists. -/
structure ActivationResponse where
  status : Status
  response : Option AccessTokenResponse

/-- `ActivationResponse: Deserialize`. -/
def ActivationResponse.fromJson (j : Json) : Except String ActivationResponse := do
  let status ← reqField j "status" Status.fromJson
  let response ← optField j "response" AccessTokenResponse.fromJson
  Except.ok { status := status, response := response }

theorem parseOptVal_bool (o : Option Bool) :
    parseOptVal Json.asBool (optJson Json.bool o) = Except.ok o := by
  cases o <;> rfl

theorem asList_num_roundtrip (l : List Int) (h : ∀ x ∈ l, i64Bounded x = true) :
    Json.asList Json.asI64 (Json.arr (l.map Json.num)) = Except.ok l :=
  asList_map_roundtrip Json.asI64 Json.num l (fun x hx => by simp [Json.asI64, h x hx])

/-- `Location` — restaurant coordinates (`f64` fields). -/
structure Location where
  latitude : F64
  longitude : F64
deriving DecidableEq

/-- `Location: Deserialize`. -/
def Location.fromJson (j : Json) : Except String Location := do
  let latitude ← reqField j "latitude" Json.asF64
  let longitude ← reqField j "longitude" Json.asF64
  Except.ok { latitude := latitude, longitude := longitude }

/-- `Location: Serialize`. -/
def Location.toJson (v : Location) : Json :=
  Json.obj [("latitude", F64.toJson v.latitude), ("longitude", F64.toJson v.longitude)]

/-- Representability in the Rust field types. -/
def Location.WF (v : Location) : Prop :=
  v.latitude.WF ∧ v.longitude.WF

theorem roundtrip_Location (v : Location) (h : v.WF) :
    Location.fromJson (Location.toJson v) = Except.ok v := by
  obtain ⟨h1, h2⟩ := h
  simp only [Location.fromJson, Location.toJson, reqField, Json.lookupField]
  simp [asF64_roundtrip _ h1.2, asF64_roundtrip _ h2.2]
  rfl

/-- `Address`. -/
structure Address where
  address_line1 : String
  city_town : String
  country : String
  postal_zip : Option String
deriving DecidableEq

/-- `Address: Deserialize`. -/
def Address.fromJson (j : Json) : Except String Address := do
  let address_line1 ← reqField j "addressLine1" Json.asString
  let city_town ← reqField j "cityTown" Json.asString
  let country ← reqField j "country" Json.asString
  let postal_zip ← optField j "postalZip" Json.asString
  Except.ok { address_line1 := address_line1, city_town := city_town, country := country,
              postal_zip := postal_zip }

/-- `Address: Serialize`. -/
def Address.toJson (v : Address) : Json :=
  Json.obj
    [("addressLine1", Json.str v.address_line1), ("cityTown", Json.str v.city_town),
     ("country", Json.str v.country), ("postalZip", optJson Json.str v.postal_zip)]

theorem roundtrip_Address (v : Address) :
    Address.fromJson (Address.toJson v) = Except.ok v := by
  simp only [Address.fromJson, Address.toJson, reqField, optField, Json.lookupField]
  simp [Json.asString, parseOptVal_str]
  rfl

/-- `McDeliveries`. -/
structure McDeliveries where
  mc_delivery : List Json

/-- `McDeliveries: Deserialize`. -/
def McDeliveries.fromJson (j : Json) : Except String McDeliveries := do
  let mc_delivery ← reqField j "mcDelivery" (Json.asList Json.asValue)
  Except.ok { mc_delivery := mc_delivery }

/-- `McDeliveries: Serialize`. -/
def McDeliveries.toJson (v : McDeliveries) : Json :=
  Json.obj [("mcDelivery", Json.arr v.mc_delivery)]

theorem roundtrip_McDeliveries (v : McDeliveries) :
    McDeliveries.fromJson (McDeliveries.toJson v) = Except.ok v := by
  simp only [McDeliveries.fromJson, McDeliveries.toJson, reqField, Json.lookupField]
  simp [asList_values_roundtrip]
  rfl

/-- `Service` — one opening-hours service window. -/
structure Service where
  end_time : String
  is_open : Bool
  service_name : String
  start_time : String
deriving DecidableEq

/-- `Service: Deserialize`. -/
def Service.fromJson (j : Json) : Except String Service := do
  let end_time ← reqField j "endTime" Json.asString
  let is_open ← reqField j "isOpen" Json.asBool
  let service_name ← reqField j "serviceName" Json.asString
  let start_time ← reqField j "startTime" Json.asString
  Except.ok { end_time := end_time, is_open := is_open, service_name := service_name,
              start_time := start_time }

/-- `Service: Serialize`. -/
def Service.toJson (v : Service) : Json :=
  Json.obj
    [("endTime", Json.str v.end_time), ("isOpen", Json.bool v.is_open),
     ("serviceName", Json.str v.service_name), ("startTime", Json.str v.start_time)]

theorem roundtrip_Service (v : Service) :
    Service.fromJson (Service.toJson v) = Except.ok v := rfl

/-- `WeekOpeningHour`. -/
structure WeekOpeningHour where
  services : List Service
  day_of_week_id : Int

/-- `WeekOpeningHour: Deserialize`. -/
def WeekOpeningHour.fromJson (j : Json) : Except String WeekOpeningHour := do
  let services ← reqField j "services" (Json.asList Service.fromJson)
  let day_of_week_id ← reqField j "dayOfWeekId" Json.asI64
  Except.ok { services := services, day_of_week_id := day_of_week_id }

/-- `WeekOpeningHour: Serialize`. -/
def WeekOpeningHour.toJson (v : WeekOpeningHour) : Json :=
  Json.obj
    [("services", Json.arr (v.services.map Service.toJson)),
     ("dayOfWeekId", Json.num v.day_of_week_id)]

/-- Representability in the Rust field types. -/
def WeekOpeningHour.WF (v : WeekOpeningHour) : Prop :=
  i64Bounded v.day_of_week_id = true

theorem roundtrip_WeekOpeningHour (v : WeekOpeningHour) (h : v.WF) :
    WeekOpeningHour.fromJson (WeekOpeningHour.toJson v) = Except.ok v := by
  simp only [WeekOpeningHour.WF] at h
  simp only [WeekOpeningHour.fromJson, WeekOpeningHour.toJson, reqField, Json.lookupField]
  simp [Json.asI64, h,
    asList_map_roundtrip Service.fromJson Service.toJson v.services
      (fun x _ => roundtrip_Service x)]
  rfl

/-- `Restaurant` — one restaurant-location search result. -/
structure Restaurant where
  restaurant_status : String
  facilities : List String
  address : Address
  mc_deliveries : McDeliveries
  location : Location
  name : String
  national_store_number : Int
  status : Int
  time_zone : String
  week_opening_hours : List WeekOpeningHour
  phone_number : Option String

/-- `Restaurant: Deserialize`. -/
def Restaurant.fromJson (j : Json) : Except String Restaurant := do
  let restaurant_status ← reqField j "restaurantStatus" Json.asString
  let facilities ← reqField j "facilities" (Json.asList Json.asString)
  let address ← reqField j "address" Address.fromJson
  let mc_deliveries ← reqField j "mcDeliveries" McDeliveries.fromJson
  let location ← reqField j "location" Location.fromJson
  let name ← reqField j "name" Json.asString
  let national_store_number ← reqField j "nationalStoreNumber" Json.asI64
  let status ← reqField j "status" Json.asI64
  let time_zone ← reqField j "timeZone" Json.asString
  let week_opening_hours ← reqField j "weekOpeningHours" (Json.asList WeekOpeningHour.fromJson)
  let phone_number ← optField j "phoneNumber" Json.asString
  Except.ok { restaurant_status := restaurant_status, facilities := facilities,
              address := address, mc_deliveries := mc_deliveries, location := location,
              name := name, national_store_number := national_store_number,
              status := status, time_zone := time_zone,
              week_opening_hours := week_opening_hours, phone_number := phone_number }

/-- `Restaurant: Serialize`. -/
def Restaurant.toJson (v : Restaurant) : Json :=
  Json.obj
    [("restaurantStatus", Json.str v.restaurant_status),
     ("facilities", Json.arr (v.facilities.map Json.str)),
     ("address", Address.toJson v.address),
     ("mcDeliveries", McDeliveries.toJson v.mc_deliveries),
     ("location", Location.toJson v.location),
     ("name", Json.str v.name),
     ("nationalStoreNumber", Json.num v.national_store_number),
     ("status", Json.num v.status),
     ("timeZone", Json.str v.time_zone),
     ("weekOpeningHours", Json.arr (v.week_opening_hours.map WeekOpeningHour.toJson)),
     ("phoneNumber", optJson Json.str v.phone_number)]

/-- Representability in the Rust field types. -/
def Restaurant.WF (v : Restaurant) : Prop :=
  i64Bounded v.national_store_number = true ∧ i64Bounded v.status = true ∧
  v.location.WF ∧ (∀ w ∈ v.week_opening_hours, w.WF)

theorem roundtrip_Restaurant (v : Restaurant) (h : v.WF) :
    Restaurant.fromJson (Restaurant.toJson v) = Except.ok v := by
  obtain ⟨h1, h2, hl, hw⟩ := h
  simp only [Restaurant.fromJson, Restaurant.toJson, reqField, optField, Json.lookupField]
  simp [Json.asI64, Json.asString, h1, h2, parseOptVal_str, asList_str_roundtrip,
    roundtrip_Address, roundtrip_McDeliveries, roundtrip_Location _ hl,
    asList_map_roundtrip WeekOpeningHour.fromJson WeekOpeningHour.toJson
      v.week_opening_hours (fun x hx => roundtrip_WeekOpeningHour x (hw x hx))]
  rfl

/-- `RestaurantLocationList`. -/
structure RestaurantLocationList where
  restaurants : List Restaurant

/-- `RestaurantLocationList: Deserialize`. -/
def RestaurantLocationList.fromJson (j : Json) : Except String RestaurantLocationList := do
  let restaurants ← reqField j "restaurants" (Json.asList Restaurant.fromJson)
  Except.ok { restaurants := restaurants }

/-- `RestaurantLocationList: Serialize`. -/
def RestaurantLocationList.toJson (v : RestaurantLocationList) : Json :=
  Json.obj [("restaurants", Json.arr (v.restaurants.map Restaurant.toJson))]

/-- Representability in the Rust field types. -/
def RestaurantLocationList.WF (v : RestaurantLocationList) : Prop :=
  ∀ r ∈ v.restaurants, r.WF

theorem roundtrip_RestaurantLocationList (v : RestaurantLocationList) (h : v.WF) :
    RestaurantLocationList.fromJson (RestaurantLocationList.toJson v) = Except.ok v := by
  simp only [RestaurantLocationList.WF] at h
  simp only [RestaurantLocationList.fromJson, RestaurantLocationList.toJson, reqField,
    Json.lookupField]
  simp [asList_map_roundtrip Restaurant.fromJson Restaurant.toJson v.restaurants
    (fun x hx => roundtrip_Restaurant x (h x hx))]
  rfl

/-- `RestaurantLocationResponse` — the restaurant-location endpoint
envelope; `response` is nullable. -/
structure RestaurantLocationResponse where
  status : Status
  response : Option RestaurantLocationList

/-- `RestaurantLocationResponse: Deserialize`. -/
def RestaurantLocationResponse.fromJson (j : Json) :
    Except String RestaurantLocationResponse := do
  let status ← reqField j "status" Status.fromJson
  let response ← optField j "response" RestaurantLocationList.fromJson
  Except.ok { status := status, response := response }

/-- `RestaurantLocationResponse: Serialize`. -/
def RestaurantLocationResponse.toJson (v : RestaurantLocationResponse) : Json :=
  Json.obj
    [("status", Status.toJson v.status),
     ("response", optJson RestaurantLocationList.toJson v.response)]

/-- Representability in the Rust field types. -/
def RestaurantLocationResponse.WF (v : RestaurantLocationResponse) : Prop :=
  ∀ l ∈ v.response, l.WF

theorem roundtrip_RestaurantLocationResponse (v : RestaurantLocationResponse) (h : v.WF) :
    RestaurantLocationResponse.fromJson (RestaurantLocationResponse.toJson v) =
      Except.ok v := by
  simp only [RestaurantLocationResponse.WF] at h
  simp only [RestaurantLocationResponse.fromJson, RestaurantLocationResponse.toJson,
    reqField, optField, Json.lookupField]
  simp [roundtrip_Status,
    parseOptVal_comp RestaurantLocationList.fromJson RestaurantLocationList.toJson
      v.response (fun a => by simp [RestaurantLocationList.toJson])
      (fun a ha => roundtrip_RestaurantLocationList a (h a ha))]
  rfl

/-- `Action` — the discount action of a product set (`f64` value);
named `OfferAction` here because Mathlib already declares a root-level
`Action`. -/
structure OfferAction where
  type_field : Int
  discount_type : Int
  value : F64
deriving DecidableEq

/-- `Action: Deserialize` (`type_field` is renamed to `type` on the
wire). -/
def OfferAction.fromJson (j : Json) : Except String OfferAction := do
  let type_field ← reqField j "type" Json.asI64
  let discount_type ← reqField j "discountType" Json.asI64
  let value ← reqField j "value" Json.asF64
  Except.ok { type_field := type_field, discount_type := discount_type, value := value }

/-- `Action: Serialize`. -/
def OfferAction.toJson (v : OfferAction) : Json :=
  Json.obj
    [("type", Json.num v.type_field), ("discountType", Json.num v.discount_type),
     ("value", F64.toJson v.value)]

/-- Representability in the Rust field types. -/
def OfferAction.WF (v : OfferAction) : Prop :=
  i64Bounded v.type_field = true ∧ i64Bounded v.discount_type = true ∧ v.value.WF

theorem roundtrip_OfferAction (v : OfferAction) (h : v.WF) :
    OfferAction.fromJson (OfferAction.toJson v) = Except.ok v := by
  obtain ⟨h1, h2, h3⟩ := h
  simp only [OfferAction.fromJson, OfferAction.toJson, reqField, Json.lookupField]
  simp [Json.asI64, h1, h2, asF64_roundtrip _ h3.2]
  rfl

/-- `FrequencyOfferInfo`. -/
structure FrequencyOfferInfo where
  total_punch : Int
deriving DecidableEq

/-- `FrequencyOfferInfo: Deserialize`. -/
def FrequencyOfferInfo.fromJson (j : Json) : Except String FrequencyOfferInfo := do
  let total_punch ← reqField j "totalPunch" Json.asI64
  Except.ok { total_punch := total_punch }

/-- `FrequencyOfferInfo: Serialize`. -/
def FrequencyOfferInfo.toJson (v : FrequencyOfferInfo) : Json :=
  Json.obj [("totalPunch", Json.num v.total_punch)]

/-- Representability in the Rust field types. -/
def FrequencyOfferInfo.WF (v : FrequencyOfferInfo) : Prop :=
  i64Bounded v.total_punch = true

theorem roundtrip_FrequencyOfferInfo (v : FrequencyOfferInfo) (h : v.WF) :
    FrequencyOfferInfo.fromJson (FrequencyOfferInfo.toJson v) = Except.ok v := by
  simp only [FrequencyOfferInfo.WF] at h
  simp only [FrequencyOfferInfo.fromJson, FrequencyOfferInfo.toJson, reqField,
    Json.lookupField]
  simp [Json.asI64, h]
  rfl

/-- `ProductSet`. -/
structure ProductSet where
  «alias» : String
  quantity : Int
  min_quantity : Option Int
  products : List String
  action : OfferAction
  swap_mapping : List Json

/-- `ProductSet: Deserialize`. -/
def ProductSet.fromJson (j : Json) : Except String ProductSet := do
  let a ← reqField j "alias" Json.asString
  let quantity ← reqField j "quantity" Json.asI64
  let min_quantity ← optField j "minQuantity" Json.asI64
  let products ← reqField j "products" (Json.asList Json.asString)
  let action ← reqField j "action" OfferAction.fromJson
  let swap_mapping ← reqField j "swapMapping" (Json.asList Json.asValue)
  Except.ok { «alias» := a, quantity := quantity, min_quantity := min_quantity,
              products := products, action := action, swap_mapping := swap_mapping }

/-- `ProductSet: Serialize`. -/
def ProductSet.toJson (v : ProductSet) : Json :=
  Json.obj
    [("alias", Json.str v.«alias»), ("quantity", Json.num v.quantity),
     ("minQuantity", optJson Json.num v.min_quantity),
     ("products", Json.arr (v.products.map Json.str)),
     ("action", OfferAction.toJson v.action),
     ("swapMapping", Json.arr v.swap_mapping)]

/-- Representability in the Rust field types. -/
def ProductSet.WF (v : ProductSet) : Prop :=
  i64Bounded v.quantity = true ∧ i64OptBounded v.min_quantity = true ∧ v.action.WF

theorem roundtrip_ProductSet (v : ProductSet) (h : v.WF) :
    ProductSet.fromJson (ProductSet.toJson v) = Except.ok v := by
  obtain ⟨h1, h2, ha⟩ := h
  simp only [ProductSet.fromJson, ProductSet.toJson, reqField, optField, Json.lookupField]
  simp [Json.asI64, Json.asString, h1, parseOptVal_num _ h2, asList_str_roundtrip,
    asList_values_roundtrip, roundtrip_OfferAction _ ha]
  rfl

/-- `OfferDetails` — the offer-details payload. -/
structure OfferDetails where
  order_discount_type : Int
  offer_proposition_id : Int
  offer_type : Int
  offer_bucket : String
  is_locked : Bool
  isvalid_total_order : Bool
  is_slpoffer : Bool
  color_coding_info : Int
  local_valid_from : String
  local_valid_to : String
  valid_from_utc : String
  valid_to_utc : String
  name : String
  short_description : String
  long_description : String
  image_base_name : String
  image_base_language : String
  redemption_mode : Int
  is_expired : Bool
  product_sets : List ProductSet
  restaurants : List Json
  frequency_offer_info : FrequencyOfferInfo
  recurring_info : RecurringInfo
  conditions : Conditions
  is_dynamic_expiration : Bool
  exclusive_tod : Bool
  daypart_filters : List Json

/-- `OfferDetails: Deserialize`. -/
def OfferDetails.fromJson (j : Json) : Except String OfferDetails := do
  let order_discount_type ← reqField j "orderDiscountType" Json.asI64
  let offer_proposition_id ← reqField j "offerPropositionId" Json.asI64
  let offer_type ← reqField j "offerType" Json.asI64
  let offer_bucket ← reqField j "offerBucket" Json.asString
  let is_locked ← reqField j "isLocked" Json.asBool
  let isvalid_total_order ← reqField j "isvalidTotalOrder" Json.asBool
  let is_slpoffer ← reqField j "isSLPOffer" Json.asBool
  let color_coding_info ← reqField j "colorCodingInfo" Json.asI64
  let local_valid_from ← reqField j "localValidFrom" Json.asString
  let local_valid_to ← reqField j "localValidTo" Json.asString
  let valid_from_utc ← reqField j "validFromUTC" Json.asString
  let valid_to_utc ← reqField j "validToUTC" Json.asString
  let name ← reqField j "name" Json.asString
  let short_description ← reqField j "shortDescription" Json.asString
  let long_description ← reqField j "longDescription" Json.asString
  let image_base_name ← reqField j "imageBaseName" Json.asString
  let image_base_language ← reqField j "imageBaseLanguage" Json.asString
  let redemption_mode ← reqField j "redemptionMode" Json.asI64
  let is_expired ← reqField j "isExpired" Json.asBool
  let product_sets ← reqField j "productSets" (Json.asList ProductSet.fromJson)
  let restaurants ← reqField j "restaurants" (Json.asList Json.asValue)
  let frequency_offer_info ← reqField j "frequencyOfferInfo" FrequencyOfferInfo.fromJson
  let recurring_info ← reqField j "recurringInfo" RecurringInfo.fromJson
  let conditions ← reqField j "conditions" Conditions.fromJson
  let is_dynamic_expiration ← reqField j "isDynamicExpiration" Json.asBool
  let exclusive_tod ← reqField j "exclusiveTOD" Json.asBool
  let daypart_filters ← reqField j "daypartFilters" (Json.asList Json.asValue)
  Except.ok { order_discount_type := order_discount_type,
              offer_proposition_id := offer_proposition_id, offer_type := offer_type,
              offer_bucket := offer_bucket, is_locked := is_locked,
              isvalid_total_order := isvalid_total_order, is_slpoffer := is_slpoffer,
              color_coding_info := color_coding_info,
              local_valid_from := local_valid_from, local_valid_to := local_valid_to,
              valid_from_utc := valid_from_utc, valid_to_utc := valid_to_utc,
              name := name, short_description := short_description,
              long_description := long_description, image_base_name := image_base_name,
              image_base_language := image_base_language,
              redemption_mode := redemption_mode, is_expired := is_expired,
              product_sets := product_sets, restaurants := restaurants,
              frequency_offer_info := frequency_offer_info,
              recurring_info := recurring_info, conditions := conditions,
              is_dynamic_expiration := is_dynamic_expiration,
              exclusive_tod := exclusive_tod, daypart_filters := daypart_filters }

/-- `OfferDetails: Serialize`. -/
def OfferDetails.toJson (v : OfferDetails) : Json :=
  Json.obj
    [("orderDiscountType", Json.num v.order_discount_type),
     ("offerPropositionId", Json.num v.offer_proposition_id),
     ("offerType", Json.num v.offer_type),
     ("offerBucket", Json.str v.offer_bucket),
     ("isLocked", Json.bool v.is_locked),
     ("isvalidTotalOrder", Json.bool v.isvalid_total_order),
     ("isSLPOffer", Json.bool v.is_slpoffer),
     ("colorCodingInfo", Json.num v.color_coding_info),
     ("localValidFrom", Json.str v.local_valid_from),
     ("localValidTo", Json.str v.local_valid_to),
     ("validFromUTC", Json.str v.valid_from_utc),
     ("validToUTC", Json.str v.valid_to_utc),
     ("name", Json.str v.name),
     ("shortDescription", Json.str v.short_description),
     ("longDescription", Json.str v.long_description),
     ("imageBaseName", Json.str v.image_base_name),
     ("imageBaseLanguage", Json.str v.image_base_language),
     ("redemptionMode", Json.num v.redemption_mode),
     ("isExpired", Json.bool v.is_expired),
     ("productSets", Json.arr (v.product_sets.map ProductSet.toJson)),
     ("restaurants", Json.arr v.restaurants),
     ("frequencyOfferInfo", FrequencyOfferInfo.toJson v.frequency_offer_info),
     ("recurringInfo", RecurringInfo.toJson v.recurring_info),
     ("conditions", Conditions.toJson v.conditions),
     ("isDynamicExpiration", Json.bool v.is_dynamic_expiration),
     ("exclusiveTOD", Json.bool v.exclusive_tod),
     ("daypartFilters", Json.arr v.daypart_filters)]

/-- Representability in the Rust field types. -/
def OfferDetails.WF (v : OfferDetails) : Prop :=
  i64Bounded v.order_discount_type = true ∧ i64Bounded v.offer_proposition_id = true ∧
  i64Bounded v.offer_type = true ∧ i64Bounded v.color_coding_info = true ∧
  i64Bounded v.redemption_mode = true ∧ (∀ p ∈ v.product_sets, p.WF) ∧
  v.frequency_offer_info.WF ∧ v.recurring_info.WF ∧ v.conditions.WF

theorem roundtrip_OfferDetails (v : OfferDetails) (h : v.WF) :
    OfferDetails.fromJson (OfferDetails.toJson v) = Except.ok v := by
  obtain ⟨h1, h2, h3, h4, h5, hp, hf, hr, hc⟩ := h
  simp only [OfferDetails.fromJson, OfferDetails.toJson, reqField, Json.lookupField]
  simp [Json.asI64, Json.asString, Json.asBool, h1, h2, h3, h4, h5,
    asList_values_roundtrip, roundtrip_FrequencyOfferInfo _ hf,
    roundtrip_RecurringInfo _ hr, roundtrip_Conditions _ hc,
    asList_map_roundtrip ProductSet.fromJson ProductSet.toJson v.product_sets
      (fun x hx => roundtrip_ProductSet x (hp x hx))]
  rfl

/-- `OfferDetailsResponse` — the offer-details endpoint envelope;
`response` is nullable. -/
structure OfferDetailsResponse where
  status : Status
  response : Option OfferDetails

/-- `OfferDetailsResponse: Deserialize`. -/
def OfferDetailsResponse.fromJson (j : Json) : Except String OfferDetailsResponse := do
  let status ← reqField j "status" Status.fromJson
  let response ← optField j "response" OfferDetails.fromJson
  Except.ok { status := status, response := response }

/-- `OfferDetailsResponse: Serialize`. -/
def OfferDetailsResponse.toJson (v : OfferDetailsResponse) : Json :=
  Json.obj
    [("status", Status.toJson v.status),
     ("response", optJson OfferDetails.toJson v.response)]

/-- Representability in the Rust field types. -/
def OfferDetailsResponse.WF (v : OfferDetailsResponse) : Prop :=
  ∀ d ∈ v.response, d.WF

theorem roundtrip_OfferDetailsResponse (v : OfferDetailsResponse) (h : v.WF) :
    OfferDetailsResponse.fromJson (OfferDetailsResponse.toJson v) = Except.ok v := by
  simp only [OfferDetailsResponse.WF] at h
  simp only [OfferDetailsResponse.fromJson, OfferDetailsResponse.toJson, reqField,
    optField, Json.lookupField]
  simp [roundtrip_Status,
    parseOptVal_comp OfferDetails.fromJson OfferDetails.toJson v.response
      (fun a => by simp [OfferDetails.toJson])
      (fun a ha => roundtrip_OfferDetails a (h a ha))]
  rfl

/-- `Market` — catalog market data (every field an unmodelled
`serde_json::Value` with an explicit PascalCase rename). -/
structure Market where
  static_data_version : Json
  static_data : Json
  display_category_version : Json
  display_category : Json
  facility_version : Json
  facilities : Json
  names_version : Json
  names : Json
  restaurants_version : Json
  restaurants : Json
  recipe_version : Json
  recipes : Json
  language_version : Json
  languages : Json
  payment_methods_version : Json
  payment_methods : Json
  feedback_type_names_version : Json
  feedback_type_names : Json
  tender_type_version : Json
  tender_types : Json
  promotion_version : Json
  promotions : Json
  menu_type_version : Json
  menu_type : Json
  social_network_version : Json
  social_network : Json
  opt_ins_version : Json
  opt_ins : Json
  customer_enums_version : Json
  customer_enums : Json

/-- `Market: Deserialize`. -/
def Market.fromJson (j : Json) : Except String Market := do
  let f1 ← reqField j "StaticDataVersion" Json.asValue
  let f2 ← reqField j "StaticData" Json.asValue
  let f3 ← reqField j "DisplayCategoryVersion" Json.asValue
  let f4 ← reqField j "DisplayCategory" Json.asValue
  let f5 ← reqField j "FacilityVersion" Json.asValue
  let f6 ← reqField j "Facilities" Json.asValue
  let f7 ← reqField j "NamesVersion" Json.asValue
  let f8 ← reqField j "Names" Json.asValue
  let f9 ← reqField j "RestaurantsVersion" Json.asValue
  let f10 ← reqField j "Restaurants" Json.asValue
  let f11 ← reqField j "RecipeVersion" Json.asValue
  let f12 ← reqField j "Recipes" Json.asValue
  let f13 ← reqField j "LanguageVersion" Json.asValue
  let f14 ← reqField j "Languages" Json.asValue
  let f15 ← reqField j "PaymentMethodsVersion" Json.asValue
  let f16 ← reqField j "PaymentMethods" Json.asValue
  let f17 ← reqField j "FeedbackTypeNamesVersion" Json.asValue
  let f18 ← reqField j "FeedbackTypeNames" Json.asValue
  let f19 ← reqField j "TenderTypeVersion" Json.asValue
  let f20 ← reqField j "TenderTypes" Json.asValue
  let f21 ← reqField j "PromotionVersion" Json.asValue
  let f22 ← reqField j "Promotions" Json.asValue
  let f23 ← reqField j "MenuTypeVersion" Json.asValue
  let f24 ← reqField j "MenuType" Json.asValue
  let f25 ← reqField j "SocialNetworkVersion" Json.asValue
  let f26 ← reqField j "SocialNetwork" Json.asValue
  let f27 ← reqField j "Opt-InsVersion" Json.asValue
  let f28 ← reqField j "Opt-Ins" Json.asValue
  let f29 ← reqField j "CustomerEnumsVersion" Json.asValue
  let f30 ← reqField j "CustomerEnums" Json.asValue
  Except.ok { static_data_version := f1, static_data := f2,
              display_category_version := f3, display_category := f4,
              facility_version := f5, facilities := f6, names_version := f7,
              names := f8, restaurants_version := f9, restaurants := f10,
              recipe_version := f11, recipes := f12, language_version := f13,
              languages := f14, payment_methods_version := f15,
              payment_methods := f16, feedback_type_names_version := f17,
              feedback_type_names := f18, tender_type_version := f19,
              tender_types := f20, promotion_version := f21, promotions := f22,
              menu_type_version := f23, menu_type := f24,
              social_network_version := f25, social_network := f26,
              opt_ins_version := f27, opt_ins := f28,
              customer_enums_version := f29, customer_enums := f30 }

/-- `Market: Serialize`. -/
def Market.toJson (v : Market) : Json :=
  Json.obj
    [("StaticDataVersion", v.static_data_version), ("StaticData", v.static_data),
     ("DisplayCategoryVersion", v.display_category_version),
     ("DisplayCategory", v.display_category),
     ("FacilityVersion", v.facility_version), ("Facilities", v.facilities),
     ("NamesVersion", v.names_version), ("Names", v.names),
     ("RestaurantsVersion", v.restaurants_version), ("Restaurants", v.restaurants),
     ("RecipeVersion", v.recipe_version), ("Recipes", v.recipes),
     ("LanguageVersion", v.language_version), ("Languages", v.languages),
     ("PaymentMethodsVersion", v.payment_methods_version),
     ("PaymentMethods", v.payment_methods),
     ("FeedbackTypeNamesVersion", v.feedback_type_names_version),
     ("FeedbackTypeNames", v.feedback_type_names),
     ("TenderTypeVersion", v.tender_type_version), ("TenderTypes", v.tender_types),
     ("PromotionVersion", v.promotion_version), ("Promotions", v.promotions),
     ("MenuTypeVersion", v.menu_type_version), ("MenuType", v.menu_type),
     ("SocialNetworkVersion", v.social_network_version),
     ("SocialNetwork", v.social_network),
     ("Opt-InsVersion", v.opt_ins_version), ("Opt-Ins", v.opt_ins),
     ("CustomerEnumsVersion", v.customer_enums_version),
     ("CustomerEnums", v.customer_enums)]

theorem roundtrip_Market (v : Market) :
    Market.fromJson (Market.toJson v) = Except.ok v := rfl

/-- `Nutrition` — nutrition facts: an `i64` energy plus unmodelled
`Value` fields. -/
structure Nutrition where
  energy : Int
  name : Json
  serving : Json
  caloriesfromfat : Json
  totalfat : Json
  totalfat_dv : Json
  saturatedfat : Json
  saturatedfat_dv : Json
  transfat : Json
  cholesterol : Json
  cholesterol_dv : Json
  sodium : Json
  sodium_dv : Json
  carbohydrates : Json
  carbohydrates_dv : Json
  dietaryfiber : Json
  dietaryfiber_dv : Json
  sugars : Json
  protein : Json
  protein_dv : Json
  vitaminc : Json
  vitamina : Json
  calcium : Json
  iron : Json
  ingredients : Json
  allergenes : Json
  special_info : Json
  kcal : Json
  excluded_in_account : Json
  self_pour : Json
  min_beverage_self_pour : Json
  max_beverage_self_pour : Json
  min_beverage_self_pour_kcal : Json
  max_beverage_self_pour_kcal : Json
  self_pour_products : Json
  portion_extra_energy : Json
  portion_extra_energy_kcal : Json
  portion_light_energy : Json
  portion_light_energy_kcal : Json
  min_energy : Json
  max_energy : Json
  suffix : Json
  disclaimer_ids : Json

/-- `Nutrition: Deserialize`. -/
def Nutrition.fromJson (j : Json) : Except String Nutrition := do
  let energy ← reqField j "Energy" Json.asI64
  let f1 ← reqField j "Name" Json.asValue
  let f2 ← reqField j "Serving" Json.asValue
  let f3 ← reqField j "Caloriesfromfat" Json.asValue
  let f4 ← reqField j "Totalfat" Json.asValue
  let f5 ← reqField j "TotalfatDV" Json.asValue
  let f6 ← reqField j "Saturatedfat" Json.asValue
  let f7 ← reqField j "SaturatedfatDV" Json.asValue
  let f8 ← reqField j "Transfat" Json.asValue
  let f9 ← reqField j "Cholesterol" Json.asValue
  let f10 ← reqField j "CholesterolDV" Json.asValue
  let f11 ← reqField j "Sodium" Json.asValue
  let f12 ← reqField j "SodiumDV" Json.asValue
  let f13 ← reqField j "Carbohydrates" Json.asValue
  let f14 ← reqField j "CarbohydratesDV" Json.asValue
  let f15 ← reqField j "Dietaryfiber" Json.asValue
  let f16 ← reqField j "DietaryfiberDV" Json.asValue
  let f17 ← reqField j "Sugars" Json.asValue
  let f18 ← reqField j "Protein" Json.asValue
  let f19 ← reqField j "ProteinDV" Json.asValue
  let f20 ← reqField j "Vitaminc" Json.asValue
  let f21 ← reqField j "Vitamina" Json.asValue
  let f22 ← reqField j "Calcium" Json.asValue
  let f23 ← reqField j "Iron" Json.asValue
  let f24 ← reqField j "Ingredients" Json.asValue
  let f25 ← reqField j "Allergenes" Json.asValue
  let f26 ← reqField j "SpecialInfo" Json.asValue
  let f27 ← reqField j "KCal" Json.asValue
  let f28 ← reqField j "ExcludedInAccount" Json.asValue
  let f29 ← reqField j "SelfPour" Json.asValue
  let f30 ← reqField j "MinBeverageSelfPour" Json.asValue
  let f31 ← reqField j "MaxBeverageSelfPour" Json.asValue
  let f32 ← reqField j "MinBeverageSelfPourKCal" Json.asValue
  let f33 ← reqField j "MaxBeverageSelfPourKCal" Json.asValue
  let f34 ← reqField j "SelfPourProducts" Json.asValue
  let f35 ← reqField j "PortionExtraEnergy" Json.asValue
  let f36 ← reqField j "PortionExtraEnergyKCal" Json.asValue
  let f37 ← reqField j "PortionLightEnergy" Json.asValue
  let f38 ← reqField j "PortionLightEnergyKCal" Json.asValue
  let f39 ← reqField j "MinEnergy" Json.asValue
  let f40 ← reqField j "MaxEnergy" Json.asValue
  let f41 ← reqField j "Suffix" Json.asValue
  let f42 ← reqField j "DisclaimerIDs" Json.asValue
  Except.ok { energy := energy, name := f1, serving := f2, caloriesfromfat := f3,
              totalfat := f4, totalfat_dv := f5, saturatedfat := f6,
              saturatedfat_dv := f7, transfat := f8, cholesterol := f9,
              cholesterol_dv := f10, sodium := f11, sodium_dv := f12,
              carbohydrates := f13, carbohydrates_dv := f14, dietaryfiber := f15,
              dietaryfiber_dv := f16, sugars := f17, protein := f18,
              protein_dv := f19, vitaminc := f20, vitamina := f21, calcium := f22,
              iron := f23, ingredients := f24, allergenes := f25,
              special_info := f26, kcal := f27, excluded_in_account := f28,
              self_pour := f29, min_beverage_self_pour := f30,
              max_beverage_self_pour := f31, min_beverage_self_pour_kcal := f32,
              max_beverage_self_pour_kcal := f33, self_pour_products := f34,
              portion_extra_energy := f35, portion_extra_energy_kcal := f36,
              portion_light_energy := f37, portion_light_energy_kcal := f38,
              min_energy := f39, max_energy := f40, suffix := f41,
              disclaimer_ids := f42 }

/-- `Nutrition: Serialize`. -/
def Nutrition.toJson (v : Nutrition) : Json :=
  Json.obj
    [("Energy", Json.num v.energy), ("Name", v.name), ("Serving", v.serving),
     ("Caloriesfromfat", v.caloriesfromfat), ("Totalfat", v.totalfat),
     ("TotalfatDV", v.totalfat_dv), ("Saturatedfat", v.saturatedfat),
     ("SaturatedfatDV", v.saturatedfat_dv), ("Transfat", v.transfat),
     ("Cholesterol", v.cholesterol), ("CholesterolDV", v.cholesterol_dv),
     ("Sodium", v.sodium), ("SodiumDV", v.sodium_dv),
     ("Carbohydrates", v.carbohydrates), ("CarbohydratesDV", v.carbohydrates_dv),
     ("Dietaryfiber", v.dietaryfiber), ("DietaryfiberDV", v.dietaryfiber_dv),
     ("Sugars", v.sugars), ("Protein", v.protein), ("ProteinDV", v.protein_dv),
     ("Vitaminc", v.vitaminc), ("Vitamina", v.vitamina), ("Calcium", v.calcium),
     ("Iron", v.iron), ("Ingredients", v.ingredients), ("Allergenes", v.allergenes),
     ("SpecialInfo", v.special_info), ("KCal", v.kcal),
     ("ExcludedInAccount", v.excluded_in_account), ("SelfPour", v.self_pour),
     ("MinBeverageSelfPour", v.min_beverage_self_pour),
     ("MaxBeverageSelfPour", v.max_beverage_self_pour),
     ("MinBeverageSelfPourKCal", v.min_beverage_self_pour_kcal),
     ("MaxBeverageSelfPourKCal", v.max_beverage_self_pour_kcal),
     ("SelfPourProducts", v.self_pour_products),
     ("PortionExtraEnergy", v.portion_extra_energy),
     ("PortionExtraEnergyKCal", v.portion_extra_energy_kcal),
     ("PortionLightEnergy", v.portion_light_energy),
     ("PortionLightEnergyKCal", v.portion_light_energy_kcal),
     ("MinEnergy", v.min_energy), ("MaxEnergy", v.max_energy),
     ("Suffix", v.suffix), ("DisclaimerIDs", v.disclaimer_ids)]

/-- Representability in the Rust field types. -/
def Nutrition.WF (v : Nutrition) : Prop :=
  i64Bounded v.energy = true

theorem roundtrip_Nutrition (v : Nutrition) (h : v.WF) :
    Nutrition.fromJson (Nutrition.toJson v) = Except.ok v := by
  simp only [Nutrition.WF] at h
  simp only [Nutrition.fromJson, Nutrition.toJson, reqField, Json.lookupField]
  simp [Json.asI64, h]
  rfl

/-- `Category` — a display-category assignment. -/
structure Category where
  display_category_id : Int
  display_order : Int
  display_size_selection : Int
deriving DecidableEq

/-- `Category: Deserialize`. -/
def Category.fromJson (j : Json) : Except String Category := do
  let display_category_id ← reqField j "DisplayCategoryID" Json.asI64
  let display_order ← reqField j "DisplayOrder" Json.asI64
  let display_size_selection ← reqField j "DisplaySizeSelection" Json.asI64
  Except.ok { display_category_id := display_category_id,
              display_order := display_order,
              display_size_selection := display_size_selection }

/-- `Category: Serialize`. -/
def Category.toJson (v : Category) : Json :=
  Json.obj
    [("DisplayCategoryID", Json.num v.display_category_id),
     ("DisplayOrder", Json.num v.display_order),
     ("DisplaySizeSelection", Json.num v.display_size_selection)]

/-- Representability in the Rust field types. -/
def Category.WF (v : Category) : Prop :=
  i64Bounded v.display_category_id = true ∧ i64Bounded v.display_order = true ∧
  i64Bounded v.display_size_selection = true

theorem roundtrip_Category (v : Category) (h : v.WF) :
    Category.fromJson (Category.toJson v) = Except.ok v := by
  obtain ⟨h1, h2, h3⟩ := h
  simp only [Category.fromJson, Category.toJson, reqField, Json.lookupField]
  simp [Json.asI64, h1, h2, h3]
  rfl

/-- `Dimension` — a size dimension of a product. -/
structure Dimension where
  size_code_id : Int
  product_code : Int
  show_size_to_customer : Bool
deriving DecidableEq

/-- `Dimension: Deserialize`. -/
def Dimension.fromJson (j : Json) : Except String Dimension := do
  let size_code_id ← reqField j "SizeCodeID" Json.asI64
  let product_code ← reqField j "ProductCode" Json.asI64
  let show_size_to_customer ← reqField j "ShowSizeToCustomer" Json.asBool
  Except.ok { size_code_id := size_code_id, product_code := product_code,
              show_size_to_customer := show_size_to_customer }

/-- `Dimension: Serialize`. -/
def Dimension.toJson (v : Dimension) : Json :=
  Json.obj
    [("SizeCodeID", Json.num v.size_code_id), ("ProductCode", Json.num v.product_code),
     ("ShowSizeToCustomer", Json.bool v.show_size_to_customer)]

/-- Representability in the Rust field types. -/
def Dimension.WF (v : Dimension) : Prop :=
  i64Bounded v.size_code_id = true ∧ i64Bounded v.product_code = true

theorem roundtrip_Dimension (v : Dimension) (h : v.WF) :
    Dimension.fromJson (Dimension.toJson v) = Except.ok v := by
  obtain ⟨h1, h2⟩ := h
  simp only [Dimension.fromJson, Dimension.toJson, reqField, Json.lookupField]
  simp [Json.asI64, Json.asBool, h1, h2]
  rfl

/-- `TimeRestriction` — a daily availability window. -/
structure TimeRestriction where
  from_time : String
  to_time : String
deriving DecidableEq

/-- `TimeRestriction: Deserialize`. -/
def TimeRestriction.fromJson (j : Json) : Except String TimeRestriction := do
  let from_time ← reqField j "FromTime" Json.asString
  let to_time ← reqField j "ToTime" Json.asString
  Except.ok { from_time := from_time, to_time := to_time }

/-- `TimeRestriction: Serialize`. -/
def TimeRestriction.toJson (v : TimeRestriction) : Json :=
  Json.obj [("FromTime", Json.str v.from_time), ("ToTime", Json.str v.to_time)]

theorem roundtrip_TimeRestriction (v : TimeRestriction) :
    TimeRestriction.fromJson (TimeRestriction.toJson v) = Except.ok v := rfl

/-- `Pod` — a point-of-distribution sale type. -/
structure Pod where
  sale_type_id : Int
  type_name : String
deriving DecidableEq

/-- `Pod: Deserialize`. -/
def Pod.fromJson (j : Json) : Except String Pod := do
  let sale_type_id ← reqField j "SaleTypeID" Json.asI64
  let type_name ← reqField j "TypeName" Json.asString
  Except.ok { sale_type_id := sale_type_id, type_name := type_name }

/-- `Pod: Serialize`. -/
def Pod.toJson (v : Pod) : Json :=
  Json.obj [("SaleTypeID", Json.num v.sale_type_id), ("TypeName", Json.str v.type_name)]

/-- Representability in the Rust field types. -/
def Pod.WF (v : Pod) : Prop :=
  i64Bounded v.sale_type_id = true

theorem roundtrip_Pod (v : Pod) (h : v.WF) :
    Pod.fromJson (Pod.toJson v) = Except.ok v := by
  simp only [Pod.WF] at h
  simp only [Pod.fromJson, Pod.toJson, reqField, Json.lookupField]
  simp [Json.asI64, Json.asString, h]
  rfl

/-- `Name` — one localized product name. -/
structure Name where
  language_id : String
  short_name : String
  long_name : String
  name : String
deriving DecidableEq

/-- `Name: Deserialize`. -/
def Name.fromJson (j : Json) : Except String Name := do
  let language_id ← reqField j "LanguageID" Json.asString
  let short_name ← reqField j "ShortName" Json.asString
  let long_name ← reqField j "LongName" Json.asString
  let name ← reqField j "Name" Json.asString
  Except.ok { language_id := language_id, short_name := short_name,
              long_name := long_name, name := name }

/-- `Name: Serialize`. -/
def Name.toJson (v : Name) : Json :=
  Json.obj
    [("LanguageID", Json.str v.language_id), ("ShortName", Json.str v.short_name),
     ("LongName", Json.str v.long_name), ("Name", Json.str v.name)]

theorem roundtrip_Name (v : Name) :
    Name.fromJson (Name.toJson v) = Except.ok v := rfl

/-- `Names` — the localized names of a product. -/
structure Names where
  product_code : Int
  is_valid : Bool
  names : List Name

/-- `Names: Deserialize`. -/
def Names.fromJson (j : Json) : Except String Names := do
  let product_code ← reqField j "ProductCode" Json.asI64
  let is_valid ← reqField j "IsValid" Json.asBool
  let names ← reqField j "Names" (Json.asList Name.fromJson)
  Except.ok { product_code := product_code, is_valid := is_valid, names := names }

/-- `Names: Serialize`. -/
def Names.toJson (v : Names) : Json :=
  Json.obj
    [("ProductCode", Json.num v.product_code), ("IsValid", Json.bool v.is_valid),
     ("Names", Json.arr (v.names.map Name.toJson))]

/-- Representability in the Rust field types. -/
def Names.WF (v : Names) : Prop :=
  i64Bounded v.product_code = true

theorem roundtrip_Names (v : Names) (h : v.WF) :
    Names.fromJson (Names.toJson v) = Except.ok v := by
  simp only [Names.WF] at h
  simp only [Names.fromJson, Names.toJson, reqField, Json.lookupField]
  simp [Json.asI64, Json.asBool, h,
    asList_map_roundtrip Name.fromJson Name.toJson v.names
      (fun x _ => roundtrip_Name x)]
  rfl

/-- `SmartRouting`. -/
structure SmartRouting where
  cyt_product : Json
  cyt_group_display_order : Json
  cyt_ingredient_group : Option String
  cyt_ingredient_type : Option String
  deliver_early_enabled : Bool

/-- `SmartRouting: Deserialize`. -/
def SmartRouting.fromJson (j : Json) : Except String SmartRouting := do
  let cyt_product ← reqField j "CytProduct" Json.asValue
  let cyt_group_display_order ← reqField j "CytGroupDisplayOrder" Json.asValue
  let cyt_ingredient_group ← optField j "CytIngredientGroup" Json.asString
  let cyt_ingredient_type ← optField j "CytIngredientType" Json.asString
  let deliver_early_enabled ← reqField j "DeliverEarlyEnabled" Json.asBool
  Except.ok { cyt_product := cyt_product,
              cyt_group_display_order := cyt_group_display_order,
              cyt_ingredient_group := cyt_ingredient_group,
              cyt_ingredient_type := cyt_ingredient_type,
              deliver_early_enabled := deliver_early_enabled }

/-- `SmartRouting: Serialize`. -/
def SmartRouting.toJson (v : SmartRouting) : Json :=
  Json.obj
    [("CytProduct", v.cyt_product),
     ("CytGroupDisplayOrder", v.cyt_group_display_order),
     ("CytIngredientGroup", optJson Json.str v.cyt_ingredient_group),
     ("CytIngredientType", optJson Json.str v.cyt_ingredient_type),
     ("DeliverEarlyEnabled", Json.bool v.deliver_early_enabled)]

theorem roundtrip_SmartRouting (v : SmartRouting) :
    SmartRouting.fromJson (SmartRouting.toJson v) = Except.ok v := by
  simp only [SmartRouting.fromJson, SmartRouting.toJson, reqField, optField,
    Json.lookupField]
  simp [Json.asBool, parseOptVal_str]
  rfl

/-- `Price` — one price entry (`f64` price). -/
structure Price where
  price_type_id : Int
  price : F64
  is_valid : Bool
deriving DecidableEq

/-- `Price: Deserialize`. -/
def Price.fromJson (j : Json) : Except String Price := do
  let price_type_id ← reqField j "PriceTypeID" Json.asI64
  let price ← reqField j "Price" Json.asF64
  let is_valid ← reqField j "IsValid" Json.asBool
  Except.ok { price_type_id := price_type_id, price := price, is_valid := is_valid }

/-- `Price: Serialize`. -/
def Price.toJson (v : Price) : Json :=
  Json.obj
    [("PriceTypeID", Json.num v.price_type_id), ("Price", F64.toJson v.price),
     ("IsValid", Json.bool v.is_valid)]

/-- Representability in the Rust field types. -/
def Price.WF (v : Price) : Prop :=
  i64Bounded v.price_type_id = true ∧ v.price.WF

theorem roundtrip_Price (v : Price) (h : v.WF) :
    Price.fromJson (Price.toJson v) = Except.ok v := by
  obtain ⟨h1, h2⟩ := h
  simp only [Price.fromJson, Price.toJson, reqField, Json.lookupField]
  simp [Json.asI64, Json.asBool, h1, asF64_roundtrip _ h2.2]
  rfl

/-- `ProductPrice`. -/
structure ProductPrice where
  product_code : Int
  prices : List Price

/-- `ProductPrice: Deserialize`. -/
def ProductPrice.fromJson (j : Json) : Except String ProductPrice := do
  let product_code ← reqField j "ProductCode" Json.asI64
  let prices ← reqField j "Prices" (Json.asList Price.fromJson)
  Except.ok { product_code := product_code, prices := prices }

/-- `ProductPrice: Serialize`. -/
def ProductPrice.toJson (v : ProductPrice) : Json :=
  Json.obj
    [("ProductCode", Json.num v.product_code),
     ("Prices", Json.arr (v.prices.map Price.toJson))]

/-- Representability in the Rust field types. -/
def ProductPrice.WF (v : ProductPrice) : Prop :=
  i64Bounded v.product_code = true ∧ ∀ p ∈ v.prices, p.WF

theorem roundtrip_ProductPrice (v : ProductPrice) (h : v.WF) :
    ProductPrice.fromJson (ProductPrice.toJson v) = Except.ok v := by
  obtain ⟨h1, hp⟩ := h
  simp only [ProductPrice.fromJson, ProductPrice.toJson, reqField, Json.lookupField]
  simp [Json.asI64, h1,
    asList_map_roundtrip Price.fromJson Price.toJson v.prices
      (fun x hx => roundtrip_Price x (hp x hx))]
  rfl

/-- `Availability`. -/
structure Availability where
  product_code : Int
deriving DecidableEq

/-- `Availability: Deserialize`. -/
def Availability.fromJson (j : Json) : Except String Availability := do
  let product_code ← reqField j "ProductCode" Json.asI64
  Except.ok { product_code := product_code }

/-- `Availability: Serialize`. -/
def Availability.toJson (v : Availability) : Json :=
  Json.obj [("ProductCode", Json.num v.product_code)]

/-- Representability in the Rust field types. -/
def Availability.WF (v : Availability) : Prop :=
  i64Bounded v.product_code = true

theorem roundtrip_Availability (v : Availability) (h : v.WF) :
    Availability.fromJson (Availability.toJson v) = Except.ok v := by
  simp only [Availability.WF] at h
  simp only [Availability.fromJson, Availability.toJson, reqField, Json.lookupField]
  simp [Json.asI64, h]
  rfl

/-- `Ingredient` — a recipe ingredient. -/
structure Ingredient where
  is_customer_friendly : Bool
  min_quantity : Int
  default_quantity : Int
  max_quantity : Int
  refund_treshold : Int
  charge_treshold : Int
  cost_inclusive : Bool
  product_code : Int
  default_solution : Json
  reference_price_product_code : Json
  cyt_ingredient_group : Option String
  cyt_ingredient_type : String

/-- `Ingredient: Deserialize`. -/
def Ingredient.fromJson (j : Json) : Except String Ingredient := do
  let is_customer_friendly ← reqField j "IsCustomerFriendly" Json.asBool
  let min_quantity ← reqField j "MinQuantity" Json.asI64
  let default_quantity ← reqField j "DefaultQuantity" Json.asI64
  let max_quantity ← reqField j "MaxQuantity" Json.asI64
  let refund_treshold ← reqField j "RefundTreshold" Json.asI64
  let charge_treshold ← reqField j "ChargeTreshold" Json.asI64
  let cost_inclusive ← reqField j "CostInclusive" Json.asBool
  let product_code ← reqField j "ProductCode" Json.asI64
  let default_solution ← reqField j "DefaultSolution" Json.asValue
  let reference_price_product_code ← reqField j "ReferencePriceProductCode" Json.asValue
  let cyt_ingredient_group ← optField j "CytIngredientGroup" Json.asString
  let cyt_ingredient_type ← reqField j "CytIngredientType" Json.asString
  Except.ok { is_customer_friendly := is_customer_friendly,
              min_quantity := min_quantity, default_quantity := default_quantity,
              max_quantity := max_quantity, refund_treshold := refund_treshold,
              charge_treshold := charge_treshold, cost_inclusive := cost_inclusive,
              product_code := product_code, default_solution := default_solution,
              reference_price_product_code := reference_price_product_code,
              cyt_ingredient_group := cyt_ingredient_group,
              cyt_ingredient_type := cyt_ingredient_type }

/-- `Ingredient: Serialize`. -/
def Ingredient.toJson (v : Ingredient) : Json :=
  Json.obj
    [("IsCustomerFriendly", Json.bool v.is_customer_friendly),
     ("MinQuantity", Json.num v.min_quantity),
     ("DefaultQuantity", Json.num v.default_quantity),
     ("MaxQuantity", Json.num v.max_quantity),
     ("RefundTreshold", Json.num v.refund_treshold),
     ("ChargeTreshold", Json.num v.charge_treshold),
     ("CostInclusive", Json.bool v.cost_inclusive),
     ("ProductCode", Json.num v.product_code),
     ("DefaultSolution", v.default_solution),
     ("ReferencePriceProductCode", v.reference_price_product_code),
     ("CytIngredientGroup", optJson Json.str v.cyt_ingredient_group),
     ("CytIngredientType", Json.str v.cyt_ingredient_type)]

/-- Representability in the Rust field types. -/
def Ingredient.WF (v : Ingredient) : Prop :=
  i64Bounded v.min_quantity = true ∧ i64Bounded v.default_quantity = true ∧
  i64Bounded v.max_quantity = true ∧ i64Bounded v.refund_treshold = true ∧
  i64Bounded v.charge_treshold = true ∧ i64Bounded v.product_code = true

theorem roundtrip_Ingredient (v : Ingredient) (h : v.WF) :
    Ingredient.fromJson (Ingredient.toJson v) = Except.ok v := by
  obtain ⟨h1, h2, h3, h4, h5, h6⟩ := h
  simp only [Ingredient.fromJson, Ingredient.toJson, reqField, optField, Json.lookupField]
  simp [Json.asI64, Json.asBool, Json.asString, h1, h2, h3, h4, h5, h6, parseOptVal_str]
  rfl

/-- `Extra` — like `Ingredient`, with an unmodelled `Value` ingredient
group. -/
structure Extra where
  is_customer_friendly : Bool
  min_quantity : Int
  default_quantity : Int
  max_quantity : Int
  refund_treshold : Int
  charge_treshold : Int
  cost_inclusive : Bool
  product_code : Int
  default_solution : Json
  reference_price_product_code : Json
  cyt_ingredient_group : Json
  cyt_ingredient_type : String

/-- `Extra: Deserialize`. -/
def Extra.fromJson (j : Json) : Except String Extra := do
  let is_customer_friendly ← reqField j "IsCustomerFriendly" Json.asBool
  let min_quantity ← reqField j "MinQuantity" Json.asI64
  let default_quantity ← reqField j "DefaultQuantity" Json.asI64
  let max_quantity ← reqField j "MaxQuantity" Json.asI64
  let refund_treshold ← reqField j "RefundTreshold" Json.asI64
  let charge_treshold ← reqField j "ChargeTreshold" Json.asI64
  let cost_inclusive ← reqField j "CostInclusive" Json.asBool
  let product_code ← reqField j "ProductCode" Json.asI64
  let default_solution ← reqField j "DefaultSolution" Json.asValue
  let reference_price_product_code ← reqField j "ReferencePriceProductCode" Json.asValue
  let cyt_ingredient_group ← reqField j "CytIngredientGroup" Json.asValue
  let cyt_ingredient_type ← reqField j "CytIngredientType" Json.asString
  Except.ok { is_customer_friendly := is_customer_friendly,
              min_quantity := min_quantity, default_quantity := default_quantity,
              max_quantity := max_quantity, refund_treshold := refund_treshold,
              charge_treshold := charge_treshold, cost_inclusive := cost_inclusive,
              product_code := product_code, default_solution := default_solution,
              reference_price_product_code := reference_price_product_code,
              cyt_ingredient_group := cyt_ingredient_group,
              cyt_ingredient_type := cyt_ingredient_type }

/-- `Extra: Serialize`. -/
def Extra.toJson (v : Extra) : Json :=
  Json.obj
    [("IsCustomerFriendly", Json.bool v.is_customer_friendly),
     ("MinQuantity", Json.num v.min_quantity),
     ("DefaultQuantity", Json.num v.default_quantity),
     ("MaxQuantity", Json.num v.max_quantity),
     ("RefundTreshold", Json.num v.refund_treshold),
     ("ChargeTreshold", Json.num v.charge_treshold),
     ("CostInclusive", Json.bool v.cost_inclusive),
     ("ProductCode", Json.num v.product_code),
     ("DefaultSolution", v.default_solution),
     ("ReferencePriceProductCode", v.reference_price_product_code),
     ("CytIngredientGroup", v.cyt_ingredient_group),
     ("CytIngredientType", Json.str v.cyt_ingredient_type)]

/-- Representability in the Rust field types. -/
def Extra.WF (v : Extra) : Prop :=
  i64Bounded v.min_quantity = true ∧ i64Bounded v.default_quantity = true ∧
  i64Bounded v.max_quantity = true ∧ i64Bounded v.refund_treshold = true ∧
  i64Bounded v.charge_treshold = true ∧ i64Bounded v.product_code = true

theorem roundtrip_Extra (v : Extra) (h : v.WF) :
    Extra.fromJson (Extra.toJson v) = Except.ok v := by
  obtain ⟨h1, h2, h3, h4, h5, h6⟩ := h
  simp only [Extra.fromJson, Extra.toJson, reqField, Json.lookupField]
  simp [Json.asI64, Json.asBool, Json.asString, h1, h2, h3, h4, h5, h6]
  rfl

/-- `Choice` — like `Ingredient`, with optional `i64` solution and
reference price. -/
structure Choice where
  is_customer_friendly : Bool
  min_quantity : Int
  default_quantity : Int
  max_quantity : Int
  refund_treshold : Int
  charge_treshold : Int
  cost_inclusive : Bool
  product_code : Int
  default_solution : Option Int
  reference_price_product_code : Option Int
  cyt_ingredient_group : Json
  cyt_ingredient_type : String

/-- `Choice: Deserialize`. -/
def Choice.fromJson (j : Json) : Except String Choice := do
  let is_customer_friendly ← reqField j "IsCustomerFriendly" Json.asBool
  let min_quantity ← reqField j "MinQuantity" Json.asI64
  let default_quantity ← reqField j "DefaultQuantity" Json.asI64
  let max_quantity ← reqField j "MaxQuantity" Json.asI64
  let refund_treshold ← reqField j "RefundTreshold" Json.asI64
  let charge_treshold ← reqField j "ChargeTreshold" Json.asI64
  let cost_inclusive ← reqField j "CostInclusive" Json.asBool
  let product_code ← reqField j "ProductCode" Json.asI64
  let default_solution ← optField j "DefaultSolution" Json.asI64
  let reference_price_product_code ← optField j "ReferencePriceProductCode" Json.asI64
  let cyt_ingredient_group ← reqField j "CytIngredientGroup" Json.asValue
  let cyt_ingredient_type ← reqField j "CytIngredientType" Json.asString
  Except.ok { is_customer_friendly := is_customer_friendly,
              min_quantity := min_quantity, default_quantity := default_quantity,
              max_quantity := max_quantity, refund_treshold := refund_treshold,
              charge_treshold := charge_treshold, cost_inclusive := cost_inclusive,
              product_code := product_code, default_solution := default_solution,
              reference_price_product_code := reference_price_product_code,
              cyt_ingredient_group := cyt_ingredient_group,
              cyt_ingredient_type := cyt_ingredient_type }

/-- `Choice: Serialize`. -/
def Choice.toJson (v : Choice) : Json :=
  Json.obj
    [("IsCustomerFriendly", Json.bool v.is_customer_friendly),
     ("MinQuantity", Json.num v.min_quantity),
     ("DefaultQuantity", Json.num v.default_quantity),
     ("MaxQuantity", Json.num v.max_quantity),
     ("RefundTreshold", Json.num v.refund_treshold),
     ("ChargeTreshold", Json.num v.charge_treshold),
     ("CostInclusive", Json.bool v.cost_inclusive),
     ("ProductCode", Json.num v.product_code),
     ("DefaultSolution", optJson Json.num v.default_solution),
     ("ReferencePriceProductCode", optJson Json.num v.reference_price_product_code),
     ("CytIngredientGroup", v.cyt_ingredient_group),
     ("CytIngredientType", Json.str v.cyt_ingredient_type)]

/-- Representability in the Rust field types. -/
def Choice.WF (v : Choice) : Prop :=
  i64Bounded v.min_quantity = true ∧ i64Bounded v.default_quantity = true ∧
  i64Bounded v.max_quantity = true ∧ i64Bounded v.refund_treshold = true ∧
  i64Bounded v.charge_treshold = true ∧ i64Bounded v.product_code = true ∧
  i64OptBounded v.default_solution = true ∧
  i64OptBounded v.reference_price_product_code = true

theorem roundtrip_Choice (v : Choice) (h : v.WF) :
    Choice.fromJson (Choice.toJson v) = Except.ok v := by
  obtain ⟨h1, h2, h3, h4, h5, h6, h7, h8⟩ := h
  simp only [Choice.fromJson, Choice.toJson, reqField, optField, Json.lookupField]
  simp [Json.asI64, Json.asBool, Json.asString, h1, h2, h3, h4, h5, h6,
    parseOptVal_num _ h7, parseOptVal_num _ h8]
  rfl

/-- `Comment` — like `Extra` (unmodelled `Value` solution and group). -/
structure Comment where
  is_customer_friendly : Bool
  min_quantity : Int
  default_quantity : Int
  max_quantity : Int
  refund_treshold : Int
  charge_treshold : Int
  cost_inclusive : Bool
  product_code : Int
  default_solution : Json
  reference_price_product_code : Json
  cyt_ingredient_group : Json
  cyt_ingredient_type : String

/-- `Comment: Deserialize`. -/
def Comment.fromJson (j : Json) : Except String Comment := do
  let is_customer_friendly ← reqField j "IsCustomerFriendly" Json.asBool
  let min_quantity ← reqField j "MinQuantity" Json.asI64
  let default_quantity ← reqField j "DefaultQuantity" Json.asI64
  let max_quantity ← reqField j "MaxQuantity" Json.asI64
  let refund_treshold ← reqField j "RefundTreshold" Json.asI64
  let charge_treshold ← reqField j "ChargeTreshold" Json.asI64
  let cost_inclusive ← reqField j "CostInclusive" Json.asBool
  let product_code ← reqField j "ProductCode" Json.asI64
  let default_solution ← reqField j "DefaultSolution" Json.asValue
  let reference_price_product_code ← reqField j "ReferencePriceProductCode" Json.asValue
  let cyt_ingredient_group ← reqField j "CytIngredientGroup" Json.asValue
  let cyt_ingredient_type ← reqField j "CytIngredientType" Json.asString
  Except.ok { is_customer_friendly := is_customer_friendly,
              min_quantity := min_quantity, default_quantity := default_quantity,
              max_quantity := max_quantity, refund_treshold := refund_treshold,
              charge_treshold := charge_treshold, cost_inclusive := cost_inclusive,
              product_code := product_code, default_solution := default_solution,
              reference_price_product_code := reference_price_product_code,
              cyt_ingredient_group := cyt_ingredient_group,
              cyt_ingredient_type := cyt_ingredient_type }

/-- `Comment: Serialize`. -/
def Comment.toJson (v : Comment) : Json :=
  Json.obj
    [("IsCustomerFriendly", Json.bool v.is_customer_friendly),
     ("MinQuantity", Json.num v.min_quantity),
     ("DefaultQuantity", Json.num v.default_quantity),
     ("MaxQuantity", Json.num v.max_quantity),
     ("RefundTreshold", Json.num v.refund_treshold),
     ("ChargeTreshold", Json.num v.charge_treshold),
     ("CostInclusive", Json.bool v.cost_inclusive),
     ("ProductCode", Json.num v.product_code),
     ("DefaultSolution", v.default_solution),
     ("ReferencePriceProductCode", v.reference_price_product_code),
     ("CytIngredientGroup", v.cyt_ingredient_group),
     ("CytIngredientType", Json.str v.cyt_ingredient_type)]

/-- Representability in the Rust field types. -/
def Comment.WF (v : Comment) : Prop :=
  i64Bounded v.min_quantity = true ∧ i64Bounded v.default_quantity = true ∧
  i64Bounded v.max_quantity = true ∧ i64Bounded v.refund_treshold = true ∧
  i64Bounded v.charge_treshold = true ∧ i64Bounded v.product_code = true

theorem roundtrip_Comment (v : Comment) (h : v.WF) :
    Comment.fromJson (Comment.toJson v) = Except.ok v := by
  obtain ⟨h1, h2, h3, h4, h5, h6⟩ := h
  simp only [Comment.fromJson, Comment.toJson, reqField, Json.lookupField]
  simp [Json.asI64, Json.asBool, Json.asString, h1, h2, h3, h4, h5, h6]
  rfl

/-- `Recipe`. -/
structure Recipe where
  recipe_id : Int
  is_valid : Bool
  is_customer_friendly : Bool
  default_solution : Json
  ingredients : List Ingredient
  extras : List Extra
  choices : List Choice
  comments : List Comment

/-- `Recipe: Deserialize`. -/
def Recipe.fromJson (j : Json) : Except String Recipe := do
  let recipe_id ← reqField j "RecipeID" Json.asI64
  let is_valid ← reqField j "IsValid" Json.asBool
  let is_customer_friendly ← reqField j "IsCustomerFriendly" Json.asBool
  let default_solution ← reqField j "DefaultSolution" Json.asValue
  let ingredients ← reqField j "Ingredients" (Json.asList Ingredient.fromJson)
  let extras ← reqField j "Extras" (Json.asList Extra.fromJson)
  let choices ← reqField j "Choices" (Json.asList Choice.fromJson)
  let comments ← reqField j "Comments" (Json.asList Comment.fromJson)
  Except.ok { recipe_id := recipe_id, is_valid := is_valid,
              is_customer_friendly := is_customer_friendly,
              default_solution := default_solution, ingredients := ingredients,
              extras := extras, choices := choices, comments := comments }

/-- `Recipe: Serialize`. -/
def Recipe.toJson (v : Recipe) : Json :=
  Json.obj
    [("RecipeID", Json.num v.recipe_id), ("IsValid", Json.bool v.is_valid),
     ("IsCustomerFriendly", Json.bool v.is_customer_friendly),
     ("DefaultSolution", v.default_solution),
     ("Ingredients", Json.arr (v.ingredients.map Ingredient.toJson)),
     ("Extras", Json.arr (v.extras.map Extra.toJson)),
     ("Choices", Json.arr (v.choices.map Choice.toJson)),
     ("Comments", Json.arr (v.comments.map Comment.toJson))]

/-- Representability in the Rust field types. -/
def Recipe.WF (v : Recipe) : Prop :=
  i64Bounded v.recipe_id = true ∧ (∀ x ∈ v.ingredients, x.WF) ∧
  (∀ x ∈ v.extras, x.WF) ∧ (∀ x ∈ v.choices, x.WF) ∧ (∀ x ∈ v.comments, x.WF)

theorem roundtrip_Recipe (v : Recipe) (h : v.WF) :
    Recipe.fromJson (Recipe.toJson v) = Except.ok v := by
  obtain ⟨h1, hi, he, hc, hm⟩ := h
  simp only [Recipe.fromJson, Recipe.toJson, reqField, Json.lookupField]
  simp [Json.asI64, Json.asBool, h1,
    asList_map_roundtrip Ingredient.fromJson Ingredient.toJson v.ingredients
      (fun x hx => roundtrip_Ingredient x (hi x hx)),
    asList_map_roundtrip Extra.fromJson Extra.toJson v.extras
      (fun x hx => roundtrip_Extra x (he x hx)),
    asList_map_roundtrip Choice.fromJson Choice.toJson v.choices
      (fun x hx => roundtrip_Choice x (hc x hx)),
    asList_map_roundtrip Comment.fromJson Comment.toJson v.comments
      (fun x hx => roundtrip_Comment x (hm x hx))]
  rfl

/-- `Product` — a catalog product (several `#[serde(default)]` vector
fields). -/
structure Product where
  nutrition : Option Nutrition
  categories : List Category
  dimensions : List Dimension
  static_data : List Json
  time_restriction : List TimeRestriction
  is_promotional : Bool
  display_image_name : String
  is_promotional_choice : Bool
  promotional_label : String
  promotion_start_date : String
  promotion_end_date : String
  promotion_restriction : Json
  promotions_associated : Json
  product_code : Int
  family_group_id : Int
  recipe_id : Int
  menu_type_id : Int
  is_mc_cafe : Bool
  is_salable : Bool
  max_choice_options_mot : Int
  accepts_light : Bool
  accepts_only : Bool
  product_type : Int
  product_unit : Option String
  max_qtty_allowed_per_order : Option Int
  pod : List Pod
  extended_menu_type_id : List Int
  recipe : Recipe
  names : Names
  nutrition_primary_product_code : Json
  smart_routing : Option SmartRouting
  max_extra_ingredients_quantity : Int
  volume_prices : Json
  tags : List String
  deposit_code : Json
  sugar_levy_amount : Json

/-- `Product: Deserialize` (`Categories`, `TimeRestriction`, `POD`,
`ExtendedMenuTypeID` and `Tags` carry `#[serde(default)]`: a missing key
yields the empty vector). -/
def Product.fromJson (j : Json) : Except String Product := do
  let nutrition ← optField j "Nutrition" Nutrition.fromJson
  let categories ← defField j "Categories" (Json.asList Category.fromJson) []
  let dimensions ← reqField j "Dimensions" (Json.asList Dimension.fromJson)
  let static_data ← reqField j "StaticData" (Json.asList Json.asValue)
  let time_restriction ←
    defField j "TimeRestriction" (Json.asList TimeRestriction.fromJson) []
  let is_promotional ← reqField j "IsPromotional" Json.asBool
  let display_image_name ← reqField j "DisplayImageName" Json.asString
  let is_promotional_choice ← reqField j "IsPromotionalChoice" Json.asBool
  let promotional_label ← reqField j "PromotionalLabel" Json.asString
  let promotion_start_date ← reqField j "PromotionStartDate" Json.asString
  let promotion_end_date ← reqField j "PromotionEndDate" Json.asString
  let promotion_restriction ← reqField j "PromotionRestriction" Json.asValue
  let promotions_associated ← reqField j "PromotionsAssociated" Json.asValue
  let product_code ← reqField j "ProductCode" Json.asI64
  let family_group_id ← reqField j "FamilyGroupID" Json.asI64
  let recipe_id ← reqField j "RecipeID" Json.asI64
  let menu_type_id ← reqField j "MenuTypeID" Json.asI64
  let is_mc_cafe ← reqField j "IsMcCafe" Json.asBool
  let is_salable ← reqField j "IsSalable" Json.asBool
  let max_choice_options_mot ← reqField j "MaxChoiceOptionsMOT" Json.asI64
  let accepts_light ← reqField j "AcceptsLight" Json.asBool
  let accepts_only ← reqField j "AcceptsOnly" Json.asBool
  let product_type ← reqField j "ProductType" Json.asI64
  let product_unit ← optField j "ProductUnit" Json.asString
  let max_qtty_allowed_per_order ← optField j "MaxQttyAllowedPerOrder" Json.asI64
  let pod ← defField j "POD" (Json.asList Pod.fromJson) []
  let extended_menu_type_id ← defField j "ExtendedMenuTypeID" (Json.asList Json.asI64) []
  let recipe ← reqField j "Recipe" Recipe.fromJson
  let names ← reqField j "Names" Names.fromJson
  let nutrition_primary_product_code ← reqField j "NutritionPrimaryProductCode" Json.asValue
  let smart_routing ← optField j "SmartRouting" SmartRouting.fromJson
  let max_extra_ingredients_quantity ← reqField j "MaxExtraIngredientsQuantity" Json.asI64
  let volume_prices ← reqField j "VolumePrices" Json.asValue
  let tags ← defField j "Tags" (Json.asList Json.asString) []
  let deposit_code ← reqField j "DepositCode" Json.asValue
  let sugar_levy_amount ← reqField j "SugarLevyAmount" Json.asValue
  Except.ok { nutrition := nutrition, categories := categories,
              dimensions := dimensions, static_data := static_data,
              time_restriction := time_restriction, is_promotional := is_promotional,
              display_image_name := display_image_name,
              is_promotional_choice := is_promotional_choice,
              promotional_label := promotional_label,
              promotion_start_date := promotion_start_date,
              promotion_end_date := promotion_end_date,
              promotion_restriction := promotion_restriction,
              promotions_associated := promotions_associated,
              product_code := product_code, family_group_id := family_group_id,
              recipe_id := recipe_id, menu_type_id := menu_type_id,
              is_mc_cafe := is_mc_cafe, is_salable := is_salable,
              max_choice_options_mot := max_choice_options_mot,
              accepts_light := accepts_light, accepts_only := accepts_only,
              product_type := product_type, product_unit := product_unit,
              max_qtty_allowed_per_order := max_qtty_allowed_per_order,
              pod := pod, extended_menu_type_id := extended_menu_type_id,
              recipe := recipe, names := names,
              nutrition_primary_product_code := nutrition_primary_product_code,
              smart_routing := smart_routing,
              max_extra_ingredients_quantity := max_extra_ingredients_quantity,
              volume_prices := volume_prices, tags := tags,
              deposit_code := deposit_code, sugar_levy_amount := sugar_levy_amount }

/-- `Product: Serialize`. -/
def Product.toJson (v : Product) : Json :=
  Json.obj
    [("Nutrition", optJson Nutrition.toJson v.nutrition),
     ("Categories", Json.arr (v.categories.map Category.toJson)),
     ("Dimensions", Json.arr (v.dimensions.map Dimension.toJson)),
     ("StaticData", Json.arr v.static_data),
     ("TimeRestriction", Json.arr (v.time_restriction.map TimeRestriction.toJson)),
     ("IsPromotional", Json.bool v.is_promotional),
     ("DisplayImageName", Json.str v.display_image_name),
     ("IsPromotionalChoice", Json.bool v.is_promotional_choice),
     ("PromotionalLabel", Json.str v.promotional_label),
     ("PromotionStartDate", Json.str v.promotion_start_date),
     ("PromotionEndDate", Json.str v.promotion_end_date),
     ("PromotionRestriction", v.promotion_restriction),
     ("PromotionsAssociated", v.promotions_associated),
     ("ProductCode", Json.num v.product_code),
     ("FamilyGroupID", Json.num v.family_group_id),
     ("RecipeID", Json.num v.recipe_id),
     ("MenuTypeID", Json.num v.menu_type_id),
     ("IsMcCafe", Json.bool v.is_mc_cafe),
     ("IsSalable", Json.bool v.is_salable),
     ("MaxChoiceOptionsMOT", Json.num v.max_choice_options_mot),
     ("AcceptsLight", Json.bool v.accepts_light),
     ("AcceptsOnly", Json.bool v.accepts_only),
     ("ProductType", Json.num v.product_type),
     ("ProductUnit", optJson Json.str v.product_unit),
     ("MaxQttyAllowedPerOrder", optJson Json.num v.max_qtty_allowed_per_order),
     ("POD", Json.arr (v.pod.map Pod.toJson)),
     ("ExtendedMenuTypeID", Json.arr (v.extended_menu_type_id.map Json.num)),
     ("Recipe", Recipe.toJson v.recipe),
     ("Names", Names.toJson v.names),
     ("NutritionPrimaryProductCode", v.nutrition_primary_product_code),
     ("SmartRouting", optJson SmartRouting.toJson v.smart_routing),
     ("MaxExtraIngredientsQuantity", Json.num v.max_extra_ingredients_quantity),
     ("VolumePrices", v.volume_prices),
     ("Tags", Json.arr (v.tags.map Json.str)),
     ("DepositCode", v.deposit_code),
     ("SugarLevyAmount", v.sugar_levy_amount)]

/-- Representability in the Rust field types. -/
def Product.WF (v : Product) : Prop :=
  i64Bounded v.product_code = true ∧ i64Bounded v.family_group_id = true ∧
  i64Bounded v.recipe_id = true ∧ i64Bounded v.menu_type_id = true ∧
  i64Bounded v.max_choice_options_mot = true ∧ i64Bounded v.product_type = true ∧
  i64Bounded v.max_extra_ingredients_quantity = true ∧
  i64OptBounded v.max_qtty_allowed_per_order = true ∧
  (∀ n ∈ v.nutrition, n.WF) ∧ (∀ c ∈ v.categories, c.WF) ∧
  (∀ d ∈ v.dimensions, d.WF) ∧ (∀ p ∈ v.pod, p.WF) ∧
  (∀ n ∈ v.extended_menu_type_id, i64Bounded n = true) ∧
  v.recipe.WF ∧ v.names.WF

theorem roundtrip_Product (v : Product) (h : v.WF) :
    Product.fromJson (Product.toJson v) = Except.ok v := by
  obtain ⟨h1, h2, h3, h4, h5, h6, h7, h8, hn, hc, hd, hp, he, hr, hm⟩ := h
  simp only [Product.fromJson, Product.toJson, reqField, optField, defField,
    Json.lookupField]
  simp [Json.asI64, Json.asBool, Json.asString, h1, h2, h3, h4, h5, h6, h7,
    parseOptVal_num _ h8, parseOptVal_str, asList_values_roundtrip,
    asList_str_roundtrip, roundtrip_Recipe _ hr, roundtrip_Names _ hm,
    asList_num_roundtrip v.extended_menu_type_id he,
    parseOptVal_comp Nutrition.fromJson Nutrition.toJson v.nutrition
      (fun a => by simp [Nutrition.toJson])
      (fun a ha => roundtrip_Nutrition a (hn a ha)),
    parseOptVal_comp SmartRouting.fromJson SmartRouting.toJson v.smart_routing
      (fun a => by simp [SmartRouting.toJson])
      (fun a _ => roundtrip_SmartRouting a),
    asList_map_roundtrip Category.fromJson Category.toJson v.categories
      (fun x hx => roundtrip_Category x (hc x hx)),
    asList_map_roundtrip Dimension.fromJson Dimension.toJson v.dimensions
      (fun x hx => roundtrip_Dimension x (hd x hx)),
    asList_map_roundtrip TimeRestriction.fromJson TimeRestriction.toJson
      v.time_restriction (fun x _ => roundtrip_TimeRestriction x),
    asList_map_roundtrip Pod.fromJson Pod.toJson v.pod
      (fun x hx => roundtrip_Pod x (hp x hx))]
  rfl

/-- `Store` — one store's catalog bundle. -/
structure Store where
  store : String
  restaurant_data_version : Json
  restaurant_data : Json
  promotion_version : String
  promotions : List Json
  product_version : String
  products : List Product
  product_price_version : String
  product_price : List ProductPrice
  recipe_price_version : Json
  recipe_price : Json
  availability_version : String
  availability : List Availability

/-- `Store: Deserialize`. -/
def Store.fromJson (j : Json) : Except String Store := do
  let store ← reqField j "Store" Json.asString
  let restaurant_data_version ← reqField j "RestaurantDataVersion" Json.asValue
  let restaurant_data ← reqField j "RestaurantData" Json.asValue
  let promotion_version ← reqField j "PromotionVersion" Json.asString
  let promotions ← reqField j "Promotions" (Json.asList Json.asValue)
  let product_version ← reqField j "ProductVersion" Json.asString
  let products ← reqField j "Products" (Json.asList Product.fromJson)
  let product_price_version ← reqField j "ProductPriceVersion" Json.asString
  let product_price ← reqField j "ProductPrice" (Json.asList ProductPrice.fromJson)
  let recipe_price_version ← reqField j "RecipePriceVersion" Json.asValue
  let recipe_price ← reqField j "RecipePrice" Json.asValue
  let availability_version ← reqField j "AvailabilityVersion" Json.asString
  let availability ← reqField j "Availability" (Json.asList Availability.fromJson)
  Except.ok { store := store, restaurant_data_version := restaurant_data_version,
              restaurant_data := restaurant_data,
              promotion_version := promotion_version, promotions := promotions,
              product_version := product_version, products := products,
              product_price_version := product_price_version,
              product_price := product_price,
              recipe_price_version := recipe_price_version,
              recipe_price := recipe_price,
              availability_version := availability_version,
              availability := availability }

/-- `Store: Serialize`. -/
def Store.toJson (v : Store) : Json :=
  Json.obj
    [("Store", Json.str v.store),
     ("RestaurantDataVersion", v.restaurant_data_version),
     ("RestaurantData", v.restaurant_data),
     ("PromotionVersion", Json.str v.promotion_version),
     ("Promotions", Json.arr v.promotions),
     ("ProductVersion", Json.str v.product_version),
     ("Products", Json.arr (v.products.map Product.toJson)),
     ("ProductPriceVersion", Json.str v.product_price_version),
     ("ProductPrice", Json.arr (v.product_price.map ProductPrice.toJson)),
     ("RecipePriceVersion", v.recipe_price_version),
     ("RecipePrice", v.recipe_price),
     ("AvailabilityVersion", Json.str v.availability_version),
     ("Availability", Json.arr (v.availability.map Availability.toJson))]

/-- Representability in the Rust field types. -/
def Store.WF (v : Store) : Prop :=
  (∀ p ∈ v.products, p.WF) ∧ (∀ p ∈ v.product_price, p.WF) ∧
  (∀ a ∈ v.availability, a.WF)

theorem roundtrip_Store (v : Store) (h : v.WF) :
    Store.fromJson (Store.toJson v) = Except.ok v := by
  obtain ⟨hp, hq, ha⟩ := h
  simp only [Store.fromJson, Store.toJson, reqField, Json.lookupField]
  simp [Json.asString, asList_values_roundtrip,
    asList_map_roundtrip Product.fromJson Product.toJson v.products
      (fun x hx => roundtrip_Product x (hp x hx)),
    asList_map_roundtrip ProductPrice.fromJson ProductPrice.toJson v.product_price
      (fun x hx => roundtrip_ProductPrice x (hq x hx)),
    asList_map_roundtrip Availability.fromJson Availability.toJson v.availability
      (fun x hx => roundtrip_Availability x (ha x hx))]
  rfl

/-- `CatalogResponse` — the store-catalog payload. -/
structure CatalogResponse where
  market : Market
  store : List Store

/-- `CatalogResponse: Deserialize`. -/
def CatalogResponse.fromJson (j : Json) : Except String CatalogResponse := do
  let market ← reqField j "Market" Market.fromJson
  let store ← reqField j "Store" (Json.asList Store.fromJson)
  Except.ok { market := market, store := store }

/-- `CatalogResponse: Serialize`. -/
def CatalogResponse.toJson (v : CatalogResponse) : Json :=
  Json.obj
    [("Market", Market.toJson v.market),
     ("Store", Json.arr (v.store.map Store.toJson))]

/-- Representability in the Rust field types. -/
def CatalogResponse.WF (v : CatalogResponse) : Prop :=
  ∀ s ∈ v.store, s.WF

theorem roundtrip_CatalogResponse (v : CatalogResponse) (h : v.WF) :
    CatalogResponse.fromJson (CatalogResponse.toJson v) = Except.ok v := by
  simp only [CatalogResponse.WF] at h
  simp only [CatalogResponse.fromJson, CatalogResponse.toJson, reqField,
    Json.lookupField]
  simp [roundtrip_Market,
    asList_map_roundtrip Store.fromJson Store.toJson v.store
      (fun x hx => roundtrip_Store x (h x hx))]
  rfl

/-- `Technology`. -/
structure Technology where
  key : String
deriving DecidableEq

/-- `Technology: Deserialize`. -/
def Technology.fromJson (j : Json) : Except String Technology := do
  let key ← reqField j "key" Json.asString
  Except.ok { key := key }

/-- `Technology: Serialize`. -/
def Technology.toJson (v : Technology) : Json :=
  Json.obj [("key", Json.str v.key)]

theorem roundtrip_Technology (v : Technology) :
    Technology.fromJson (Technology.toJson v) = Except.ok v := rfl

/-- `DigitalService`. -/
structure DigitalService where
  key : String
  technologies : List Technology

/-- `DigitalService: Deserialize`. -/
def DigitalService.fromJson (j : Json) : Except String DigitalService := do
  let key ← reqField j "key" Json.asString
  let technologies ← reqField j "technologies" (Json.asList Technology.fromJson)
  Except.ok { key := key, technologies := technologies }

/-- `DigitalService: Serialize`. -/
def DigitalService.toJson (v : DigitalService) : Json :=
  Json.obj
    [("key", Json.str v.key),
     ("technologies", Json.arr (v.technologies.map Technology.toJson))]

theorem roundtrip_DigitalService (v : DigitalService) :
    DigitalService.fromJson (DigitalService.toJson v) = Except.ok v := by
  simp only [DigitalService.fromJson, DigitalService.toJson, reqField, Json.lookupField]
  simp [Json.asString,
    asList_map_roundtrip Technology.fromJson Technology.toJson v.technologies
      (fun x _ => roundtrip_Technology x)]
  rfl

/-- `PointsOfDistribution`. -/
structure PointsOfDistribution where
  digital_services : List DigitalService
  location_id : Int
  pod : Int

/-- `PointsOfDistribution: Deserialize`. -/
def PointsOfDistribution.fromJson (j : Json) : Except String PointsOfDistribution := do
  let digital_services ← reqField j "digitalServices" (Json.asList DigitalService.fromJson)
  let location_id ← reqField j "locationID" Json.asI64
  let pod ← reqField j "pod" Json.asI64
  Except.ok { digital_services := digital_services, location_id := location_id,
              pod := pod }

/-- `PointsOfDistribution: Serialize`. -/
def PointsOfDistribution.toJson (v : PointsOfDistribution) : Json :=
  Json.obj
    [("digitalServices", Json.arr (v.digital_services.map DigitalService.toJson)),
     ("locationID", Json.num v.location_id), ("pod", Json.num v.pod)]

/-- Representability in the Rust field types. -/
def PointsOfDistribution.WF (v : PointsOfDistribution) : Prop :=
  i64Bounded v.location_id = true ∧ i64Bounded v.pod = true

theorem roundtrip_PointsOfDistribution (v : PointsOfDistribution) (h : v.WF) :
    PointsOfDistribution.fromJson (PointsOfDistribution.toJson v) = Except.ok v := by
  obtain ⟨h1, h2⟩ := h
  simp only [PointsOfDistribution.fromJson, PointsOfDistribution.toJson, reqField,
    Json.lookupField]
  simp [Json.asI64, h1, h2,
    asList_map_roundtrip DigitalService.fromJson DigitalService.toJson
      v.digital_services (fun x _ => roundtrip_DigitalService x)]
  rfl

/-- `TableService` — table-service configuration (`f64` minimum purchase
amount). -/
structure TableService where
  enable_postable_service : Bool
  enable_table_service_eatin : String
  enable_table_service_takeout : String
  minimum_purchase_amount : F64
  table_service_enable_map : Bool
  table_service_locator_enabled : Bool
  table_service_locator_max_number_value : Int
  table_service_locator_min_number_value : Int
  digital_table_service_mode : String
  table_service_table_number_min_number_value : Int
  table_service_table_number_max_number_value : Int

/-- `TableService: Deserialize` (`enable_postable_service` is renamed to
`enablePOSTableService` on the wire). -/
def TableService.fromJson (j : Json) : Except String TableService := do
  let enable_postable_service ← reqField j "enablePOSTableService" Json.asBool
  let enable_table_service_eatin ← reqField j "enableTableServiceEatin" Json.asString
  let enable_table_service_takeout ← reqField j "enableTableServiceTakeout" Json.asString
  let minimum_purchase_amount ← reqField j "minimumPurchaseAmount" Json.asF64
  let table_service_enable_map ← reqField j "tableServiceEnableMap" Json.asBool
  let table_service_locator_enabled ← reqField j "tableServiceLocatorEnabled" Json.asBool
  let table_service_locator_max_number_value ←
    reqField j "tableServiceLocatorMaxNumberValue" Json.asI64
  let table_service_locator_min_number_value ←
    reqField j "tableServiceLocatorMinNumberValue" Json.asI64
  let digital_table_service_mode ← reqField j "digitalTableServiceMode" Json.asString
  let table_service_table_number_min_number_value ←
    reqField j "tableServiceTableNumberMinNumberValue" Json.asI64
  let table_service_table_number_max_number_value ←
    reqField j "tableServiceTableNumberMaxNumberValue" Json.asI64
  Except.ok { enable_postable_service := enable_postable_service,
              enable_table_service_eatin := enable_table_service_eatin,
              enable_table_service_takeout := enable_table_service_takeout,
              minimum_purchase_amount := minimum_purchase_amount,
              table_service_enable_map := table_service_enable_map,
              table_service_locator_enabled := table_service_locator_enabled,
              table_service_locator_max_number_value :=
                table_service_locator_max_number_value,
              table_service_locator_min_number_value :=
                table_service_locator_min_number_value,
              digital_table_service_mode := digital_table_service_mode,
              table_service_table_number_min_number_value :=
                table_service_table_number_min_number_value,
              table_service_table_number_max_number_value :=
                table_service_table_number_max_number_value }

/-- `TableService: Serialize`. -/
def TableService.toJson (v : TableService) : Json :=
  Json.obj
    [("enablePOSTableService", Json.bool v.enable_postable_service),
     ("enableTableServiceEatin", Json.str v.enable_table_service_eatin),
     ("enableTableServiceTakeout", Json.str v.enable_table_service_takeout),
     ("minimumPurchaseAmount", F64.toJson v.minimum_purchase_amount),
     ("tableServiceEnableMap", Json.bool v.table_service_enable_map),
     ("tableServiceLocatorEnabled", Json.bool v.table_service_locator_enabled),
     ("tableServiceLocatorMaxNumberValue",
       Json.num v.table_service_locator_max_number_value),
     ("tableServiceLocatorMinNumberValue",
       Json.num v.table_service_locator_min_number_value),
     ("digitalTableServiceMode", Json.str v.digital_table_service_mode),
     ("tableServiceTableNumberMinNumberValue",
       Json.num v.table_service_table_number_min_number_value),
     ("tableServiceTableNumberMaxNumberValue",
       Json.num v.table_service_table_number_max_number_value)]

/-- Representability in the Rust field types. -/
def TableService.WF (v : TableService) : Prop :=
  v.minimum_purchase_amount.WF ∧
  i64Bounded v.table_service_locator_max_number_value = true ∧
  i64Bounded v.table_service_locator_min_number_value = true ∧
  i64Bounded v.table_service_table_number_min_number_value = true ∧
  i64Bounded v.table_service_table_number_max_number_value = true

theorem roundtrip_TableService (v : TableService) (h : v.WF) :
    TableService.fromJson (TableService.toJson v) = Except.ok v := by
  obtain ⟨h0, h1, h2, h3, h4⟩ := h
  simp only [TableService.fromJson, TableService.toJson, reqField, Json.lookupField]
  simp [Json.asI64, Json.asBool, Json.asString, h1, h2, h3, h4,
    asF64_roundtrip _ h0.2]
  rfl

/-- `Catalog` — the in-restaurant catalog configuration. -/
structure Catalog where
  points_of_distribution : List PointsOfDistribution
  table_service : TableService
  outage_product_codes : List String

/-- `Catalog: Deserialize`. -/
def Catalog.fromJson (j : Json) : Except String Catalog := do
  let points_of_distribution ←
    reqField j "pointsOfDistribution" (Json.asList PointsOfDistribution.fromJson)
  let table_service ← reqField j "tableService" TableService.fromJson
  let outage_product_codes ← reqField j "outageProductCodes" (Json.asList Json.asString)
  Except.ok { points_of_distribution := points_of_distribution,
              table_service := table_service,
              outage_product_codes := outage_product_codes }

/-- `Catalog: Serialize`. -/
def Catalog.toJson (v : Catalog) : Json :=
  Json.obj
    [("pointsOfDistribution",
       Json.arr (v.points_of_distribution.map PointsOfDistribution.toJson)),
     ("tableService", TableService.toJson v.table_service),
     ("outageProductCodes", Json.arr (v.outage_product_codes.map Json.str))]

/-- Representability in the Rust field types. -/
def Catalog.WF (v : Catalog) : Prop :=
  (∀ p ∈ v.points_of_distribution, p.WF) ∧ v.table_service.WF

theorem roundtrip_Catalog (v : Catalog) (h : v.WF) :
    Catalog.fromJson (Catalog.toJson v) = Except.ok v := by
  obtain ⟨hp, ht⟩ := h
  simp only [Catalog.fromJson, Catalog.toJson, reqField, Json.lookupField]
  simp [asList_str_roundtrip, roundtrip_TableService _ ht,
    asList_map_roundtrip PointsOfDistribution.fromJson PointsOfDistribution.toJson
      v.points_of_distribution (fun x hx => roundtrip_PointsOfDistribution x (hp x hx))]
  rfl

/-- `AutoBagSaleInformation`. -/
structure AutoBagSaleInformation where
  bag_choice_product_code : Int
  bag_dummy_product_code : Int
  bag_product_code : Int
  enabled : Bool
  no_bag_product_code : Int
deriving DecidableEq

/-- `AutoBagSaleInformation: Deserialize`. -/
def AutoBagSaleInformation.fromJson (j : Json) : Except String AutoBagSaleInformation := do
  let bag_choice_product_code ← reqField j "bagChoiceProductCode" Json.asI64
  let bag_dummy_product_code ← reqField j "bagDummyProductCode" Json.asI64
  let bag_product_code ← reqField j "bagProductCode" Json.asI64
  let enabled ← reqField j "enabled" Json.asBool
  let no_bag_product_code ← reqField j "noBagProductCode" Json.asI64
  Except.ok { bag_choice_product_code := bag_choice_product_code,
              bag_dummy_product_code := bag_dummy_product_code,
              bag_product_code := bag_product_code, enabled := enabled,
              no_bag_product_code := no_bag_product_code }

/-- `AutoBagSaleInformation: Serialize`. -/
def AutoBagSaleInformation.toJson (v : AutoBagSaleInformation) : Json :=
  Json.obj
    [("bagChoiceProductCode", Json.num v.bag_choice_product_code),
     ("bagDummyProductCode", Json.num v.bag_dummy_product_code),
     ("bagProductCode", Json.num v.bag_product_code),
     ("enabled", Json.bool v.enabled),
     ("noBagProductCode", Json.num v.no_bag_product_code)]

/-- Representability in the Rust field types. -/
def AutoBagSaleInformation.WF (v : AutoBagSaleInformation) : Prop :=
  i64Bounded v.bag_choice_product_code = true ∧
  i64Bounded v.bag_dummy_product_code = true ∧
  i64Bounded v.bag_product_code = true ∧ i64Bounded v.no_bag_product_code = true

theorem roundtrip_AutoBagSaleInformation (v : AutoBagSaleInformation) (h : v.WF) :
    AutoBagSaleInformation.fromJson (AutoBagSaleInformation.toJson v) = Except.ok v := by
  obtain ⟨h1, h2, h3, h4⟩ := h
  simp only [AutoBagSaleInformation.fromJson, AutoBagSaleInformation.toJson, reqField,
    Json.lookupField]
  simp [Json.asI64, Json.asBool, h1, h2, h3, h4]
  rfl

/-- `StoreMenuTypeCalendar`. -/
structure StoreMenuTypeCalendar where
  end_time : String
  menu_type_id : Int
  start_time : String
  week_day : Int
deriving DecidableEq

/-- `StoreMenuTypeCalendar: Deserialize`. -/
def StoreMenuTypeCalendar.fromJson (j : Json) : Except String StoreMenuTypeCalendar := do
  let end_time ← reqField j "endTime" Json.asString
  let menu_type_id ← reqField j "menuTypeID" Json.asI64
  let start_time ← reqField j "startTime" Json.asString
  let week_day ← reqField j "weekDay" Json.asI64
  Except.ok { end_time := end_time, menu_type_id := menu_type_id,
              start_time := start_time, week_day := week_day }

/-- `StoreMenuTypeCalendar: Serialize`. -/
def StoreMenuTypeCalendar.toJson (v : StoreMenuTypeCalendar) : Json :=
  Json.obj
    [("endTime", Json.str v.end_time), ("menuTypeID", Json.num v.menu_type_id),
     ("startTime", Json.str v.start_time), ("weekDay", Json.num v.week_day)]

/-- Representability in the Rust field types. -/
def StoreMenuTypeCalendar.WF (v : StoreMenuTypeCalendar) : Prop :=
  i64Bounded v.menu_type_id = true ∧ i64Bounded v.week_day = true

theorem roundtrip_StoreMenuTypeCalendar (v : StoreMenuTypeCalendar) (h : v.WF) :
    StoreMenuTypeCalendar.fromJson (StoreMenuTypeCalendar.toJson v) = Except.ok v := by
  obtain ⟨h1, h2⟩ := h
  simp only [StoreMenuTypeCalendar.fromJson, StoreMenuTypeCalendar.toJson, reqField,
    Json.lookupField]
  simp [Json.asI64, Json.asString, h1, h2]
  rfl

/-- `Order` — per-restaurant ordering configuration (`f64` minimum order
value). -/
structure Order where
  auto_bag_sale_information : AutoBagSaleInformation
  expected_delivery_time : String
  store_menu_type_calendar : List StoreMenuTypeCalendar
  minimum_order_value : F64
  large_order_allowed : Bool
  linked_payment_information : Bool
  loyalty_enabled : Bool
  maximum_time_minutes : Option Int
  minimum_time_minutes : Option Int
  daypart_transition_offset : Int
  ready_on_arrival_information : Bool
  order_ahead_lane : Bool

/-- `Order: Deserialize`. -/
def Order.fromJson (j : Json) : Except String Order := do
  let auto_bag_sale_information ←
    reqField j "autoBagSaleInformation" AutoBagSaleInformation.fromJson
  let expected_delivery_time ← reqField j "expectedDeliveryTime" Json.asString
  let store_menu_type_calendar ←
    reqField j "storeMenuTypeCalendar" (Json.asList StoreMenuTypeCalendar.fromJson)
  let minimum_order_value ← reqField j "minimumOrderValue" Json.asF64
  let large_order_allowed ← reqField j "largeOrderAllowed" Json.asBool
  let linked_payment_information ← reqField j "linkedPaymentInformation" Json.asBool
  let loyalty_enabled ← reqField j "loyaltyEnabled" Json.asBool
  let maximum_time_minutes ← optField j "maximumTimeMinutes" Json.asI64
  let minimum_time_minutes ← optField j "minimumTimeMinutes" Json.asI64
  let daypart_transition_offset ← reqField j "daypartTransitionOffset" Json.asI64
  let ready_on_arrival_information ← reqField j "readyOnArrivalInformation" Json.asBool
  let order_ahead_lane ← reqField j "orderAheadLane" Json.asBool
  Except.ok { auto_bag_sale_information := auto_bag_sale_information,
              expected_delivery_time := expected_delivery_time,
              store_menu_type_calendar := store_menu_type_calendar,
              minimum_order_value := minimum_order_value,
              large_order_allowed := large_order_allowed,
              linked_payment_information := linked_payment_information,
              loyalty_enabled := loyalty_enabled,
              maximum_time_minutes := maximum_time_minutes,
              minimum_time_minutes := minimum_time_minutes,
              daypart_transition_offset := daypart_transition_offset,
              ready_on_arrival_information := ready_on_arrival_information,
              order_ahead_lane := order_ahead_lane }

/-- `Order: Serialize`. -/
def Order.toJson (v : Order) : Json :=
  Json.obj
    [("autoBagSaleInformation", AutoBagSaleInformation.toJson v.auto_bag_sale_information),
     ("expectedDeliveryTime", Json.str v.expected_delivery_time),
     ("storeMenuTypeCalendar",
       Json.arr (v.store_menu_type_calendar.map StoreMenuTypeCalendar.toJson)),
     ("minimumOrderValue", F64.toJson v.minimum_order_value),
     ("largeOrderAllowed", Json.bool v.large_order_allowed),
     ("linkedPaymentInformation", Json.bool v.linked_payment_information),
     ("loyaltyEnabled", Json.bool v.loyalty_enabled),
     ("maximumTimeMinutes", optJson Json.num v.maximum_time_minutes),
     ("minimumTimeMinutes", optJson Json.num v.minimum_time_minutes),
     ("daypartTransitionOffset", Json.num v.daypart_transition_offset),
     ("readyOnArrivalInformation", Json.bool v.ready_on_arrival_information),
     ("orderAheadLane", Json.bool v.order_ahead_lane)]

/-- Representability in the Rust field types. -/
def Order.WF (v : Order) : Prop :=
  v.auto_bag_sale_information.WF ∧ (∀ c ∈ v.store_menu_type_calendar, c.WF) ∧
  v.minimum_order_value.WF ∧ i64OptBounded v.maximum_time_minutes = true ∧
  i64OptBounded v.minimum_time_minutes = true ∧
  i64Bounded v.daypart_transition_offset = true

theorem roundtrip_Order (v : Order) (h : v.WF) :
    Order.fromJson (Order.toJson v) = Except.ok v := by
  obtain ⟨ha, hc, hm, h1, h2, h3⟩ := h
  simp only [Order.fromJson, Order.toJson, reqField, optField, Json.lookupField]
  simp [Json.asI64, Json.asBool, Json.asString, h3, parseOptVal_num _ h1,
    parseOptVal_num _ h2, asF64_roundtrip _ hm.2,
    roundtrip_AutoBagSaleInformation _ ha,
    asList_map_roundtrip StoreMenuTypeCalendar.fromJson StoreMenuTypeCalendar.toJson
      v.store_menu_type_calendar
      (fun x hx => roundtrip_StoreMenuTypeCalendar x (hc x hx))]
  rfl

/-- `Area`. -/
structure Area where
  area_type : String
  capacity : String
deriving DecidableEq

/-- `Area: Deserialize`. -/
def Area.fromJson (j : Json) : Except String Area := do
  let area_type ← reqField j "areaType" Json.asString
  let capacity ← reqField j "capacity" Json.asString
  Except.ok { area_type := area_type, capacity := capacity }

/-- `Area: Serialize`. -/
def Area.toJson (v : Area) : Json :=
  Json.obj [("areaType", Json.str v.area_type), ("capacity", Json.str v.capacity)]

theorem roundtrip_Area (v : Area) :
    Area.fromJson (Area.toJson v) = Except.ok v := rfl

/-- `Contact`. -/
structure Contact where
  title : String
  name : String
deriving DecidableEq

/-- `Contact: Deserialize`. -/
def Contact.fromJson (j : Json) : Except String Contact := do
  let title ← reqField j "title" Json.asString
  let name ← reqField j "name" Json.asString
  Except.ok { title := title, name := name }

/-- `Contact: Serialize`. -/
def Contact.toJson (v : Contact) : Json :=
  Json.obj [("title", Json.str v.title), ("name", Json.str v.name)]

theorem roundtrip_Contact (v : Contact) :
    Contact.fromJson (Contact.toJson v) = Except.ok v := rfl

/-- `RestaurantNutrition`. -/
structure RestaurantNutrition where
  energy_unit : String
  customer_self_pour : Bool
  recalculate_energy_on_grill : Bool
deriving DecidableEq

/-- `RestaurantNutrition: Deserialize`. -/
def RestaurantNutrition.fromJson (j : Json) : Except String RestaurantNutrition := do
  let energy_unit ← reqField j "energyUnit" Json.asString
  let customer_self_pour ← reqField j "customerSelfPour" Json.asBool
  let recalculate_energy_on_grill ← reqField j "recalculateEnergyOnGrill" Json.asBool
  Except.ok { energy_unit := energy_unit, customer_self_pour := customer_self_pour,
              recalculate_energy_on_grill := recalculate_energy_on_grill }

/-- `RestaurantNutrition: Serialize`. -/
def RestaurantNutrition.toJson (v : RestaurantNutrition) : Json :=
  Json.obj
    [("energyUnit", Json.str v.energy_unit),
     ("customerSelfPour", Json.bool v.customer_self_pour),
     ("recalculateEnergyOnGrill", Json.bool v.recalculate_energy_on_grill)]

theorem roundtrip_RestaurantNutrition (v : RestaurantNutrition) :
    RestaurantNutrition.fromJson (RestaurantNutrition.toJson v) = Except.ok v := rfl

/-- `OfferBucket`. -/
structure OfferBucket where
  offer_bucket : String
  limit : Int
deriving DecidableEq

/-- `OfferBucket: Deserialize`. -/
def OfferBucket.fromJson (j : Json) : Except String OfferBucket := do
  let offer_bucket ← reqField j "offerBucket" Json.asString
  let limit ← reqField j "limit" Json.asI64
  Except.ok { offer_bucket := offer_bucket, limit := limit }

/-- `OfferBucket: Serialize`. -/
def OfferBucket.toJson (v : OfferBucket) : Json :=
  Json.obj [("offerBucket", Json.str v.offer_bucket), ("limit", Json.num v.limit)]

/-- Representability in the Rust field types. -/
def OfferBucket.WF (v : OfferBucket) : Prop :=
  i64Bounded v.limit = true

theorem roundtrip_OfferBucket (v : OfferBucket) (h : v.WF) :
    OfferBucket.fromJson (OfferBucket.toJson v) = Except.ok v := by
  simp only [OfferBucket.WF] at h
  simp only [OfferBucket.fromJson, OfferBucket.toJson, reqField, Json.lookupField]
  simp [Json.asI64, Json.asString, h]
  rfl

/-- `OfferConfiguration`. -/
structure OfferConfiguration where
  enable_multiple_offers : Bool
  offer_buckets : List OfferBucket

/-- `OfferConfiguration: Deserialize`. -/
def OfferConfiguration.fromJson (j : Json) : Except String OfferConfiguration := do
  let enable_multiple_offers ← reqField j "enableMultipleOffers" Json.asBool
  let offer_buckets ← reqField j "offerBuckets" (Json.asList OfferBucket.fromJson)
  Except.ok { enable_multiple_offers := enable_multiple_offers,
              offer_buckets := offer_buckets }

/-- `OfferConfiguration: Serialize`. -/
def OfferConfiguration.toJson (v : OfferConfiguration) : Json :=
  Json.obj
    [("enableMultipleOffers", Json.bool v.enable_multiple_offers),
     ("offerBuckets", Json.arr (v.offer_buckets.map OfferBucket.toJson))]

/-- Representability in the Rust field types. -/
def OfferConfiguration.WF (v : OfferConfiguration) : Prop :=
  ∀ b ∈ v.offer_buckets, b.WF

theorem roundtrip_OfferConfiguration (v : OfferConfiguration) (h : v.WF) :
    OfferConfiguration.fromJson (OfferConfiguration.toJson v) = Except.ok v := by
  simp only [OfferConfiguration.WF] at h
  simp only [OfferConfiguration.fromJson, OfferConfiguration.toJson, reqField,
    Json.lookupField]
  simp [Json.asBool,
    asList_map_roundtrip OfferBucket.fromJson OfferBucket.toJson v.offer_buckets
      (fun x hx => roundtrip_OfferBucket x (h x hx))]
  rfl

/-- `StoreType` — declared with no fields in the source. -/
structure StoreType where
deriving DecidableEq

/-- `StoreType: Deserialize`: any JSON object is accepted (unknown keys
are ignored; there are no fields). -/
def StoreType.fromJson (j : Json) : Except String StoreType :=
  match j with
  | Json.obj _ => Except.ok {}
  | _ => Except.error "invalid type: expected a struct"

/-- `StoreType: Serialize`: the empty object. -/
def StoreType.toJson (_ : StoreType) : Json :=
  Json.obj []

theorem roundtrip_StoreType (v : StoreType) :
    StoreType.fromJson (StoreType.toJson v) = Except.ok v := rfl

/-- `ServicePayment`. -/
structure ServicePayment where
  service_id : Int
  sale_type_eat_in : Bool
  sale_type_other : Bool
  sale_type_take_out : Bool
  payment_methods : List Int
deriving DecidableEq

/-- `ServicePayment: Deserialize`. -/
def ServicePayment.fromJson (j : Json) : Except String ServicePayment := do
  let service_id ← reqField j "serviceID" Json.asI64
  let sale_type_eat_in ← reqField j "saleTypeEatIn" Json.asBool
  let sale_type_other ← reqField j "saleTypeOther" Json.asBool
  let sale_type_take_out ← reqField j "saleTypeTakeOut" Json.asBool
  let payment_methods ← reqField j "paymentMethods" (Json.asList Json.asI64)
  Except.ok { service_id := service_id, sale_type_eat_in := sale_type_eat_in,
              sale_type_other := sale_type_other,
              sale_type_take_out := sale_type_take_out,
              payment_methods := payment_methods }

/-- `ServicePayment: Serialize`. -/
def ServicePayment.toJson (v : ServicePayment) : Json :=
  Json.obj
    [("serviceID", Json.num v.service_id),
     ("saleTypeEatIn", Json.bool v.sale_type_eat_in),
     ("saleTypeOther", Json.bool v.sale_type_other),
     ("saleTypeTakeOut", Json.bool v.sale_type_take_out),
     ("paymentMethods", Json.arr (v.payment_methods.map Json.num))]

/-- Representability in the Rust field types. -/
def ServicePayment.WF (v : ServicePayment) : Prop :=
  i64Bounded v.service_id = true ∧ ∀ n ∈ v.payment_methods, i64Bounded n = true

theorem roundtrip_ServicePayment (v : ServicePayment) (h : v.WF) :
    ServicePayment.fromJson (ServicePayment.toJson v) = Except.ok v := by
  obtain ⟨h1, h2⟩ := h
  simp only [ServicePayment.fromJson, ServicePayment.toJson, reqField, Json.lookupField]
  simp [Json.asI64, Json.asBool, h1, asList_num_roundtrip v.payment_methods h2]
  rfl

/-- `GeneralStatus`. -/
structure GeneralStatus where
  start_date : String
  status : Int
deriving DecidableEq

/-- `GeneralStatus: Deserialize`. -/
def GeneralStatus.fromJson (j : Json) : Except String GeneralStatus := do
  let start_date ← reqField j "startDate" Json.asString
  let status ← reqField j "status" Json.asI64
  Except.ok { start_date := start_date, status := status }

/-- `GeneralStatus: Serialize`. -/
def GeneralStatus.toJson (v : GeneralStatus) : Json :=
  Json.obj [("startDate", Json.str v.start_date), ("status", Json.num v.status)]

/-- Representability in the Rust field types. -/
def GeneralStatus.WF (v : GeneralStatus) : Prop :=
  i64Bounded v.status = true

theorem roundtrip_GeneralStatus (v : GeneralStatus) (h : v.WF) :
    GeneralStatus.fromJson (GeneralStatus.toJson v) = Except.ok v := by
  simp only [GeneralStatus.WF] at h
  simp only [GeneralStatus.fromJson, GeneralStatus.toJson, reqField, Json.lookupField]
  simp [Json.asI64, Json.asString, h]
  rfl

/-- `AvailableMenuProducts` — keys are the literal strings `1`, `2`,
`3`. -/
structure AvailableMenuProducts where
  n1 : List Int
  n2 : List Int
  n3 : List Int
deriving DecidableEq

/-- `AvailableMenuProducts: Deserialize`. -/
def AvailableMenuProducts.fromJson (j : Json) : Except String AvailableMenuProducts := do
  let n1 ← reqField j "1" (Json.asList Json.asI64)
  let n2 ← reqField j "2" (Json.asList Json.asI64)
  let n3 ← reqField j "3" (Json.asList Json.asI64)
  Except.ok { n1 := n1, n2 := n2, n3 := n3 }

/-- `AvailableMenuProducts: Serialize`. -/
def AvailableMenuProducts.toJson (v : AvailableMenuProducts) : Json :=
  Json.obj
    [("1", Json.arr (v.n1.map Json.num)), ("2", Json.arr (v.n2.map Json.num)),
     ("3", Json.arr (v.n3.map Json.num))]

/-- Representability in the Rust field types. -/
def AvailableMenuProducts.WF (v : AvailableMenuProducts) : Prop :=
  (∀ n ∈ v.n1, i64Bounded n = true) ∧ (∀ n ∈ v.n2, i64Bounded n = true) ∧
  (∀ n ∈ v.n3, i64Bounded n = true)

theorem roundtrip_AvailableMenuProducts (v : AvailableMenuProducts) (h : v.WF) :
    AvailableMenuProducts.fromJson (AvailableMenuProducts.toJson v) = Except.ok v := by
  obtain ⟨h1, h2, h3⟩ := h
  simp only [AvailableMenuProducts.fromJson, AvailableMenuProducts.toJson, reqField,
    Json.lookupField]
  simp [asList_num_roundtrip v.n1 h1, asList_num_roundtrip v.n2 h2,
    asList_num_roundtrip v.n3 h3]
  rfl

/-- `FullRestaurantInformation` — the full per-restaurant payload. -/
structure FullRestaurantInformation where
  address : Address
  catalog : Catalog
  facilities : List String
  national_store_number : Int
  name : String
  status : Int
  restaurant_status : String
  location : Location
  order : Order
  phone_number : Option String
  time_zone : String
  url : Option String
  week_opening_hours : List WeekOpeningHour
  accept_offer : Option Bool
  areas : Option (List Area)
  contacts : Option (List Contact)
  country_code : Option String
  distance : Option Int
  gbl_number : Option String
  id : Option String
  is_valid : Option Bool
  market_code : Option String
  now_in_store_local_time_date : Option String
  nutrition : Option RestaurantNutrition
  offer_configuration : Option OfferConfiguration
  special_dayservice : Option (List Json)
  status_id : Option Int
  tin_threshold_amout : Option Int
  store_type : Option StoreType
  tod_cutoff_time : Option String
  day_part : Option Int
  np_version : Option String
  store_cutoff_time : Option String
  legal_name : Option String
  service_payments : Option (List ServicePayment)
  general_status : Option GeneralStatus
  available_menu_products : Option AvailableMenuProducts

/-- `FullRestaurantInformation: Deserialize` (`status_id` is renamed to
`statusID` on the wire). -/
def FullRestaurantInformation.fromJson (j : Json) :
    Except String FullRestaurantInformation := do
  let address ← reqField j "address" Address.fromJson
  let catalog ← reqField j "catalog" Catalog.fromJson
  let facilities ← reqField j "facilities" (Json.asList Json.asString)
  let national_store_number ← reqField j "nationalStoreNumber" Json.asI64
  let name ← reqField j "name" Json.asString
  let status ← reqField j "status" Json.asI64
  let restaurant_status ← reqField j "restaurantStatus" Json.asString
  let location ← reqField j "location" Location.fromJson
  let order ← reqField j "order" Order.fromJson
  let phone_number ← optField j "phoneNumber" Json.asString
  let time_zone ← reqField j "timeZone" Json.asString
  let url ← optField j "url" Json.asString
  let week_opening_hours ← reqField j "weekOpeningHours" (Json.asList WeekOpeningHour.fromJson)
  let accept_offer ← optField j "acceptOffer" Json.asBool
  let areas ← optField j "areas" (Json.asList Area.fromJson)
  let contacts ← optField j "contacts" (Json.asList Contact.fromJson)
  let country_code ← optField j "countryCode" Json.asString
  let distance ← optField j "distance" Json.asI64
  let gbl_number ← optField j "gblNumber" Json.asString
  let id ← optField j "id" Json.asString
  let is_valid ← optField j "isValid" Json.asBool
  let market_code ← optField j "marketCode" Json.asString
  let now_in_store_local_time_date ← optField j "nowInStoreLocalTimeDate" Json.asString
  let nutrition ← optField j "nutrition" RestaurantNutrition.fromJson
  let offer_configuration ← optField j "offerConfiguration" OfferConfiguration.fromJson
  let special_dayservice ← optField j "specialDayservice" (Json.asList Json.asValue)
  let status_id ← optField j "statusID" Json.asI64
  let tin_threshold_amout ← optField j "tinThresholdAmout" Json.asI64
  let store_type ← optField j "storeType" StoreType.fromJson
  let tod_cutoff_time ← optField j "todCutoffTime" Json.asString
  let day_part ← optField j "dayPart" Json.asI64
  let np_version ← optField j "npVersion" Json.asString
  let store_cutoff_time ← optField j "storeCutoffTime" Json.asString
  let legal_name ← optField j "legalName" Json.asString
  let service_payments ← optField j "servicePayments" (Json.asList ServicePayment.fromJson)
  let general_status ← optField j "generalStatus" GeneralStatus.fromJson
  let available_menu_products ←
    optField j "availableMenuProducts" AvailableMenuProducts.fromJson
  Except.ok { address := address, catalog := catalog, facilities := facilities,
              national_store_number := national_store_number, name := name,
              status := status, restaurant_status := restaurant_status,
              location := location, order := order, phone_number := phone_number,
              time_zone := time_zone, url := url,
              week_opening_hours := week_opening_hours, accept_offer := accept_offer,
              areas := areas, contacts := contacts, country_code := country_code,
              distance := distance, gbl_number := gbl_number, id := id,
              is_valid := is_valid, market_code := market_code,
              now_in_store_local_time_date := now_in_store_local_time_date,
              nutrition := nutrition, offer_configuration := offer_configuration,
              special_dayservice := special_dayservice, status_id := status_id,
              tin_threshold_amout := tin_threshold_amout, store_type := store_type,
              tod_cutoff_time := tod_cutoff_time, day_part := day_part,
              np_version := np_version, store_cutoff_time := store_cutoff_time,
              legal_name := legal_name, service_payments := service_payments,
              general_status := general_status,
              available_menu_products := available_menu_products }

/-- `FullRestaurantInformation: Serialize`. -/
def FullRestaurantInformation.toJson (v : FullRestaurantInformation) : Json :=
  Json.obj
    [("address", Address.toJson v.address),
     ("catalog", Catalog.toJson v.catalog),
     ("facilities", Json.arr (v.facilities.map Json.str)),
     ("nationalStoreNumber", Json.num v.national_store_number),
     ("name", Json.str v.name),
     ("status", Json.num v.status),
     ("restaurantStatus", Json.str v.restaurant_status),
     ("location", Location.toJson v.location),
     ("order", Order.toJson v.order),
     ("phoneNumber", optJson Json.str v.phone_number),
     ("timeZone", Json.str v.time_zone),
     ("url", optJson Json.str v.url),
     ("weekOpeningHours", Json.arr (v.week_opening_hours.map WeekOpeningHour.toJson)),
     ("acceptOffer", optJson Json.bool v.accept_offer),
     ("areas", optJson (fun l => Json.arr (l.map Area.toJson)) v.areas),
     ("contacts", optJson (fun l => Json.arr (l.map Contact.toJson)) v.contacts),
     ("countryCode", optJson Json.str v.country_code),
     ("distance", optJson Json.num v.distance),
     ("gblNumber", optJson Json.str v.gbl_number),
     ("id", optJson Json.str v.id),
     ("isValid", optJson Json.bool v.is_valid),
     ("marketCode", optJson Json.str v.market_code),
     ("nowInStoreLocalTimeDate", optJson Json.str v.now_in_store_local_time_date),
     ("nutrition", optJson RestaurantNutrition.toJson v.nutrition),
     ("offerConfiguration", optJson OfferConfiguration.toJson v.offer_configuration),
     ("specialDayservice", optJson Json.arr v.special_dayservice),
     ("statusID", optJson Json.num v.status_id),
     ("tinThresholdAmout", optJson Json.num v.tin_threshold_amout),
     ("storeType", optJson StoreType.toJson v.store_type),
     ("todCutoffTime", optJson Json.str v.tod_cutoff_time),
     ("dayPart", optJson Json.num v.day_part),
     ("npVersion", optJson Json.str v.np_version),
     ("storeCutoffTime", optJson Json.str v.store_cutoff_time),
     ("legalName", optJson Json.str v.legal_name),
     ("servicePayments",
       optJson (fun l => Json.arr (l.map ServicePayment.toJson)) v.service_payments),
     ("generalStatus", optJson GeneralStatus.toJson v.general_status),
     ("availableMenuProducts",
       optJson AvailableMenuProducts.toJson v.available_menu_products)]

/-- Representability in the Rust field types. -/
def FullRestaurantInformation.WF (v : FullRestaurantInformation) : Prop :=
  v.catalog.WF ∧ i64Bounded v.national_store_number = true ∧
  i64Bounded v.status = true ∧ v.location.WF ∧ v.order.WF ∧
  (∀ w ∈ v.week_opening_hours, w.WF) ∧ i64OptBounded v.distance = true ∧
  i64OptBounded v.status_id = true ∧ i64OptBounded v.tin_threshold_amout = true ∧
  i64OptBounded v.day_part = true ∧ (∀ c ∈ v.offer_configuration, c.WF) ∧
  (∀ l ∈ v.service_payments, ∀ p ∈ l, p.WF) ∧ (∀ a ∈ v.general_status, a.WF) ∧
  (∀ a ∈ v.available_menu_products, a.WF)

theorem roundtrip_FullRestaurantInformation (v : FullRestaurantInformation) (h : v.WF) :
    FullRestaurantInformation.fromJson (FullRestaurantInformation.toJson v) =
      Except.ok v := by
  obtain ⟨hcat, h1, h2, hloc, hord, hw, h3, h4, h5, h6, hoc, hsp, hgs, hamp⟩ := h
  simp only [FullRestaurantInformation.fromJson, FullRestaurantInformation.toJson,
    reqField, optField, Json.lookupField]
  simp [Json.asI64, Json.asBool, Json.asString, h1, h2, parseOptVal_str,
    parseOptVal_bool, parseOptVal_num _ h3, parseOptVal_num _ h4,
    parseOptVal_num _ h5, parseOptVal_num _ h6, asList_str_roundtrip,
    roundtrip_Address, roundtrip_Catalog _ hcat, roundtrip_Location _ hloc,
    roundtrip_Order _ hord,
    asList_map_roundtrip WeekOpeningHour.fromJson WeekOpeningHour.toJson
      v.week_opening_hours (fun x hx => roundtrip_WeekOpeningHour x (hw x hx)),
    parseOptVal_comp (Json.asList Area.fromJson)
      (fun l => Json.arr (l.map Area.toJson)) v.areas (fun a => by simp)
      (fun a _ => asList_map_roundtrip Area.fromJson Area.toJson a
        (fun x _ => roundtrip_Area x)),
    parseOptVal_comp (Json.asList Contact.fromJson)
      (fun l => Json.arr (l.map Contact.toJson)) v.contacts (fun a => by simp)
      (fun a _ => asList_map_roundtrip Contact.fromJson Contact.toJson a
        (fun x _ => roundtrip_Contact x)),
    parseOptVal_comp RestaurantNutrition.fromJson RestaurantNutrition.toJson
      v.nutrition (fun a => by simp [RestaurantNutrition.toJson])
      (fun a _ => roundtrip_RestaurantNutrition a),
    parseOptVal_comp OfferConfiguration.fromJson OfferConfiguration.toJson
      v.offer_configuration (fun a => by simp [OfferConfiguration.toJson])
      (fun a ha => roundtrip_OfferConfiguration a (hoc a ha)),
    parseOptVal_comp (Json.asList Json.asValue) Json.arr v.special_dayservice
      (fun a => by simp) (fun a _ => asList_values_roundtrip a),
    parseOptVal_comp StoreType.fromJson StoreType.toJson v.store_type
      (fun a => by simp [StoreType.toJson]) (fun a _ => roundtrip_StoreType a),
    parseOptVal_comp (Json.asList ServicePayment.fromJson)
      (fun l => Json.arr (l.map ServicePayment.toJson)) v.service_payments
      (fun a => by simp)
      (fun a ha => asList_map_roundtrip ServicePayment.fromJson ServicePayment.toJson a
        (fun x hx => roundtrip_ServicePayment x (hsp a ha x hx))),
    parseOptVal_comp GeneralStatus.fromJson GeneralStatus.toJson v.general_status
      (fun a => by simp [GeneralStatus.toJson])
      (fun a ha => roundtrip_GeneralStatus a (hgs a ha)),
    parseOptVal_comp AvailableMenuProducts.fromJson AvailableMenuProducts.toJson
      v.available_menu_products (fun a => by simp [AvailableMenuProducts.toJson])
      (fun a ha => roundtrip_AvailableMenuProducts a (hamp a ha))]
  rfl

/-- `InnerRestaurantResponse`. -/
structure InnerRestaurantResponse where
  restaurant : FullRestaurantInformation

/-- `InnerRestaurantResponse: Deserialize`. -/
def InnerRestaurantResponse.fromJson (j : Json) : Except String InnerRestaurantResponse := do
  let restaurant ← reqField j "restaurant" FullRestaurantInformation.fromJson
  Except.ok { restaurant := restaurant }

/-- `InnerRestaurantResponse: Serialize`. -/
def InnerRestaurantResponse.toJson (v : InnerRestaurantResponse) : Json :=
  Json.obj [("restaurant", FullRestaurantInformation.toJson v.restaurant)]

/-- Representability in the Rust field types. -/
def InnerRestaurantResponse.WF (v : InnerRestaurantResponse) : Prop :=
  v.restaurant.WF

theorem roundtrip_InnerRestaurantResponse (v : InnerRestaurantResponse) (h : v.WF) :
    InnerRestaurantResponse.fromJson (InnerRestaurantResponse.toJson v) = Except.ok v := by
  simp only [InnerRestaurantResponse.fromJson, InnerRestaurantResponse.toJson, reqField,
    Json.lookupField]
  simp [roundtrip_FullRestaurantInformation _ h]
  rfl

/-- `RestaurantResponse` — the single-restaurant envelope; `response` is
nullable. -/
structure RestaurantResponse where
  status : Status
  response : Option InnerRestaurantResponse

/-- `RestaurantResponse: Deserialize`. -/
def RestaurantResponse.fromJson (j : Json) : Except String RestaurantResponse := do
  let status ← reqField j "status" Status.fromJson
  let response ← optField j "response" InnerRestaurantResponse.fromJson
  Except.ok { status := status, response := response }

/-- `RestaurantResponse: Serialize`. -/
def RestaurantResponse.toJson (v : RestaurantResponse) : Json :=
  Json.obj
    [("status", Status.toJson v.status),
     ("response", optJson InnerRestaurantResponse.toJson v.response)]

/-- Representability in the Rust field types. -/
def RestaurantResponse.WF (v : RestaurantResponse) : Prop :=
  ∀ r ∈ v.response, r.WF

theorem roundtrip_RestaurantResponse (v : RestaurantResponse) (h : v.WF) :
    RestaurantResponse.fromJson (RestaurantResponse.toJson v) = Except.ok v := by
  simp only [RestaurantResponse.WF] at h
  simp only [RestaurantResponse.fromJson, RestaurantResponse.toJson, reqField, optField,
    Json.lookupField]
  simp [roundtrip_Status,
    parseOptVal_comp InnerRestaurantResponse.fromJson InnerRestaurantResponse.toJson
      v.response (fun a => by simp [InnerRestaurantResponse.toJson])
      (fun a ha => roundtrip_InnerRestaurantResponse a (h a ha))]
  rfl

/-! ## Test fixtures (concrete mock transports and parsers) -/

/-- A mock transport that always fails at the connection level. -/
def failTransport : Transport :=
  fun _ => Except.error (TransportError.reqwest "connection refused")

/-- A trivial body parser (used where a claim does not depend on the
response type). -/
def unitParse : Json → Except String Unit :=
  fun _ => Except.ok ()

/-- A constant entropy stream. -/
def zeroEntropy : Nat → Nat :=
  fun _ => 0

/-! ## Claims -/

/-- **C1** (amended): for every token-gated operation (`customer_login`
gated on the login token; `get_offers`, `restaurant_location`,
`offer_details`, `get_offers_dealstack`, `add_to_offers_dealstack`,
`customer_login_refresh`, `get_customer_points`, and — once its offer id
and offset parse as integers — `remove_from_offers_dealstack`, gated on
the auth token), invoking it while the relevant token slot is `None`
returns the precondition error (`no login token set` / `no auth token
set`) and no request is ever sent to the transport; for
`remove_from_offers_dealstack` with a non-integer offer id (or offset),
the call instead returns the input parse error, still sending no
request. -/
theorem claim_C1_amended :
    (∀ (T : Type) (base cid : String) (tr : Transport) (au : Option String)
        (parse : Json → Except String T) (e rng : Nat → Nat) (u p sd : String),
        (ApiClient.mk base tr au none cid).customer_login parse e rng u p sd =
          failBefore (BoxedError.anyhowContext "no login token set")) ∧
    (∀ (T : Type) (base cid : String) (tr : Transport) (lo : Option String)
        (parse : Json → Except String T) (e : Nat → Nat) (d la lg oo tz : String),
        (ApiClient.mk base tr none lo cid).get_offers parse e d la lg oo tz =
          failBefore (BoxedError.anyhowContext "no auth token set")) ∧
    (∀ (T : Type) (base cid : String) (tr : Transport) (lo : Option String)
        (parse : Json → Except String T) (e : Nat → Nat) (d la lg fi : String),
        (ApiClient.mk base tr none lo cid).restaurant_location parse e d la lg fi =
          failBefore (BoxedError.anyhowContext "no auth token set")) ∧
    (∀ (T : Type) (base cid : String) (tr : Transport) (lo : Option String)
        (parse : Json → Except String T) (e : Nat → Nat) (oid : String),
        (ApiClient.mk base tr none lo cid).offer_details parse e oid =
          failBefore (BoxedError.anyhowContext "no auth token set")) ∧
    (∀ (T : Type) (base cid : String) (tr : Transport) (lo : Option String)
        (parse : Json → Except String T) (e : Nat → Nat) (off sid : String),
        (ApiClient.mk base tr none lo cid).get_offers_dealstack parse e off sid =
          failBefore (BoxedError.anyhowContext "no auth token set")) ∧
    (∀ (T : Type) (base cid : String) (tr : Transport) (lo : Option String)
        (parse : Json → Except String T) (e : Nat → Nat) (oid off sid : String),
        (ApiClient.mk base tr none lo cid).add_to_offers_dealstack parse e oid off sid =
          failBefore (BoxedError.anyhowContext "no auth token set")) ∧
    (∀ (T : Type) (base cid : String) (tr : Transport) (lo : Option String)
        (parse : Json → Except String T) (e : Nat → Nat) (rt : String),
        (ApiClient.mk base tr none lo cid).customer_login_refresh parse e rt =
          failBefore (BoxedError.anyhowContext "no auth token set")) ∧
    (∀ (T : Type) (base cid : String) (tr : Transport) (lo : Option String)
        (parse : Json → Except String T) (e : Nat → Nat),
        (ApiClient.mk base tr none lo cid).get_customer_points parse e =
          failBefore (BoxedError.anyhowContext "no auth token set")) ∧
    (∀ (T : Type) (base cid : String) (tr : Transport) (lo : Option String)
        (parse : Json → Except String T) (e : Nat → Nat) (oid opid off sid : String)
        (a b : Int), parseI64? oid = some a → parseI64? off = some b →
        (ApiClient.mk base tr none lo cid).remove_from_offers_dealstack parse e
            oid opid off sid =
          failBefore (BoxedError.anyhowContext "no auth token set")) ∧
    (∀ (T : Type) (base cid : String) (tr : Transport) (au lo : Option String)
        (parse : Json → Except String T) (e : Nat → Nat) (oid opid off sid : String),
        parseI64? oid = none →
        (ApiClient.mk base tr au lo cid).remove_from_offers_dealstack parse e
            oid opid off sid =
          failBefore (BoxedError.parseIntError oid)) ∧
    (∀ (T : Type) (base cid : String) (tr : Transport) (au lo : Option String)
        (parse : Json → Except String T) (e : Nat → Nat) (oid opid off sid : String)
        (a : Int), parseI64? oid = some a → parseI64? off = none →
        (ApiClient.mk base tr au lo cid).remove_from_offers_dealstack parse e
            oid opid off sid =
          failBefore (BoxedError.parseIntError off)) := by
  refine ⟨fun _ _ _ _ _ _ _ _ _ _ _ => rfl, fun _ _ _ _ _ _ _ _ _ _ _ _ => rfl,
    fun _ _ _ _ _ _ _ _ _ _ _ => rfl, fun _ _ _ _ _ _ _ _ => rfl,
    fun _ _ _ _ _ _ _ _ _ => rfl, fun _ _ _ _ _ _ _ _ _ _ => rfl,
    fun _ _ _ _ _ _ _ _ => rfl, fun _ _ _ _ _ _ _ => rfl, ?_, ?_, ?_⟩
  · intro T base cid tr lo parse e oid opid off sid a b ha hb
    simp [ApiClient.remove_from_offers_dealstack, ha, hb]
  · intro T base cid tr au lo parse e oid opid off sid ha
    simp [ApiClient.remove_from_offers_dealstack, ha]
  · intro T base cid tr au lo parse e oid opid off sid a ha hb
    simp [ApiClient.remove_from_offers_dealstack, ha, hb]

/-- **C1** witness: a concrete instantiation — auth token unset, numeric
offer id and offset — yields the precondition error with nothing sent. -/
theorem claim_C1_witness :
    ApiClient.remove_from_offers_dealstack
        (ApiClient.mk "https://ap-prod.api.mcd.com" failTransport none none "CID")
        unitParse zeroEntropy "166870" "1139347703" "480" "951488" =
      failBefore (BoxedError.anyhowContext "no auth token set") :=
  claim_C1_amended.2.2.2.2.2.2.2.2.1 Unit "https://ap-prod.api.mcd.com" "CID"
    failTransport none unitParse zeroEntropy "166870" "1139347703" "480" "951488"
    166870 480 (by decide) (by decide)

/-- **C1** counterexample to the claim as stated: with the auth token
slot unset and a non-numeric offer id, `remove_from_offers_dealstack`
returns the input parse error, not the `no auth token set` precondition
error (though still nothing is sent). -/
theorem claim_C1_counterexample :
    (ApiClient.remove_from_offers_dealstack
        (ApiClient.mk "https://ap-prod.api.mcd.com" failTransport none none "CID")
        unitParse zeroEntropy "not-a-number" "1139347703" "480" "951488").result =
      Except.error (BoxedError.parseIntError "not-a-number") ∧
    (ApiClient.remove_from_offers_dealstack
        (ApiClient.mk "https://ap-prod.api.mcd.com" failTransport none none "CID")
        unitParse zeroEntropy "not-a-number" "1139347703" "480" "951488").result ≠
      Except.error (BoxedError.anyhowContext "no auth token set") := by
  constructor
  · rfl
  · intro h
    rw [show (ApiClient.remove_from_offers_dealstack
        (ApiClient.mk "https://ap-prod.api.mcd.com" failTransport none none "CID")
        unitParse zeroEntropy "not-a-number" "1139347703" "480" "951488").result =
      Except.error (BoxedError.parseIntError "not-a-number") from rfl] at h
    exact BoxedError.noConfusion (Except.error.inj h)

/-- **C2**: for every endpoint method, a transport/middleware failure and
a response-body deserialization failure surface as distinct error
conditions: the failed send boxes the `reqwest_middleware::Error`
(`reqwestMiddleware`, i.e. `ClientError::RequestOrMiddlewareError`),
while a body that fails to decode (malformed JSON or schema mismatch,
i.e. any `Body.decode` failure) boxes the `reqwest::Error`
(`reqwestDecode`, i.e. `ClientError::RequestError`); the two are never
equal. -/
theorem claim_C2_distinct_errors :
    (∀ (T : Type) (base cid sec : String) (parse : Json → Except String T)
        (e : Nat → Nat) (te : TransportError),
        ((ApiClient.mk base (fun _ => Except.error te) none none cid).security_auth_token
            parse e sec).result = Except.error (BoxedError.reqwestMiddleware te)) ∧
    (∀ (T : Type) (base cid sec : String) (parse : Json → Except String T)
        (e : Nat → Nat) (st : Nat) (hs : List (String × String)) (bodyB : Body) (m : String),
        Body.decode parse bodyB = Except.error m →
        ((ApiClient.mk base (fun _ => Except.ok (HttpResponse.mk st hs bodyB)) none none
            cid).security_auth_token parse e sec).result =
          Except.error (BoxedError.reqwestDecode m)) ∧
    (∀ (T : Type) (base cid tok u p sd : String) (parse : Json → Except String T)
        (e rng : Nat → Nat) (te : TransportError),
        ((ApiClient.mk base (fun _ => Except.error te) none (some tok) cid).customer_login
            parse e rng u p sd).result = Except.error (BoxedError.reqwestMiddleware te)) ∧
    (∀ (T : Type) (base cid tok u p sd : String) (parse : Json → Except String T)
        (e rng : Nat → Nat) (st : Nat) (hs : List (String × String)) (bodyB : Body)
        (m : String),
        Body.decode parse bodyB = Except.error m →
        ((ApiClient.mk base (fun _ => Except.ok (HttpResponse.mk st hs bodyB)) none
            (some tok) cid).customer_login parse e rng u p sd).result =
          Except.error (BoxedError.reqwestDecode m)) ∧
    (∀ (T : Type) (base cid tok d la lg oo tz : String) (parse : Json → Except String T)
        (e : Nat → Nat) (te : TransportError),
        ((ApiClient.mk base (fun _ => Except.error te) (some tok) none cid).get_offers
            parse e d la lg oo tz).result = Except.error (BoxedError.reqwestMiddleware te)) ∧
    (∀ (T : Type) (base cid tok d la lg oo tz : String) (parse : Json → Except String T)
        (e : Nat → Nat) (st : Nat) (hs : List (String × String)) (bodyB : Body) (m : String),
        Body.decode parse bodyB = Except.error m →
        ((ApiClient.mk base (fun _ => Except.ok (HttpResponse.mk st hs bodyB)) (some tok)
            none cid).get_offers parse e d la lg oo tz).result =
          Except.error (BoxedError.reqwestDecode m)) ∧
    (∀ (T : Type) (base cid tok d la lg fi : String) (parse : Json → Except String T)
        (e : Nat → Nat) (te : TransportError),
        ((ApiClient.mk base (fun _ => Except.error te) (some tok) none
            cid).restaurant_location parse e d la lg fi).result =
          Except.error (BoxedError.reqwestMiddleware te)) ∧
    (∀ (T : Type) (base cid tok d la lg fi : String) (parse : Json → Except String T)
        (e : Nat → Nat) (st : Nat) (hs : List (String × String)) (bodyB : Body) (m : String),
        Body.decode parse bodyB = Except.error m →
        ((ApiClient.mk base (fun _ => Except.ok (HttpResponse.mk st hs bodyB)) (some tok)
            none cid).restaurant_location parse e d la lg fi).result =
          Except.error (BoxedError.reqwestDecode m)) ∧
    (∀ (T : Type) (base cid tok oid : String) (parse : Json → Except String T)
        (e : Nat → Nat) (te : TransportError),
        ((ApiClient.mk base (fun _ => Except.error te) (some tok) none cid).offer_details
            parse e oid).result = Except.error (BoxedError.reqwestMiddleware te)) ∧
    (∀ (T : Type) (base cid tok oid : String) (parse : Json → Except String T)
        (e : Nat → Nat) (st : Nat) (hs : List (String × String)) (bodyB : Body) (m : String),
        Body.decode parse bodyB = Except.error m →
        ((ApiClient.mk base (fun _ => Except.ok (HttpResponse.mk st hs bodyB)) (some tok)
            none cid).offer_details parse e oid).result =
          Except.error (BoxedError.reqwestDecode m)) ∧
    (∀ (T : Type) (base cid tok off sid : String) (parse : Json → Except String T)
        (e : Nat → Nat) (te : TransportError),
        ((ApiClient.mk base (fun _ => Except.error te) (some tok) none
            cid).get_offers_dealstack parse e off sid).result =
          Except.error (BoxedError.reqwestMiddleware te)) ∧
    (∀ (T : Type) (base cid tok off sid : String) (parse : Json → Except String T)
        (e : Nat → Nat) (st : Nat) (hs : List (String × String)) (bodyB : Body) (m : String),
        Body.decode parse bodyB = Except.error m →
        ((ApiClient.mk base (fun _ => Except.ok (HttpResponse.mk st hs bodyB)) (some tok)
            none cid).get_offers_dealstack parse e off sid).result =
          Except.error (BoxedError.reqwestDecode m)) ∧
    (∀ (T : Type) (base cid tok oid off sid : String) (parse : Json → Except String T)
        (e : Nat → Nat) (te : TransportError),
        ((ApiClient.mk base (fun _ => Except.error te) (some tok) none
            cid).add_to_offers_dealstack parse e oid off sid).result =
          Except.error (BoxedError.reqwestMiddleware te)) ∧
    (∀ (T : Type) (base cid tok oid off sid : String) (parse : Json → Except String T)
        (e : Nat → Nat) (st : Nat) (hs : List (String × String)) (bodyB : Body) (m : String),
        Body.decode parse bodyB = Except.error m →
        ((ApiClient.mk base (fun _ => Except.ok (HttpResponse.mk st hs bodyB)) (some tok)
            none cid).add_to_offers_dealstack parse e oid off sid).result =
          Except.error (BoxedError.reqwestDecode m)) ∧
    (∀ (T : Type) (base cid tok oid opid off sid : String) (parse : Json → Except String T)
        (e : Nat → Nat) (a b : Int) (te : TransportError),
        parseI64? oid = some a → parseI64? off = some b →
        ((ApiClient.mk base (fun _ => Except.error te) (some tok) none
            cid).remove_from_offers_dealstack parse e oid opid off sid).result =
          Except.error (BoxedError.reqwestMiddleware te)) ∧
    (∀ (T : Type) (base cid tok oid opid off sid : String) (parse : Json → Except String T)
        (e : Nat → Nat) (a b : Int) (st : Nat) (hs : List (String × String)) (bodyB : Body)
        (m : String),
        parseI64? oid = some a → parseI64? off = some b →
        Body.decode parse bodyB = Except.error m →
        ((ApiClient.mk base (fun _ => Except.ok (HttpResponse.mk st hs bodyB)) (some tok)
            none cid).remove_from_offers_dealstack parse e oid opid off sid).result =
          Except.error (BoxedError.reqwestDecode m)) ∧
    (∀ (T : Type) (base cid tok rt : String) (parse : Json → Except String T)
        (e : Nat → Nat) (te : TransportError),
        ((ApiClient.mk base (fun _ => Except.error te) (some tok) none
            cid).customer_login_refresh parse e rt).result =
          Except.error (BoxedError.reqwestMiddleware te)) ∧
    (∀ (T : Type) (base cid tok rt : String) (parse : Json → Except String T)
        (e : Nat → Nat) (st : Nat) (hs : List (String × String)) (bodyB : Body) (m : String),
        Body.decode parse bodyB = Except.error m →
        ((ApiClient.mk base (fun _ => Except.ok (HttpResponse.mk st hs bodyB)) (some tok)
            none cid).customer_login_refresh parse e rt).result =
          Except.error (BoxedError.reqwestDecode m)) ∧
    (∀ (T : Type) (base cid tok : String) (parse : Json → Except String T)
        (e : Nat → Nat) (te : TransportError),
        ((ApiClient.mk base (fun _ => Except.error te) (some tok) none
            cid).get_customer_points parse e).result =
          Except.error (BoxedError.reqwestMiddleware te)) ∧
    (∀ (T : Type) (base cid tok : String) (parse : Json → Except String T)
        (e : Nat → Nat) (st : Nat) (hs : List (String × String)) (bodyB : Body) (m : String),
        Body.decode parse bodyB = Except.error m →
        ((ApiClient.mk base (fun _ => Except.ok (HttpResponse.mk st hs bodyB)) (some tok)
            none cid).get_customer_points parse e).result =
          Except.error (BoxedError.reqwestDecode m)) ∧
    (∀ (te : TransportError) (m : String),
        BoxedError.reqwestMiddleware te ≠ BoxedError.reqwestDecode m) := by
  refine ⟨?_, ?_, ?_, ?_, ?_, ?_, ?_, ?_, ?_, ?_, ?_, ?_, ?_, ?_, ?_, ?_, ?_, ?_, ?_, ?_, ?_⟩
  · intros; rfl
  · intro T base cid sec parse e st hs bodyB m h
    simp [ApiClient.security_auth_token, sendRequest, ClientResponse.from_response, h]
  · intros; rfl
  · intro T base cid tok u p sd parse e rng st hs bodyB m h
    simp [ApiClient.customer_login, sendRequest, ClientResponse.from_response, h]
  · intros; rfl
  · intro T base cid tok d la lg oo tz parse e st hs bodyB m h
    simp [ApiClient.get_offers, sendRequest, ClientResponse.from_response, h]
  · intros; rfl
  · intro T base cid tok d la lg fi parse e st hs bodyB m h
    simp [ApiClient.restaurant_location, sendRequest, ClientResponse.from_response, h]
  · intros; rfl
  · intro T base cid tok oid parse e st hs bodyB m h
    simp [ApiClient.offer_details, sendRequest, ClientResponse.from_response, h]
  · intros; rfl
  · intro T base cid tok off sid parse e st hs bodyB m h
    simp [ApiClient.get_offers_dealstack, sendRequest, ClientResponse.from_response, h]
  · intros; rfl
  · intro T base cid tok oid off sid parse e st hs bodyB m h
    simp [ApiClient.add_to_offers_dealstack, sendRequest, ClientResponse.from_response, h]
  · intro T base cid tok oid opid off sid parse e a b te ha hb
    simp [ApiClient.remove_from_offers_dealstack, ha, hb, sendRequest]
  · intro T base cid tok oid opid off sid parse e a b st hs bodyB m ha hb h
    simp [ApiClient.remove_from_offers_dealstack, ha, hb, sendRequest,
      ClientResponse.from_response, h]
  · intros; rfl
  · intro T base cid tok rt parse e st hs bodyB m h
    simp [ApiClient.customer_login_refresh, sendRequest, ClientResponse.from_response, h]
  · intros; rfl
  · intro T base cid tok parse e st hs bodyB m h
    simp [ApiClient.get_customer_points, sendRequest, ClientResponse.from_response, h]
  · intro te m h
    exact BoxedError.noConfusion h

/-- **C2** witness: a concrete non-JSON body on the offers endpoint
yields the decode-tagged error, which differs from the transport-tagged
error a failed connection yields. -/
theorem claim_C2_witness :
    ((ApiClient.mk "https://ap-prod.api.mcd.com"
        (fun _ => Except.ok (HttpResponse.mk 200 [] (Body.malformed "not json")))
        (some "TOK") none "CID").get_offers OfferResponse.fromJson zeroEntropy
        "10000" "-32.0117" "115.8845" "" "480").result =
      Except.error (BoxedError.reqwestDecode ("error decoding response body: not json")) ∧
    BoxedError.reqwestMiddleware (TransportError.reqwest "connection refused") ≠
      BoxedError.reqwestDecode ("error decoding response body: not json") :=
  ⟨claim_C2_distinct_errors.2.2.2.2.2.1 OfferResponse "https://ap-prod.api.mcd.com" "CID"
      "TOK" "10000" "-32.0117" "115.8845" "" "480" OfferResponse.fromJson zeroEntropy
      200 [] (Body.malformed "not json") ("error decoding response body: not json") rfl,
    claim_C2_distinct_errors.2.2.2.2.2.2.2.2.2.2.2.2.2.2.2.2.2.2.2.2
      (TransportError.reqwest "connection refused")
      ("error decoding response body: not json")⟩

/-- **C3**: for every endpoint method, a response whose body matches the
expected schema yields the success envelope carrying the response's
status code, headers and parsed body, whatever the status code is — a
non-2xx status is never converted into an error kind; vendor-failure
interpretation via the embedded status field is left to the caller. -/
theorem claim_C3_status_passthrough :
    (∀ (T : Type) (base cid sec : String) (parse : Json → Except String T)
        (e : Nat → Nat) (resp : HttpResponse) (b : T),
        Body.decode parse resp.body = Except.ok b →
        ((ApiClient.mk base (fun _ => Except.ok resp) none none cid).security_auth_token
            parse e sec).result =
          Except.ok (ClientResponse.mk resp.status resp.headers b)) ∧
    (∀ (T : Type) (base cid tok u p sd : String) (parse : Json → Except String T)
        (e rng : Nat → Nat) (resp : HttpResponse) (b : T),
        Body.decode parse resp.body = Except.ok b →
        ((ApiClient.mk base (fun _ => Except.ok resp) none (some tok) cid).customer_login
            parse e rng u p sd).result =
          Except.ok (ClientResponse.mk resp.status resp.headers b)) ∧
    (∀ (T : Type) (base cid tok d la lg oo tz : String) (parse : Json → Except String T)
        (e : Nat → Nat) (resp : HttpResponse) (b : T),
        Body.decode parse resp.body = Except.ok b →
        ((ApiClient.mk base (fun _ => Except.ok resp) (some tok) none cid).get_offers
            parse e d la lg oo tz).result =
          Except.ok (ClientResponse.mk resp.status resp.headers b)) ∧
    (∀ (T : Type) (base cid tok d la lg fi : String) (parse : Json → Except String T)
        (e : Nat → Nat) (resp : HttpResponse) (b : T),
        Body.decode parse resp.body = Except.ok b →
        ((ApiClient.mk base (fun _ => Except.ok resp) (some tok) none
            cid).restaurant_location parse e d la lg fi).result =
          Except.ok (ClientResponse.mk resp.status resp.headers b)) ∧
    (∀ (T : Type) (base cid tok oid : String) (parse : Json → Except String T)
        (e : Nat → Nat) (resp : HttpResponse) (b : T),
        Body.decode parse resp.body = Except.ok b →
        ((ApiClient.mk base (fun _ => Except.ok resp) (some tok) none cid).offer_details
            parse e oid).result =
          Except.ok (ClientResponse.mk resp.status resp.headers b)) ∧
    (∀ (T : Type) (base cid tok off sid : String) (parse : Json → Except String T)
        (e : Nat → Nat) (resp : HttpResponse) (b : T),
        Body.decode parse resp.body = Except.ok b →
        ((ApiClient.mk base (fun _ => Except.ok resp) (some tok) none
            cid).get_offers_dealstack parse e off sid).result =
          Except.ok (ClientResponse.mk resp.status resp.headers b)) ∧
    (∀ (T : Type) (base cid tok oid off sid : String) (parse : Json → Except String T)
        (e : Nat → Nat) (resp : HttpResponse) (b : T),
        Body.decode parse resp.body = Except.ok b →
        ((ApiClient.mk base (fun _ => Except.ok resp) (some tok) none
            cid).add_to_offers_dealstack parse e oid off sid).result =
          Except.ok (ClientResponse.mk resp.status resp.headers b)) ∧
    (∀ (T : Type) (base cid tok oid opid off sid : String)
        (parse : Json → Except String T) (e : Nat → Nat) (a b' : Int)
        (resp : HttpResponse) (b : T),
        parseI64? oid = some a → parseI64? off = some b' →
        Body.decode parse resp.body = Except.ok b →
        ((ApiClient.mk base (fun _ => Except.ok resp) (some tok) none
            cid).remove_from_offers_dealstack parse e oid opid off sid).result =
          Except.ok (ClientResponse.mk resp.status resp.headers b)) ∧
    (∀ (T : Type) (base cid tok rt : String) (parse : Json → Except String T)
        (e : Nat → Nat) (resp : HttpResponse) (b : T),
        Body.decode parse resp.body = Except.ok b →
        ((ApiClient.mk base (fun _ => Except.ok resp) (some tok) none
            cid).customer_login_refresh parse e rt).result =
          Except.ok (ClientResponse.mk resp.status resp.headers b)) ∧
    (∀ (T : Type) (base cid tok : String) (parse : Json → Except String T)
        (e : Nat → Nat) (resp : HttpResponse) (b : T),
        Body.decode parse resp.body = Except.ok b →
        ((ApiClient.mk base (fun _ => Except.ok resp) (some tok) none
            cid).get_customer_points parse e).result =
          Except.ok (ClientResponse.mk resp.status resp.headers b)) := by
  refine ⟨?_, ?_, ?_, ?_, ?_, ?_, ?_, ?_, ?_, ?_⟩
  · intro T base cid sec parse e resp b h
    simp [ApiClient.security_auth_token, sendRequest, ClientResponse.from_response, h]
  · intro T base cid tok u p sd parse e rng resp b h
    simp [ApiClient.customer_login, sendRequest, ClientResponse.from_response, h]
  · intro T base cid tok d la lg oo tz parse e resp b h
    simp [ApiClient.get_offers, sendRequest, ClientResponse.from_response, h]
  · intro T base cid tok d la lg fi parse e resp b h
    simp [ApiClient.restaurant_location, sendRequest, ClientResponse.from_response, h]
  · intro T base cid tok oid parse e resp b h
    simp [ApiClient.offer_details, sendRequest, ClientResponse.from_response, h]
  · intro T base cid tok off sid parse e resp b h
    simp [ApiClient.get_offers_dealstack, sendRequest, ClientResponse.from_response, h]
  · intro T base cid tok oid off sid parse e resp b h
    simp [ApiClient.add_to_offers_dealstack, sendRequest, ClientResponse.from_response, h]
  · intro T base cid tok oid opid off sid parse e a b' resp b ha hb h
    simp [ApiClient.remove_from_offers_dealstack, ha, hb, sendRequest,
      ClientResponse.from_response, h]
  · intro T base cid tok rt parse e resp b h
    simp [ApiClient.customer_login_refresh, sendRequest, ClientResponse.from_response, h]
  · intro T base cid tok parse e resp b h
    simp [ApiClient.get_customer_points, sendRequest, ClientResponse.from_response, h]

/-- **C3** witness: a 401 with a vendor-shaped error body on the offers
endpoint still parses, and the call returns `Ok` with status 401 and the
vendor status code left for the caller to inspect. -/
theorem claim_C3_witness :
    ((ApiClient.mk "https://ap-prod.api.mcd.com"
        (fun _ => Except.ok (HttpResponse.mk 401 [("content-type", "application/json")]
          (Body.wellFormed (Json.obj
            [("status", Json.obj
                [("code", Json.num 41471), ("message", Json.str "Active token invalid")]),
             ("response", Json.null)]))))
        (some "EXPIRED") none "CID").get_offers OfferResponse.fromJson zeroEntropy
        "10000" "-32.0117" "115.8845" "" "480").result =
      Except.ok (ClientResponse.mk 401 [("content-type", "application/json")]
        (OfferResponse.mk
          (Status.mk (Json.num 41471) none none (some "Active token invalid")) none)) :=
  claim_C3_status_passthrough.2.2.1 OfferResponse "https://ap-prod.api.mcd.com" "CID"
    "EXPIRED" "10000" "-32.0117" "115.8845" "" "480" OfferResponse.fromJson zeroEntropy
    (HttpResponse.mk 401 [("content-type", "application/json")]
      (Body.wellFormed (Json.obj
        [("status", Json.obj
            [("code", Json.num 41471), ("message", Json.str "Active token invalid")]),
         ("response", Json.null)])))
    (OfferResponse.mk
      (Status.mk (Json.num 41471) none none (some "Active token invalid")) none) rfl

/-- **C4**: when the transport returns
`{"status":{"code":0,"type":"OK","message":""},"response":null}` for the
offers endpoint, the call succeeds and the deserialized `OfferResponse`
has an absent (`none`) response payload — a null `response` is a valid
non-error state, not a deserialization error.  (Note the wire key
`"type"` is not the serde name `"typeField"` and is ignored as an
unknown field, so `type_field` also comes back `none`.) -/
theorem claim_C4_null_response_ok :
    ((ApiClient.mk "https://ap-prod.api.mcd.com"
        (fun _ => Except.ok (HttpResponse.mk 200 []
          (Body.wellFormed (Json.obj
            [("status", Json.obj
                [("code", Json.num 0), ("type", Json.str "OK"), ("message", Json.str "")]),
             ("response", Json.null)]))))
        (some "TOK") none "CID").get_offers OfferResponse.fromJson zeroEntropy
        "10000" "-32.0117" "115.8845" "" "480").result =
      Except.ok (ClientResponse.mk 200 []
        (OfferResponse.mk (Status.mk (Json.num 0) none none (some "")) none)) ∧
    (OfferResponse.mk (Status.mk (Json.num 0) none none (some "")) none).response = none :=
  ⟨rfl, rfl⟩

/-- **C5**: every `security_auth_token` call with secret `sec` builds
exactly one request, and that request carries HTTP basic auth with the
client id as username and `sec` as password, the duplicated
`mcd-clientsecret` header equal to `sec`, an effective content-type
re-set to `application/x-www-form-urlencoded; charset=UTF-8`, and the
fixed `grantType=client_credentials` query parameter. -/
theorem claim_C5_token_exchange_request :
    ∀ (T : Type) (base cid sec : String) (tr : Transport) (au lo : Option String)
      (parse : Json → Except String T) (e : Nat → Nat),
      ((ApiClient.mk base tr au lo cid).security_auth_token parse e sec).sent.length = 1 ∧
      ∀ r ∈ ((ApiClient.mk base tr au lo cid).security_auth_token parse e sec).sent,
        r.basicAuth = some (cid, some sec) ∧
        ("mcd-clientsecret", sec) ∈ r.headers ∧
        r.lastHeader? "content-type" =
          some "application/x-www-form-urlencoded; charset=UTF-8" ∧
        ("grantType", "client_credentials") ∈ r.queryParams := by
  intro T base cid sec tr au lo parse e
  refine ⟨rfl, ?_⟩
  intro r hr
  simp only [ApiClient.security_auth_token, sendRequest, List.mem_singleton] at hr
  subst hr
  refine ⟨rfl, ?_, ?_, ?_⟩
  · simp [ApiClient.get_default_request, RequestBuilder.header, RequestBuilder.query,
      RequestBuilder.basic_auth]
  · simp [ApiClient.get_default_request, RequestBuilder.header, RequestBuilder.query,
      RequestBuilder.basic_auth, RequestBuilder.lastHeader?]
  · simp [ApiClient.get_default_request, RequestBuilder.header, RequestBuilder.query,
      RequestBuilder.basic_auth]

/-- The concrete request `security_auth_token` builds for secret
`"SECRET"` under the zero entropy stream (used by the C5 witness). -/
def tokenExchangeRequest : RequestBuilder :=
  { method := Method.POST
    url := "https://ap-prod.api.mcd.com/v1/security/auth/token"
    headers :=
      [("accept-encoding", "gzip"), ("accept-charset", "UTF-8"),
       ("accept-language", "en-AU"), ("content-type", "application/json; charset=UTF-8"),
       ("mcd-clientid", "CID"), ("mcd-uuid", "00000000-0000-4000-8000-000000000000"),
       ("user-agent", "MCDSDK/20.0.14 (Android; 31; en-AU) GMA/6.2"),
       ("mcd-sourceapp", "GMA"), ("mcd-marketid", "AU"), ("mcd-clientsecret", "SECRET"),
       ("content-type", "application/x-www-form-urlencoded; charset=UTF-8")]
    queryParams := [("grantType", "client_credentials")]
    basicAuth := some ("CID", some "SECRET")
    bearerToken := none
    jsonBody := none }

/-- **C5** witness: the properties at a concrete secret. -/
theorem claim_C5_witness :
    ((ApiClient.mk "https://ap-prod.api.mcd.com" failTransport none none
        "CID").security_auth_token unitParse zeroEntropy "SECRET").sent =
      [tokenExchangeRequest] ∧
    tokenExchangeRequest.basicAuth = some ("CID", some "SECRET") ∧
    ("mcd-clientsecret", "SECRET") ∈ tokenExchangeRequest.headers ∧
    tokenExchangeRequest.lastHeader? "content-type" =
      some "application/x-www-form-urlencoded; charset=UTF-8" ∧
    ("grantType", "client_credentials") ∈ tokenExchangeRequest.queryParams := by
  have h := (claim_C5_token_exchange_request Unit "https://ap-prod.api.mcd.com" "CID"
    "SECRET" failTransport none none unitParse zeroEntropy).2 tokenExchangeRequest
    (List.Mem.head _)
  exact ⟨rfl, h.1, h.2.1, h.2.2.1, h.2.2.2⟩

/-- **C6**: in `remove_from_offers_dealstack` the offer id and offset are
parsed to integers for the JSON body; if either fails to parse the call
fails with the input parse error and nothing is sent (whatever the token
state), while the store id is never parsed — it is kept as a string in
the body (so a non-numeric store id causes no parse error). -/
theorem claim_C6_remove_dealstack_inputs :
    (∀ (T : Type) (base cid : String) (tr : Transport) (au lo : Option String)
        (parse : Json → Except String T) (e : Nat → Nat) (oid opid off sid : String),
        parseI64? oid = none →
        (ApiClient.mk base tr au lo cid).remove_from_offers_dealstack parse e
            oid opid off sid = failBefore (BoxedError.parseIntError oid)) ∧
    (∀ (T : Type) (base cid : String) (tr : Transport) (au lo : Option String)
        (parse : Json → Except String T) (e : Nat → Nat) (oid opid off sid : String)
        (a : Int), parseI64? oid = some a → parseI64? off = none →
        (ApiClient.mk base tr au lo cid).remove_from_offers_dealstack parse e
            oid opid off sid = failBefore (BoxedError.parseIntError off)) ∧
    (∀ (T : Type) (base cid tok : String) (tr : Transport) (lo : Option String)
        (parse : Json → Except String T) (e : Nat → Nat) (oid opid off sid : String)
        (a b : Int), parseI64? oid = some a → parseI64? off = some b →
        ∀ r ∈ ((ApiClient.mk base tr (some tok) lo cid).remove_from_offers_dealstack
            parse e oid opid off sid).sent,
          r.jsonBody = some (Json.obj
            [("storeId", Json.str sid), ("offerId", Json.num a),
             ("offset", Json.num b)])) := by
  refine ⟨?_, ?_, ?_⟩
  · intro T base cid tr au lo parse e oid opid off sid ha
    simp [ApiClient.remove_from_offers_dealstack, ha]
  · intro T base cid tr au lo parse e oid opid off sid a ha hb
    simp [ApiClient.remove_from_offers_dealstack, ha, hb]
  · intro T base cid tok tr lo parse e oid opid off sid a b ha hb r hr
    simp only [ApiClient.remove_from_offers_dealstack, ha, hb, sendRequest,
      List.mem_singleton] at hr
    subst hr
    rfl

/-- **C6** witness: a numeric offer id with a non-numeric offset fails
with the parse error on the offset, sending nothing. -/
theorem claim_C6_witness :
    (ApiClient.mk "https://ap-prod.api.mcd.com" failTransport (some "TOK") none
        "CID").remove_from_offers_dealstack unitParse zeroEntropy
        "166870" "1139347703" "4x80" "store-X" =
      failBefore (BoxedError.parseIntError "4x80") :=
  claim_C6_remove_dealstack_inputs.2.1 Unit "https://ap-prod.api.mcd.com" "CID"
    failTransport (some "TOK") none unitParse zeroEntropy "166870" "1139347703" "4x80"
    "store-X" 166870 (by decide) (by decide)

/-- **C10**: in `remove_from_offers_dealstack` the integer parsing of the
offer id and offset happens before the auth-token presence check: with
the auth token unset, a non-numeric offer id (or offset) yields the
input parse error, not the missing-token error — which is returned only
when both parses succeed — and the two errors are distinct. -/
theorem claim_C10_parse_before_token_check :
    (∀ (T : Type) (base cid : String) (tr : Transport) (lo : Option String)
        (parse : Json → Except String T) (e : Nat → Nat) (oid opid off sid : String),
        parseI64? oid = none →
        (ApiClient.mk base tr none lo cid).remove_from_offers_dealstack parse e
            oid opid off sid = failBefore (BoxedError.parseIntError oid)) ∧
    (∀ (T : Type) (base cid : String) (tr : Transport) (lo : Option String)
        (parse : Json → Except String T) (e : Nat → Nat) (oid opid off sid : String)
        (a : Int), parseI64? oid = some a → parseI64? off = none →
        (ApiClient.mk base tr none lo cid).remove_from_offers_dealstack parse e
            oid opid off sid = failBefore (BoxedError.parseIntError off)) ∧
    (∀ (T : Type) (base cid : String) (tr : Transport) (lo : Option String)
        (parse : Json → Except String T) (e : Nat → Nat) (oid opid off sid : String)
        (a b : Int), parseI64? oid = some a → parseI64? off = some b →
        (ApiClient.mk base tr none lo cid).remove_from_offers_dealstack parse e
            oid opid off sid = failBefore (BoxedError.anyhowContext "no auth token set")) ∧
    (∀ (s t : String), BoxedError.parseIntError s ≠ BoxedError.anyhowContext t) := by
  refine ⟨?_, ?_, ?_, ?_⟩
  · intro T base cid tr lo parse e oid opid off sid ha
    simp [ApiClient.remove_from_offers_dealstack, ha]
  · intro T base cid tr lo parse e oid opid off sid a ha hb
    simp [ApiClient.remove_from_offers_dealstack, ha, hb]
  · intro T base cid tr lo parse e oid opid off sid a b ha hb
    simp [ApiClient.remove_from_offers_dealstack, ha, hb]
  · intro s t h
    exact BoxedError.noConfusion h

/-- **C10** witness: with no auth token and a non-numeric offer id the
result is the parse error on the offer id. -/
theorem claim_C10_witness :
    (ApiClient.mk "https://ap-prod.api.mcd.com" failTransport none none
        "CID").remove_from_offers_dealstack unitParse zeroEntropy
        "one-six-six" "1139347703" "480" "951488" =
      failBefore (BoxedError.parseIntError "one-six-six") :=
  claim_C10_parse_before_token_check.1 Unit "https://ap-prod.api.mcd.com" "CID"
    failTransport none unitParse zeroEntropy "one-six-six" "1139347703" "480" "951488"
    (by decide)

/-- The fixed header fingerprint (in call order) carried by every
request: content negotiation, JSON content type, client id, per-request
UUID, impersonated user agent, source app and market tags. -/
def defaultHeaderList (cid uuid : String) : List (String × String) :=
  [("accept-encoding", "gzip"), ("accept-charset", "UTF-8"), ("accept-language", "en-AU"),
   ("content-type", "application/json; charset=UTF-8"), ("mcd-clientid", cid),
   ("mcd-uuid", uuid), ("user-agent", "MCDSDK/20.0.14 (Android; 31; en-AU) GMA/6.2"),
   ("mcd-sourceapp", "GMA"), ("mcd-marketid", "AU")]

/-- **C7**: every outbound request carries exactly the fixed header set —
gzip accept-encoding, UTF-8 accept-charset, en-AU accept-language, the
JSON content type (re-set to form-urlencoded only by the token-exchange
call), the client id in `mcd-clientid`, this request's generated UUID in
`mcd-uuid` (a fresh draw per request: different entropy can give a
different value), the fixed user-agent string, `mcd-sourceapp GMA` and
`mcd-marketid AU` — plus only the endpoint-specific extras
(`mcd-clientsecret` and the content-type override on token exchange, the
sensor-data header on login). -/
theorem claim_C7_header_fingerprint :
    (∀ (c : ApiClient) (e : Nat → Nat) (res : String) (m : Method),
        (c.get_default_request e res m).headers =
          defaultHeaderList c.client_id (ApiClient.get_uuid e)) ∧
    (∀ (T : Type) (base cid sec : String) (tr : Transport) (au lo : Option String)
        (parse : Json → Except String T) (e : Nat → Nat),
        ∀ r ∈ ((ApiClient.mk base tr au lo cid).security_auth_token parse e sec).sent,
          r.headers = defaultHeaderList cid (ApiClient.get_uuid e) ++
              [("mcd-clientsecret", sec),
               ("content-type", "application/x-www-form-urlencoded; charset=UTF-8")] ∧
          r.lastHeader? "content-type" =
            some "application/x-www-form-urlencoded; charset=UTF-8") ∧
    (∀ (T : Type) (base cid tok u p sd : String) (tr : Transport) (au : Option String)
        (parse : Json → Except String T) (e rng : Nat → Nat),
        ∀ r ∈ ((ApiClient.mk base tr au (some tok) cid).customer_login parse e rng
            u p sd).sent,
          r.headers = defaultHeaderList cid (ApiClient.get_uuid e) ++
              [("x-acf-sensor-data", sd)] ∧
          r.lastHeader? "content-type" = some "application/json; charset=UTF-8") ∧
    (∀ (T : Type) (base cid tok d la lg oo tz : String) (tr : Transport)
        (lo : Option String) (parse : Json → Except String T) (e : Nat → Nat),
        ∀ r ∈ ((ApiClient.mk base tr (some tok) lo cid).get_offers parse e
            d la lg oo tz).sent,
          r.headers = defaultHeaderList cid (ApiClient.get_uuid e) ∧
          r.lastHeader? "content-type" = some "application/json; charset=UTF-8") ∧
    (∀ (T : Type) (base cid tok d la lg fi : String) (tr : Transport)
        (lo : Option String) (parse : Json → Except String T) (e : Nat → Nat),
        ∀ r ∈ ((ApiClient.mk base tr (some tok) lo cid).restaurant_location parse e
            d la lg fi).sent,
          r.headers = defaultHeaderList cid (ApiClient.get_uuid e) ∧
          r.lastHeader? "content-type" = some "application/json; charset=UTF-8") ∧
    (∀ (T : Type) (base cid tok oid : String) (tr : Transport) (lo : Option String)
        (parse : Json → Except String T) (e : Nat → Nat),
        ∀ r ∈ ((ApiClient.mk base tr (some tok) lo cid).offer_details parse e oid).sent,
          r.headers = defaultHeaderList cid (ApiClient.get_uuid e) ∧
          r.lastHeader? "content-type" = some "application/json; charset=UTF-8") ∧
    (∀ (T : Type) (base cid tok off sid : String) (tr : Transport) (lo : Option String)
        (parse : Json → Except String T) (e : Nat → Nat),
        ∀ r ∈ ((ApiClient.mk base tr (some tok) lo cid).get_offers_dealstack parse e
            off sid).sent,
          r.headers = defaultHeaderList cid (ApiClient.get_uuid e) ∧
          r.lastHeader? "content-type" = some "application/json; charset=UTF-8") ∧
    (∀ (T : Type) (base cid tok oid off sid : String) (tr : Transport)
        (lo : Option String) (parse : Json → Except String T) (e : Nat → Nat),
        ∀ r ∈ ((ApiClient.mk base tr (some tok) lo cid).add_to_offers_dealstack parse e
            oid off sid).sent,
          r.headers = defaultHeaderList cid (ApiClient.get_uuid e) ∧
          r.lastHeader? "content-type" = some "application/json; charset=UTF-8") ∧
    (∀ (T : Type) (base cid tok oid opid off sid : String) (tr : Transport)
        (lo : Option String) (parse : Json → Except String T) (e : Nat → Nat) (a b : Int),
        parseI64? oid = some a → parseI64? off = some b →
        ∀ r ∈ ((ApiClient.mk base tr (some tok) lo cid).remove_from_offers_dealstack
            parse e oid opid off sid).sent,
          r.headers = defaultHeaderList cid (ApiClient.get_uuid e) ∧
          r.lastHeader? "content-type" = some "application/json; charset=UTF-8") ∧
    (∀ (T : Type) (base cid tok rt : String) (tr : Transport) (lo : Option String)
        (parse : Json → Except String T) (e : Nat → Nat),
        ∀ r ∈ ((ApiClient.mk base tr (some tok) lo cid).customer_login_refresh parse e
            rt).sent,
          r.headers = defaultHeaderList cid (ApiClient.get_uuid e) ∧
          r.lastHeader? "content-type" = some "application/json; charset=UTF-8") ∧
    (∀ (T : Type) (base cid tok : String) (tr : Transport) (lo : Option String)
        (parse : Json → Except String T) (e : Nat → Nat),
        ∀ r ∈ ((ApiClient.mk base tr (some tok) lo cid).get_customer_points parse e).sent,
          r.headers = defaultHeaderList cid (ApiClient.get_uuid e) ∧
          r.lastHeader? "content-type" = some "application/json; charset=UTF-8") ∧
    (∃ e1 e2 : Nat → Nat, ApiClient.get_uuid e1 ≠ ApiClient.get_uuid e2) := by
  refine ⟨fun _ _ _ _ => rfl, ?_, ?_, ?_, ?_, ?_, ?_, ?_, ?_, ?_, ?_,
    ⟨zeroEntropy, fun _ => 1, by decide⟩⟩
  · intro T base cid sec tr au lo parse e r hr
    simp only [ApiClient.security_auth_token, sendRequest, List.mem_singleton] at hr
    subst hr
    exact ⟨rfl, rfl⟩
  · intro T base cid tok u p sd tr au parse e rng r hr
    simp only [ApiClient.customer_login, sendRequest, List.mem_singleton] at hr
    subst hr
    exact ⟨rfl, rfl⟩
  · intro T base cid tok d la lg oo tz tr lo parse e r hr
    simp only [ApiClient.get_offers, sendRequest, List.mem_singleton] at hr
    subst hr
    exact ⟨rfl, rfl⟩
  · intro T base cid tok d la lg fi tr lo parse e r hr
    simp only [ApiClient.restaurant_location, sendRequest, List.mem_singleton] at hr
    subst hr
    exact ⟨rfl, rfl⟩
  · intro T base cid tok oid tr lo parse e r hr
    simp only [ApiClient.offer_details, sendRequest, List.mem_singleton] at hr
    subst hr
    exact ⟨rfl, rfl⟩
  · intro T base cid tok off sid tr lo parse e r hr
    simp only [ApiClient.get_offers_dealstack, sendRequest, List.mem_singleton] at hr
    subst hr
    exact ⟨rfl, rfl⟩
  · intro T base cid tok oid off sid tr lo parse e r hr
    simp only [ApiClient.add_to_offers_dealstack, sendRequest, List.mem_singleton] at hr
    subst hr
    exact ⟨rfl, rfl⟩
  · intro T base cid tok oid opid off sid tr lo parse e a b ha hb r hr
    simp only [ApiClient.remove_from_offers_dealstack, ha, hb, sendRequest,
      List.mem_singleton] at hr
    subst hr
    exact ⟨rfl, rfl⟩
  · intro T base cid tok rt tr lo parse e r hr
    simp only [ApiClient.customer_login_refresh, sendRequest, List.mem_singleton] at hr
    subst hr
    exact ⟨rfl, rfl⟩
  · intro T base cid tok tr lo parse e r hr
    simp only [ApiClient.get_customer_points, sendRequest, List.mem_singleton] at hr
    subst hr
    exact ⟨rfl, rfl⟩

/-- The concrete request `get_customer_points` builds under the zero
entropy stream (used by the C7 witness). -/
def customerPointsRequest : RequestBuilder :=
  { method := Method.GET
    url := "https://ap-prod.api.mcd.com/exp/v1/loyalty/customer/points"
    headers := defaultHeaderList "CID" "00000000-0000-4000-8000-000000000000"
    queryParams := []
    basicAuth := none
    bearerToken := some "TOK"
    jsonBody := none }

/-- **C7** witness: the customer-points call under a concrete client and
entropy builds exactly the fixed header set with the generated UUID and
the JSON content type. -/
theorem claim_C7_witness :
    ((ApiClient.mk "https://ap-prod.api.mcd.com" failTransport (some "TOK") none
        "CID").get_customer_points unitParse zeroEntropy).sent =
      [customerPointsRequest] ∧
    customerPointsRequest.headers =
      defaultHeaderList "CID" (ApiClient.get_uuid zeroEntropy) ∧
    customerPointsRequest.lastHeader? "content-type" =
      some "application/json; charset=UTF-8" := by
  have h := (claim_C7_header_fingerprint.2.2.2.2.2.2.2.2.2.2.1 Unit
    "https://ap-prod.api.mcd.com" "CID" "TOK" failTransport none unitParse zeroEntropy)
    customerPointsRequest (List.Mem.head _)
  exact ⟨rfl, h.1, h.2⟩

theorem charset_getD_mem (k : Nat) :
    GEN_ASCII_STR_CHARSET.getD k 'A' ∈ GEN_ASCII_STR_CHARSET := by
  rcases h : GEN_ASCII_STR_CHARSET[k]? with _ | c
  · rw [List.getD_eq_getElem?_getD, h]
    decide
  · rw [List.getD_eq_getElem?_getD, h]
    exact List.mem_iff_getElem?.mpr ⟨k, h⟩

theorem charset_getD_inj {a b : Nat} (ha : a < 62) (hb : b < 62)
    (h : GEN_ASCII_STR_CHARSET.getD a 'A' = GEN_ASCII_STR_CHARSET.getD b 'A') : a = b := by
  have hlen : GEN_ASCII_STR_CHARSET.length = 62 := rfl
  have hla : a < GEN_ASCII_STR_CHARSET.length := hlen ▸ ha
  have hlb : b < GEN_ASCII_STR_CHARSET.length := hlen ▸ hb
  rw [List.getD_eq_getElem?_getD, List.getD_eq_getElem?_getD,
      List.getElem?_eq_getElem hla, List.getElem?_eq_getElem hlb] at h
  simp only [Option.getD_some] at h
  exact (List.Nodup.getElem_inj_iff (by decide)).mp h

/-- **C9**: every `customer_login` call places a device id generated from
this call's own rng in the `deviceId` field of the JSON body; the
generated id is a 16-character string over the 62-character alphanumeric
alphabet; the sampling map is injective on the per-position draws (so
the output space has the full 62^16 distinct values), and different
entropy can produce different ids (two calls with identical inputs
sample independently). -/
theorem claim_C9_device_id :
    (∀ (T : Type) (base cid tok u p sd : String) (tr : Transport) (au : Option String)
        (parse : Json → Except String T) (e rng : Nat → Nat),
        ∀ r ∈ ((ApiClient.mk base tr au (some tok) cid).customer_login parse e rng
            u p sd).sent,
          r.jsonBody = some (Json.obj
            [("credentials", Json.obj
                [("loginUsername", Json.str u), ("password", Json.str p),
                 ("type", Json.str "email")]),
             ("deviceId", Json.str (Alphanumeric.sample_string rng 16))])) ∧
    (∀ rng : Nat → Nat, (Alphanumeric.sample_string rng 16).length = 16) ∧
    (∀ rng : Nat → Nat, ∀ ch ∈ (Alphanumeric.sample_string rng 16).data,
        ch ∈ GEN_ASCII_STR_CHARSET) ∧
    Function.Injective (fun g : Fin 16 → Fin 62 =>
      Alphanumeric.sample_string (fun i => if h : i < 16 then (g ⟨i, h⟩).val else 0) 16) ∧
    (∃ r1 r2 : Nat → Nat,
        Alphanumeric.sample_string r1 16 ≠ Alphanumeric.sample_string r2 16) := by
  refine ⟨?_, ?_, ?_, ?_, ⟨zeroEntropy, fun _ => 1, by decide⟩⟩
  · intro T base cid tok u p sd tr au parse e rng r hr
    simp only [ApiClient.customer_login, sendRequest, List.mem_singleton] at hr
    subst hr
    rfl
  · intro rng
    simp [Alphanumeric.sample_string, String.length]
  · intro rng ch hch
    simp only [Alphanumeric.sample_string, List.mem_ofFn] at hch
    obtain ⟨i, rfl⟩ := hch
    exact charset_getD_mem _
  · intro g g' hgg
    have hdata := congrArg String.data hgg
    simp only [Alphanumeric.sample_string] at hdata
    have hfun := List.ofFn_injective hdata
    funext i
    have hi := congrFun hfun i
    simp only [dif_pos i.isLt] at hi
    rw [Nat.mod_eq_of_lt (g ⟨i.val, i.isLt⟩).isLt,
        Nat.mod_eq_of_lt (g' ⟨i.val, i.isLt⟩).isLt] at hi
    exact Fin.ext (charset_getD_inj (g ⟨i.val, i.isLt⟩).isLt
      (g' ⟨i.val, i.isLt⟩).isLt hi)

/-- **C9** witness: a concrete sampled device id — 16 characters, all
alphanumeric. -/
theorem claim_C9_witness :
    (Alphanumeric.sample_string zeroEntropy 16).length = 16 ∧
    'A' ∈ GEN_ASCII_STR_CHARSET :=
  ⟨claim_C9_device_id.2.1 zeroEntropy,
    claim_C9_device_id.2.2.1 zeroEntropy 'A' (by decide)⟩

/-- Every vendor response type declared in `src/types/response.rs`:
the 68 `Serialize`-deriving declarations plus the five
`Deserialize`-only envelopes. -/
inductive RespTy where
  | accessTokenResponse : RespTy
  | offerResponse : RespTy
  | status : RespTy
  | offerList : RespTy
  | offer : RespTy
  | punchInfo : RespTy
  | recurringInfo : RespTy
  | conditions : RespTy
  | saleAmountCondition : RespTy
  | restaurantLocationResponse : RespTy
  | restaurantLocationList : RespTy
  | restaurant : RespTy
  | address : RespTy
  | mcDeliveries : RespTy
  | location : RespTy
  | weekOpeningHour : RespTy
  | service : RespTy
  | offerDetailsResponse : RespTy
  | offerDetails : RespTy
  | productSet : RespTy
  | action : RespTy
  | frequencyOfferInfo : RespTy
  | offerDealStackResponse : RespTy
  | offerDealStack : RespTy
  | dealStack : RespTy
  | loginRefreshResponse : RespTy
  | customerPointResponse : RespTy
  | pointInformationResponse : RespTy
  | catalogResponse : RespTy
  | market : RespTy
  | store : RespTy
  | product : RespTy
  | nutrition : RespTy
  | category : RespTy
  | dimension : RespTy
  | timeRestriction : RespTy
  | pod : RespTy
  | recipe : RespTy
  | ingredient : RespTy
  | extra : RespTy
  | choice : RespTy
  | comment : RespTy
  | names : RespTy
  | name : RespTy
  | smartRouting : RespTy
  | productPrice : RespTy
  | price : RespTy
  | availability : RespTy
  | restaurantResponse : RespTy
  | innerRestaurantResponse : RespTy
  | fullRestaurantInformation : RespTy
  | catalog : RespTy
  | pointsOfDistribution : RespTy
  | digitalService : RespTy
  | technology : RespTy
  | tableService : RespTy
  | order : RespTy
  | autoBagSaleInformation : RespTy
  | storeMenuTypeCalendar : RespTy
  | area : RespTy
  | contact : RespTy
  | restaurantNutrition : RespTy
  | offerConfiguration : RespTy
  | offerBucket : RespTy
  | storeType : RespTy
  | servicePayment : RespTy
  | generalStatus : RespTy
  | availableMenuProducts : RespTy
  | token : RespTy
  | tokenResponse : RespTy
  | loginResponse : RespTy
  | registrationResponse : RespTy
  | activationResponse : RespTy
deriving DecidableEq

/-- The Lean carrier of each declared response type (`Action` is
embedded as `OfferAction`). -/
def RespTy.Carrier : RespTy → Type
  | RespTy.accessTokenResponse => AccessTokenResponse
  | RespTy.offerResponse => OfferResponse
  | RespTy.status => Status
  | RespTy.offerList => OfferList
  | RespTy.offer => Offer
  | RespTy.punchInfo => PunchInfo
  | RespTy.recurringInfo => RecurringInfo
  | RespTy.conditions => Conditions
  | RespTy.saleAmountCondition => SaleAmountCondition
  | RespTy.restaurantLocationResponse => RestaurantLocationResponse
  | RespTy.restaurantLocationList => RestaurantLocationList
  | RespTy.restaurant => Restaurant
  | RespTy.address => Address
  | RespTy.mcDeliveries => McDeliveries
  | RespTy.location => Location
  | RespTy.weekOpeningHour => WeekOpeningHour
  | RespTy.service => Service
  | RespTy.offerDetailsResponse => OfferDetailsResponse
  | RespTy.offerDetails => OfferDetails
  | RespTy.productSet => ProductSet
  | RespTy.action => OfferAction
  | RespTy.frequencyOfferInfo => FrequencyOfferInfo
  | RespTy.offerDealStackResponse => OfferDealStackResponse
  | RespTy.offerDealStack => OfferDealStack
  | RespTy.dealStack => DealStack
  | RespTy.loginRefreshResponse => LoginRefreshResponse
  | RespTy.customerPointResponse => CustomerPointResponse
  | RespTy.pointInformationResponse => PointInformationResponse
  | RespTy.catalogResponse => CatalogResponse
  | RespTy.market => Market
  | RespTy.store => Store
  | RespTy.product => Product
  | RespTy.nutrition => Nutrition
  | RespTy.category => Category
  | RespTy.dimension => Dimension
  | RespTy.timeRestriction => TimeRestriction
  | RespTy.pod => Pod
  | RespTy.recipe => Recipe
  | RespTy.ingredient => Ingredient
  | RespTy.extra => Extra
  | RespTy.choice => Choice
  | RespTy.comment => Comment
  | RespTy.names => Names
  | RespTy.name => Name
  | RespTy.smartRouting => SmartRouting
  | RespTy.productPrice => ProductPrice
  | RespTy.price => Price
  | RespTy.availability => Availability
  | RespTy.restaurantResponse => RestaurantResponse
  | RespTy.innerRestaurantResponse => InnerRestaurantResponse
  | RespTy.fullRestaurantInformation => FullRestaurantInformation
  | RespTy.catalog => Catalog
  | RespTy.pointsOfDistribution => PointsOfDistribution
  | RespTy.digitalService => DigitalService
  | RespTy.technology => Technology
  | RespTy.tableService => TableService
  | RespTy.order => Order
  | RespTy.autoBagSaleInformation => AutoBagSaleInformation
  | RespTy.storeMenuTypeCalendar => StoreMenuTypeCalendar
  | RespTy.area => Area
  | RespTy.contact => Contact
  | RespTy.restaurantNutrition => RestaurantNutrition
  | RespTy.offerConfiguration => OfferConfiguration
  | RespTy.offerBucket => OfferBucket
  | RespTy.storeType => StoreType
  | RespTy.servicePayment => ServicePayment
  | RespTy.generalStatus => GeneralStatus
  | RespTy.availableMenuProducts => AvailableMenuProducts
  | RespTy.token => Token
  | RespTy.tokenResponse => TokenResponse
  | RespTy.loginResponse => LoginResponse
  | RespTy.registrationResponse => RegistrationResponse
  | RespTy.activationResponse => ActivationResponse

/-- The `Deserialize` instance of each declared response type (every one
of them derives `Deserialize`). -/
def RespTy.deserialize : (t : RespTy) → Json → Except String t.Carrier
  | RespTy.accessTokenResponse => AccessTokenResponse.fromJson
  | RespTy.offerResponse => OfferResponse.fromJson
  | RespTy.status => Status.fromJson
  | RespTy.offerList => OfferList.fromJson
  | RespTy.offer => Offer.fromJson
  | RespTy.punchInfo => PunchInfo.fromJson
  | RespTy.recurringInfo => RecurringInfo.fromJson
  | RespTy.conditions => Conditions.fromJson
  | RespTy.saleAmountCondition => SaleAmountCondition.fromJson
  | RespTy.restaurantLocationResponse => RestaurantLocationResponse.fromJson
  | RespTy.restaurantLocationList => RestaurantLocationList.fromJson
  | RespTy.restaurant => Restaurant.fromJson
  | RespTy.address => Address.fromJson
  | RespTy.mcDeliveries => McDeliveries.fromJson
  | RespTy.location => Location.fromJson
  | RespTy.weekOpeningHour => WeekOpeningHour.fromJson
  | RespTy.service => Service.fromJson
  | RespTy.offerDetailsResponse => OfferDetailsResponse.fromJson
  | RespTy.offerDetails => OfferDetails.fromJson
  | RespTy.productSet => ProductSet.fromJson
  | RespTy.action => OfferAction.fromJson
  | RespTy.frequencyOfferInfo => FrequencyOfferInfo.fromJson
  | RespTy.offerDealStackResponse => OfferDealStackResponse.fromJson
  | RespTy.offerDealStack => OfferDealStack.fromJson
  | RespTy.dealStack => DealStack.fromJson
  | RespTy.loginRefreshResponse => LoginRefreshResponse.fromJson
  | RespTy.customerPointResponse => CustomerPointResponse.fromJson
  | RespTy.pointInformationResponse => PointInformationResponse.fromJson
  | RespTy.catalogResponse => CatalogResponse.fromJson
  | RespTy.market => Market.fromJson
  | RespTy.store => Store.fromJson
  | RespTy.product => Product.fromJson
  | RespTy.nutrition => Nutrition.fromJson
  | RespTy.category => Category.fromJson
  | RespTy.dimension => Dimension.fromJson
  | RespTy.timeRestriction => TimeRestriction.fromJson
  | RespTy.pod => Pod.fromJson
  | RespTy.recipe => Recipe.fromJson
  | RespTy.ingredient => Ingredient.fromJson
  | RespTy.extra => Extra.fromJson
  | RespTy.choice => Choice.fromJson
  | RespTy.comment => Comment.fromJson
  | RespTy.names => Names.fromJson
  | RespTy.name => Name.fromJson
  | RespTy.smartRouting => SmartRouting.fromJson
  | RespTy.productPrice => ProductPrice.fromJson
  | RespTy.price => Price.fromJson
  | RespTy.availability => Availability.fromJson
  | RespTy.restaurantResponse => RestaurantResponse.fromJson
  | RespTy.innerRestaurantResponse => InnerRestaurantResponse.fromJson
  | RespTy.fullRestaurantInformation => FullRestaurantInformation.fromJson
  | RespTy.catalog => Catalog.fromJson
  | RespTy.pointsOfDistribution => PointsOfDistribution.fromJson
  | RespTy.digitalService => DigitalService.fromJson
  | RespTy.technology => Technology.fromJson
  | RespTy.tableService => TableService.fromJson
  | RespTy.order => Order.fromJson
  | RespTy.autoBagSaleInformation => AutoBagSaleInformation.fromJson
  | RespTy.storeMenuTypeCalendar => StoreMenuTypeCalendar.fromJson
  | RespTy.area => Area.fromJson
  | RespTy.contact => Contact.fromJson
  | RespTy.restaurantNutrition => RestaurantNutrition.fromJson
  | RespTy.offerConfiguration => OfferConfiguration.fromJson
  | RespTy.offerBucket => OfferBucket.fromJson
  | RespTy.storeType => StoreType.fromJson
  | RespTy.servicePayment => ServicePayment.fromJson
  | RespTy.generalStatus => GeneralStatus.fromJson
  | RespTy.availableMenuProducts => AvailableMenuProducts.fromJson
  | RespTy.token => Token.fromJson
  | RespTy.tokenResponse => TokenResponse.fromJson
  | RespTy.loginResponse => LoginResponse.fromJson
  | RespTy.registrationResponse => RegistrationResponse.fromJson
  | RespTy.activationResponse => ActivationResponse.fromJson

/-- The `Serialize` instance of each declared response type where the
source derives one; `Token`, `TokenResponse`, `LoginResponse`,
`RegistrationResponse` and `ActivationResponse` derive only
`Deserialize`, so no serializer exists for them. -/
def RespTy.serialize? : (t : RespTy) → Option (t.Carrier → Json)
  | RespTy.accessTokenResponse => some AccessTokenResponse.toJson
  | RespTy.offerResponse => some OfferResponse.toJson
  | RespTy.status => some Status.toJson
  | RespTy.offerList => some OfferList.toJson
  | RespTy.offer => some Offer.toJson
  | RespTy.punchInfo => some PunchInfo.toJson
  | RespTy.recurringInfo => some RecurringInfo.toJson
  | RespTy.conditions => some Conditions.toJson
  | RespTy.saleAmountCondition => some SaleAmountCondition.toJson
  | RespTy.restaurantLocationResponse => some RestaurantLocationResponse.toJson
  | RespTy.restaurantLocationList => some RestaurantLocationList.toJson
  | RespTy.restaurant => some Restaurant.toJson
  | RespTy.address => some Address.toJson
  | RespTy.mcDeliveries => some McDeliveries.toJson
  | RespTy.location => some Location.toJson
  | RespTy.weekOpeningHour => some WeekOpeningHour.toJson
  | RespTy.service => some Service.toJson
  | RespTy.offerDetailsResponse => some OfferDetailsResponse.toJson
  | RespTy.offerDetails => some OfferDetails.toJson
  | RespTy.productSet => some ProductSet.toJson
  | RespTy.action => some OfferAction.toJson
  | RespTy.frequencyOfferInfo => some FrequencyOfferInfo.toJson
  | RespTy.offerDealStackResponse => some OfferDealStackResponse.toJson
  | RespTy.offerDealStack => some OfferDealStack.toJson
  | RespTy.dealStack => some DealStack.toJson
  | RespTy.loginRefreshResponse => some LoginRefreshResponse.toJson
  | RespTy.customerPointResponse => some CustomerPointResponse.toJson
  | RespTy.pointInformationResponse => some PointInformationResponse.toJson
  | RespTy.catalogResponse => some CatalogResponse.toJson
  | RespTy.market => some Market.toJson
  | RespTy.store => some Store.toJson
  | RespTy.product => some Product.toJson
  | RespTy.nutrition => some Nutrition.toJson
  | RespTy.category => some Category.toJson
  | RespTy.dimension => some Dimension.toJson
  | RespTy.timeRestriction => some TimeRestriction.toJson
  | RespTy.pod => some Pod.toJson
  | RespTy.recipe => some Recipe.toJson
  | RespTy.ingredient => some Ingredient.toJson
  | RespTy.extra => some Extra.toJson
  | RespTy.choice => some Choice.toJson
  | RespTy.comment => some Comment.toJson
  | RespTy.names => some Names.toJson
  | RespTy.name => some Name.toJson
  | RespTy.smartRouting => some SmartRouting.toJson
  | RespTy.productPrice => some ProductPrice.toJson
  | RespTy.price => some Price.toJson
  | RespTy.availability => some Availability.toJson
  | RespTy.restaurantResponse => some RestaurantResponse.toJson
  | RespTy.innerRestaurantResponse => some InnerRestaurantResponse.toJson
  | RespTy.fullRestaurantInformation => some FullRestaurantInformation.toJson
  | RespTy.catalog => some Catalog.toJson
  | RespTy.pointsOfDistribution => some PointsOfDistribution.toJson
  | RespTy.digitalService => some DigitalService.toJson
  | RespTy.technology => some Technology.toJson
  | RespTy.tableService => some TableService.toJson
  | RespTy.order => some Order.toJson
  | RespTy.autoBagSaleInformation => some AutoBagSaleInformation.toJson
  | RespTy.storeMenuTypeCalendar => some StoreMenuTypeCalendar.toJson
  | RespTy.area => some Area.toJson
  | RespTy.contact => some Contact.toJson
  | RespTy.restaurantNutrition => some RestaurantNutrition.toJson
  | RespTy.offerConfiguration => some OfferConfiguration.toJson
  | RespTy.offerBucket => some OfferBucket.toJson
  | RespTy.storeType => some StoreType.toJson
  | RespTy.servicePayment => some ServicePayment.toJson
  | RespTy.generalStatus => some GeneralStatus.toJson
  | RespTy.availableMenuProducts => some AvailableMenuProducts.toJson
  | RespTy.token => none
  | RespTy.tokenResponse => none
  | RespTy.loginResponse => none
  | RespTy.registrationResponse => none
  | RespTy.activationResponse => none

/-- Representability of a value in the Rust field types (integer fields
within the `i64` range, float fields finite); `True` where no such field
occurs or where the type is never serialized. -/
def RespTy.WF : (t : RespTy) → t.Carrier → Prop
  | RespTy.accessTokenResponse => fun _ => True
  | RespTy.offerResponse => OfferResponse.WF
  | RespTy.status => fun _ => True
  | RespTy.offerList => OfferList.WF
  | RespTy.offer => Offer.WF
  | RespTy.punchInfo => PunchInfo.WF
  | RespTy.recurringInfo => RecurringInfo.WF
  | RespTy.conditions => Conditions.WF
  | RespTy.saleAmountCondition => SaleAmountCondition.WF
  | RespTy.restaurantLocationResponse => RestaurantLocationResponse.WF
  | RespTy.restaurantLocationList => RestaurantLocationList.WF
  | RespTy.restaurant => Restaurant.WF
  | RespTy.address => fun _ => True
  | RespTy.mcDeliveries => fun _ => True
  | RespTy.location => Location.WF
  | RespTy.weekOpeningHour => WeekOpeningHour.WF
  | RespTy.service => fun _ => True
  | RespTy.offerDetailsResponse => OfferDetailsResponse.WF
  | RespTy.offerDetails => OfferDetails.WF
  | RespTy.productSet => ProductSet.WF
  | RespTy.action => OfferAction.WF
  | RespTy.frequencyOfferInfo => FrequencyOfferInfo.WF
  | RespTy.offerDealStackResponse => OfferDealStackResponse.WF
  | RespTy.offerDealStack => OfferDealStack.WF
  | RespTy.dealStack => DealStack.WF
  | RespTy.loginRefreshResponse => fun _ => True
  | RespTy.customerPointResponse => CustomerPointResponse.WF
  | RespTy.pointInformationResponse => PointInformationResponse.WF
  | RespTy.catalogResponse => CatalogResponse.WF
  | RespTy.market => fun _ => True
  | RespTy.store => Store.WF
  | RespTy.product => Product.WF
  | RespTy.nutrition => Nutrition.WF
  | RespTy.category => Category.WF
  | RespTy.dimension => Dimension.WF
  | RespTy.timeRestriction => fun _ => True
  | RespTy.pod => Pod.WF
  | RespTy.recipe => Recipe.WF
  | RespTy.ingredient => Ingredient.WF
  | RespTy.extra => Extra.WF
  | RespTy.choice => Choice.WF
  | RespTy.comment => Comment.WF
  | RespTy.names => Names.WF
  | RespTy.name => fun _ => True
  | RespTy.smartRouting => fun _ => True
  | RespTy.productPrice => ProductPrice.WF
  | RespTy.price => Price.WF
  | RespTy.availability => Availability.WF
  | RespTy.restaurantResponse => RestaurantResponse.WF
  | RespTy.innerRestaurantResponse => InnerRestaurantResponse.WF
  | RespTy.fullRestaurantInformation => FullRestaurantInformation.WF
  | RespTy.catalog => Catalog.WF
  | RespTy.pointsOfDistribution => PointsOfDistribution.WF
  | RespTy.digitalService => fun _ => True
  | RespTy.technology => fun _ => True
  | RespTy.tableService => TableService.WF
  | RespTy.order => Order.WF
  | RespTy.autoBagSaleInformation => AutoBagSaleInformation.WF
  | RespTy.storeMenuTypeCalendar => StoreMenuTypeCalendar.WF
  | RespTy.area => fun _ => True
  | RespTy.contact => fun _ => True
  | RespTy.restaurantNutrition => fun _ => True
  | RespTy.offerConfiguration => OfferConfiguration.WF
  | RespTy.offerBucket => OfferBucket.WF
  | RespTy.storeType => fun _ => True
  | RespTy.servicePayment => ServicePayment.WF
  | RespTy.generalStatus => GeneralStatus.WF
  | RespTy.availableMenuProducts => AvailableMenuProducts.WF
  | RespTy.token => fun _ => True
  | RespTy.tokenResponse => fun _ => True
  | RespTy.loginResponse => fun _ => True
  | RespTy.registrationResponse => fun _ => True
  | RespTy.activationResponse => fun _ => True

/-- **C8** (amended): for every declared vendor response type that
derives `Serialize` (all 68 of them — the five `Deserialize`-only
envelopes have no serializer), and every representable value of it
(integer fields within the `i64` range, float fields finite), including
values with optional fields absent, serializing to JSON and
deserializing reproduces an equal structure. -/
theorem claim_C8_amended :
    ∀ (t : RespTy) (s : t.Carrier → Json), RespTy.serialize? t = some s →
      ∀ v : t.Carrier, RespTy.WF t v → RespTy.deserialize t (s v) = Except.ok v := by
  intro t s hs v hv
  cases t with
  | accessTokenResponse =>
    simp only [RespTy.serialize?, Option.some.injEq] at hs
    subst hs; exact roundtrip_AccessTokenResponse v
  | offerResponse =>
    simp only [RespTy.serialize?, Option.some.injEq] at hs
    subst hs; exact roundtrip_OfferResponse v hv
  | status =>
    simp only [RespTy.serialize?, Option.some.injEq] at hs
    subst hs; exact roundtrip_Status v
  | offerList =>
    simp only [RespTy.serialize?, Option.some.injEq] at hs
    subst hs; exact roundtrip_OfferList v hv
  | offer =>
    simp only [RespTy.serialize?, Option.some.injEq] at hs
    subst hs; exact roundtrip_Offer v hv
  | punchInfo =>
    simp only [RespTy.serialize?, Option.some.injEq] at hs
    subst hs; exact roundtrip_PunchInfo v hv
  | recurringInfo =>
    simp only [RespTy.serialize?, Option.some.injEq] at hs
    subst hs; exact roundtrip_RecurringInfo v hv
  | conditions =>
    simp only [RespTy.serialize?, Option.some.injEq] at hs
    subst hs; exact roundtrip_Conditions v hv
  | saleAmountCondition =>
    simp only [RespTy.serialize?, Option.some.injEq] at hs
    subst hs; exact roundtrip_SaleAmountCondition v hv
  | restaurantLocationResponse =>
    simp only [RespTy.serialize?, Option.some.injEq] at hs
    subst hs; exact roundtrip_RestaurantLocationResponse v hv
  | restaurantLocationList =>
    simp only [RespTy.serialize?, Option.some.injEq] at hs
    subst hs; exact roundtrip_RestaurantLocationList v hv
  | restaurant =>
    simp only [RespTy.serialize?, Option.some.injEq] at hs
    subst hs; exact roundtrip_Restaurant v hv
  | address =>
    simp only [RespTy.serialize?, Option.some.injEq] at hs
    subst hs; exact roundtrip_Address v
  | mcDeliveries =>
    simp only [RespTy.serialize?, Option.some.injEq] at hs
    subst hs; exact roundtrip_McDeliveries v
  | location =>
    simp only [RespTy.serialize?, Option.some.injEq] at hs
    subst hs; exact roundtrip_Location v hv
  | weekOpeningHour =>
    simp only [RespTy.serialize?, Option.some.injEq] at hs
    subst hs; exact roundtrip_WeekOpeningHour v hv
  | service =>
    simp only [RespTy.serialize?, Option.some.injEq] at hs
    subst hs; exact roundtrip_Service v
  | offerDetailsResponse =>
    simp only [RespTy.serialize?, Option.some.injEq] at hs
    subst hs; exact roundtrip_OfferDetailsResponse v hv
  | offerDetails =>
    simp only [RespTy.serialize?, Option.some.injEq] at hs
    subst hs; exact roundtrip_OfferDetails v hv
  | productSet =>
    simp only [RespTy.serialize?, Option.some.injEq] at hs
    subst hs; exact roundtrip_ProductSet v hv
  | action =>
    simp only [RespTy.serialize?, Option.some.injEq] at hs
    subst hs; exact roundtrip_OfferAction v hv
  | frequencyOfferInfo =>
    simp only [RespTy.serialize?, Option.some.injEq] at hs
    subst hs; exact roundtrip_FrequencyOfferInfo v hv
  | offerDealStackResponse =>
    simp only [RespTy.serialize?, Option.some.injEq] at hs
    subst hs; exact roundtrip_OfferDealStackResponse v hv
  | offerDealStack =>
    simp only [RespTy.serialize?, Option.some.injEq] at hs
    subst hs; exact roundtrip_OfferDealStack v hv
  | dealStack =>
    simp only [RespTy.serialize?, Option.some.injEq] at hs
    subst hs; exact roundtrip_DealStack v hv
  | loginRefreshResponse =>
    simp only [RespTy.serialize?, Option.some.injEq] at hs
    subst hs; exact roundtrip_LoginRefreshResponse v
  | customerPointResponse =>
    simp only [RespTy.serialize?, Option.some.injEq] at hs
    subst hs; exact roundtrip_CustomerPointResponse v hv
  | pointInformationResponse =>
    simp only [RespTy.serialize?, Option.some.injEq] at hs
    subst hs; exact roundtrip_PointInformationResponse v hv
  | catalogResponse =>
    simp only [RespTy.serialize?, Option.some.injEq] at hs
    subst hs; exact roundtrip_CatalogResponse v hv
  | market =>
    simp only [RespTy.serialize?, Option.some.injEq] at hs
    subst hs; exact roundtrip_Market v
  | store =>
    simp only [RespTy.serialize?, Option.some.injEq] at hs
    subst hs; exact roundtrip_Store v hv
  | product =>
    simp only [RespTy.serialize?, Option.some.injEq] at hs
    subst hs; exact roundtrip_Product v hv
  | nutrition =>
    simp only [RespTy.serialize?, Option.some.injEq] at hs
    subst hs; exact roundtrip_Nutrition v hv
  | category =>
    simp only [RespTy.serialize?, Option.some.injEq] at hs
    subst hs; exact roundtrip_Category v hv
  | dimension =>
    simp only [RespTy.serialize?, Option.some.injEq] at hs
    subst hs; exact roundtrip_Dimension v hv
  | timeRestriction =>
    simp only [RespTy.serialize?, Option.some.injEq] at hs
    subst hs; exact roundtrip_TimeRestriction v
  | pod =>
    simp only [RespTy.serialize?, Option.some.injEq] at hs
    subst hs; exact roundtrip_Pod v hv
  | recipe =>
    simp only [RespTy.serialize?, Option.some.injEq] at hs
    subst hs; exact roundtrip_Recipe v hv
  | ingredient =>
    simp only [RespTy.serialize?, Option.some.injEq] at hs
    subst hs; exact roundtrip_Ingredient v hv
  | extra =>
    simp only [RespTy.serialize?, Option.some.injEq] at hs
    subst hs; exact roundtrip_Extra v hv
  | choice =>
    simp only [RespTy.serialize?, Option.some.injEq] at hs
    subst hs; exact roundtrip_Choice v hv
  | comment =>
    simp only [RespTy.serialize?, Option.some.injEq] at hs
    subst hs; exact roundtrip_Comment v hv
  | names =>
    simp only [RespTy.serialize?, Option.some.injEq] at hs
    subst hs; exact roundtrip_Names v hv
  | name =>
    simp only [RespTy.serialize?, Option.some.injEq] at hs
    subst hs; exact roundtrip_Name v
  | smartRouting =>
    simp only [RespTy.serialize?, Option.some.injEq] at hs
    subst hs; exact roundtrip_SmartRouting v
  | productPrice =>
    simp only [RespTy.serialize?, Option.some.injEq] at hs
    subst hs; exact roundtrip_ProductPrice v hv
  | price =>
    simp only [RespTy.serialize?, Option.some.injEq] at hs
    subst hs; exact roundtrip_Price v hv
  | availability =>
    simp only [RespTy.serialize?, Option.some.injEq] at hs
    subst hs; exact roundtrip_Availability v hv
  | restaurantResponse =>
    simp only [RespTy.serialize?, Option.some.injEq] at hs
    subst hs; exact roundtrip_RestaurantResponse v hv
  | innerRestaurantResponse =>
    simp only [RespTy.serialize?, Option.some.injEq] at hs
    subst hs; exact roundtrip_InnerRestaurantResponse v hv
  | fullRestaurantInformation =>
    simp only [RespTy.serialize?, Option.some.injEq] at hs
    subst hs; exact roundtrip_FullRestaurantInformation v hv
  | catalog =>
    simp only [RespTy.serialize?, Option.some.injEq] at hs
    subst hs; exact roundtrip_Catalog v hv
  | pointsOfDistribution =>
    simp only [RespTy.serialize?, Option.some.injEq] at hs
    subst hs; exact roundtrip_PointsOfDistribution v hv
  | digitalService =>
    simp only [RespTy.serialize?, Option.some.injEq] at hs
    subst hs; exact roundtrip_DigitalService v
  | technology =>
    simp only [RespTy.serialize?, Option.some.injEq] at hs
    subst hs; exact roundtrip_Technology v
  | tableService =>
    simp only [RespTy.serialize?, Option.some.injEq] at hs
    subst hs; exact roundtrip_TableService v hv
  | order =>
    simp only [RespTy.serialize?, Option.some.injEq] at hs
    subst hs; exact roundtrip_Order v hv
  | autoBagSaleInformation =>
    simp only [RespTy.serialize?, Option.some.injEq] at hs
    subst hs; exact roundtrip_AutoBagSaleInformation v hv
  | storeMenuTypeCalendar =>
    simp only [RespTy.serialize?, Option.some.injEq] at hs
    subst hs; exact roundtrip_StoreMenuTypeCalendar v hv
  | area =>
    simp only [RespTy.serialize?, Option.some.injEq] at hs
    subst hs; exact roundtrip_Area v
  | contact =>
    simp only [RespTy.serialize?, Option.some.injEq] at hs
    subst hs; exact roundtrip_Contact v
  | restaurantNutrition =>
    simp only [RespTy.serialize?, Option.some.injEq] at hs
    subst hs; exact roundtrip_RestaurantNutrition v
  | offerConfiguration =>
    simp only [RespTy.serialize?, Option.some.injEq] at hs
    subst hs; exact roundtrip_OfferConfiguration v hv
  | offerBucket =>
    simp only [RespTy.serialize?, Option.some.injEq] at hs
    subst hs; exact roundtrip_OfferBucket v hv
  | storeType =>
    simp only [RespTy.serialize?, Option.some.injEq] at hs
    subst hs; exact roundtrip_StoreType v
  | servicePayment =>
    simp only [RespTy.serialize?, Option.some.injEq] at hs
    subst hs; exact roundtrip_ServicePayment v hv
  | generalStatus =>
    simp only [RespTy.serialize?, Option.some.injEq] at hs
    subst hs; exact roundtrip_GeneralStatus v hv
  | availableMenuProducts =>
    simp only [RespTy.serialize?, Option.some.injEq] at hs
    subst hs; exact roundtrip_AvailableMenuProducts v hv
  | token => simp [RespTy.serialize?] at hs
  | tokenResponse => simp [RespTy.serialize?] at hs
  | loginResponse => simp [RespTy.serialize?] at hs
  | registrationResponse => simp [RespTy.serialize?] at hs
  | activationResponse => simp [RespTy.serialize?] at hs

/-- **C8** counterexample to the claim as stated ("for every declared
vendor response type and every populated value of it, serialize then
deserialize is the identity"): first, the token-exchange envelope
`TokenResponse` (like `Token`, `LoginResponse`, `RegistrationResponse`,
`ActivationResponse`) derives only `Deserialize` in the source, so the
serialize-then-deserialize operation does not even exist for it; and
second, a populated `Location` whose latitude is NaN (bit pattern
0x7FF8000000000000) serializes to `null` (serde_json's `Number::from_f64`
rejects non-finite floats) and then fails to deserialize, so even a
`Serialize`-deriving type does not round-trip at every populated
value. -/
theorem claim_C8_counterexample :
    (¬ ∀ t : RespTy, ∃ s : t.Carrier → Json,
        RespTy.serialize? t = some s ∧
        ∀ v : t.Carrier, RespTy.deserialize t (s v) = Except.ok v) ∧
    RespTy.deserialize RespTy.location
        (Location.toJson (Location.mk (F64.mk 9221120237041090560) (F64.mk 0))) =
      Except.error "invalid type: expected f64" := by
  constructor
  · intro h
    obtain ⟨s, hs, _⟩ := h RespTy.tokenResponse
    simp [RespTy.serialize?] at hs
  · rfl

/-- **C8** witness: a concrete `OfferResponse` with the optional payload
present and an offer inside round-trips. -/
theorem claim_C8_witness :
    RespTy.deserialize RespTy.offerResponse
        (OfferResponse.toJson
          (OfferResponse.mk (Status.mk (Json.num 0) (some "OK") none (some ""))
            (some (OfferList.mk
              [Offer.mk 166870 1139347703 3 "2024-01-01T00:00" "2024-01-02T23:59"
                "2024-01-01T08:00" "2024-01-03T07:59" "Small Fries" "Small Fries" ""
                "fries.png" none 0 false false false false "bucket-1"
                (PunchInfo.mk 5 2)
                (some (RecurringInfo.mk (some 10) (some 1) none none (some 4) none
                  none none))
                (Conditions.mk ["monday"] [] [SaleAmountCondition.mk true 100 false
                  true none false])
                0 true "2023-12-31" false false [Json.str "breakfast"]])))) =
      Except.ok
        (OfferResponse.mk (Status.mk (Json.num 0) (some "OK") none (some ""))
          (some (OfferList.mk
            [Offer.mk 166870 1139347703 3 "2024-01-01T00:00" "2024-01-02T23:59"
              "2024-01-01T08:00" "2024-01-03T07:59" "Small Fries" "Small Fries" ""
              "fries.png" none 0 false false false false "bucket-1"
              (PunchInfo.mk 5 2)
              (some (RecurringInfo.mk (some 10) (some 1) none none (some 4) none
                none none))
              (Conditions.mk ["monday"] [] [SaleAmountCondition.mk true 100 false
                true none false])
              0 true "2023-12-31" false false [Json.str "breakfast"]]))) :=
  claim_C8_amended RespTy.offerResponse OfferResponse.toJson rfl _
    (by
      intro l hl
      simp only [Option.mem_def, Option.some.injEq] at hl
      subst hl
      intro x hx
      simp only [List.mem_singleton] at hx
      subst hx
      exact ⟨by decide, by decide, by decide, by decide, by decide, ⟨by decide, by decide⟩,
        by intro r hr; simp only [Option.mem_def, Option.some.injEq] at hr; subst hr;
           exact ⟨by decide, by decide, rfl, rfl, by decide, rfl, rfl, rfl⟩,
        by intro sc hsc; simp only [List.mem_singleton] at hsc; subst hsc;
           exact (by decide : i64Bounded 100 = true)⟩)
